import Mathlib

/-!
# RTSP client PLAY / PAUSE session control

A shallow embedding of `librtsp/source/client/rtsp-client-pause.c` and
`librtsp/source/client/rtsp-client-play.c`, followed by theorems about the
request/reply state machine they implement.

Conventions of the embedding:

* a C string is a list of characters (`CStr`);
* `unsigned int` counters are natural numbers, incremented modulo `2 ^ 32`;
  `uint64_t` values are natural numbers, `(uint64_t)(-1)` is `2 ^ 64 - 1`;
* the session structure is passed explicitly and returned with the result;
* calls of `handler.send`, `handler.onpause` and `handler.onplay` are appended,
  in the order they happen, to a trace of events; the value `send` returns is
  given by an oracle that sees the trace so far;
* `assert` is modelled for both kinds of build: with `NDEBUG` an assertion
  does nothing, without it a failed assertion ends the run (`Outcome.abort`).
-/

/-- A C string: the characters before the terminating NUL. -/
abbrev CStr := List Char

/-- Modulus of `unsigned int` arithmetic (the `cseq` counters are printed with `%u`). -/
def UINT_MOD : Nat := 2 ^ 32

/-- The value `(uint64_t)(-1)`. -/
def UINT64_MAX : Nat := 2 ^ 64 - 1

/-- A floating point argument of `printf`. Floating point arithmetic is not modelled:
the value is carried as the text that `%f` renders for it. -/
structure c_float where
  fmt_f : CStr
deriving DecidableEq, Repr

/-- The `double` that `atof` returns for a text. Floating point arithmetic is not
modelled: the value is carried as the text it was read from. -/
structure c_double where
  atof : CStr
deriving DecidableEq, Repr

/-- One variadic argument of `snprintf`. -/
inductive Arg
  | s (v : CStr)
  | u (v : Nat)
  | f (v : c_float)
deriving DecidableEq, Repr

/-- The text `printf` produces for a format and its arguments, for the conversions
the two files use: `%s`, `%u`, `%lu`, `%llu` and `%f`. Arguments left over when the
format ends are ignored, as in C. -/
def format : CStr → List Arg → CStr
  | [], _ => []
  | '%' :: 's' :: fmt, Arg.s v :: args => v ++ format fmt args
  | '%' :: 'u' :: fmt, Arg.u v :: args => Nat.toDigits 10 v ++ format fmt args
  | '%' :: 'l' :: 'u' :: fmt, Arg.u v :: args => Nat.toDigits 10 v ++ format fmt args
  | '%' :: 'l' :: 'l' :: 'u' :: fmt, Arg.u v :: args => Nat.toDigits 10 v ++ format fmt args
  | '%' :: 'f' :: fmt, Arg.f v :: args => v.fmt_f ++ format fmt args
  | c :: fmt, args => c :: format fmt args

/-- The call `snprintf(buf, size, fmt, ...)`: the buffer receives at most `size - 1` characters
of the formatted text, the return value is the length of the whole formatted text.
(`size` is the `sizeof` of a character array, hence positive.) -/
def snprintf (size : Nat) (fmt : CStr) (args : List Arg) : CStr × Int :=
  ((format fmt args).take (size - 1), ((format fmt args).length : Int))

/-- The call `strchr(s, c)`: the suffix of `s` that starts at the first occurrence of `c`,
or `none` (NULL) when `c` does not occur. -/
def strchr : CStr → Char → Option CStr
  | [], _ => none
  | x :: xs, c => if x = c then some (x :: xs) else strchr xs c

/-- The conversion macro `PRIu64` of `<inttypes.h>`. -/
def PRIu64 : String := "llu"

/-- Modelled from the spec: the session states (`state ∈ {Init, Setup, Play, Pause}`);
the enumeration is declared in `rtsp-client-internal.h`. -/
inductive rtsp_state
  | RTSP_INIT
  | RTSP_SETUP
  | RTSP_PLAY
  | RTSP_PAUSE
deriving DecidableEq, Repr

/-- Modelled from the spec: a track (`struct rtsp_media_t`), with the fields the two
files read: `uri`, `cseq` and `session.session`. -/
structure rtsp_media_t where
  uri : CStr
  cseq : Nat
  session : CStr
deriving DecidableEq, Repr

/-- Modelled from the spec: the session (`struct rtsp_client_t`), with the fields the
two files use. `media` holds the tracks in index order; `media_count` is its length. -/
structure rtsp_client_t where
  state : rtsp_state
  aggregate : Bool
  aggregate_uri : CStr
  cseq : Nat
  progress : Nat
  media : List rtsp_media_t
  range : CStr
  speed : CStr
  req : CStr
deriving DecidableEq, Repr

/-- The field `rtsp->media_count`. -/
def media_count (rtsp : rtsp_client_t) : Nat := rtsp.media.length

/-- Modelled from the spec: `rtsp_get_media(rtsp, i)` is `tracks[i]`, NULL when there
is no such track; the function is declared in `rtsp-client-internal.h`. -/
def rtsp_get_media (rtsp : rtsp_client_t) (i : Nat) : Option rtsp_media_t := rtsp.media[i]?

/-- The kinds of a bound of a decoded `Range` header (`rtsp-header-range.h`). -/
inductive rtsp_range_time_t
  | RTSP_RANGE_TIME_NORMAL
  | RTSP_RANGE_TIME_NOW
  | RTSP_RANGE_TIME_NOVALUE
deriving DecidableEq, Repr

/-- The decoded `Range` header (`struct rtsp_header_range_t`), with the fields read here. -/
structure rtsp_header_range_t where
  from_value : rtsp_range_time_t
  to_value : rtsp_range_time_t
  «from» : Nat
  «to» : Nat
deriving DecidableEq, Repr

/-- One decoded `RTP-Info` entry (`struct rtsp_header_rtp_info_t`). -/
structure rtsp_header_rtp_info_t where
  url : CStr
  seq : Nat
  rtptime : Nat
deriving DecidableEq, Repr

/-- One slot of the array handed to `onplay` (`struct rtsp_rtp_info_t`); `uri` is
`none` (NULL) in a slot that `memset` cleared and nothing filled. -/
structure rtsp_rtp_info_t where
  uri : Option CStr
  seq : Nat
  time : Nat
deriving DecidableEq, Repr

/-- The calls made through `rtsp->handler`, in the order they happen. -/
inductive Event
  | send (uri : CStr) (req : CStr) (bytes : Int)
  | onpause
  | onplay (media : Nat) (npt0 : Option Nat) (npt1 : Option Nat) (scale : Option c_double)
      (rtpInfo : List rtsp_rtp_info_t) (count : Nat)
deriving DecidableEq, Repr

/-- The reply handle given to the reply handlers: `rtsp_get_status_code` and
`rtsp_get_header_by_name` of the external reply reader. -/
structure rtsp_reply_t where
  rtsp_get_status_code : Int
  rtsp_get_header_by_name : CStr → Option CStr

/-- What the two files take from their surroundings: the build kind, the constants of
`rtsp-client-internal.h`, the sizes of the character arrays of the session, the
transport, and the header decoders (`none` stands for a non-zero return). -/
structure Env where
  NDEBUG : Bool
  USER_AGENT : CStr
  N_MEDIA : Nat
  req_size : Nat
  range_size : Nat
  speed_size : Nat
  send : List Event → CStr → CStr → Int → Int
  rtsp_header_range : CStr → Option rtsp_header_range_t
  rtsp_header_rtp_info : CStr → Option rtsp_header_rtp_info_t

/-- The result of a call: it returned `r`, or an assertion failed on the way (also used
where the code would read a track that does not exist). Both carry the session and the
trace as they were at that moment. -/
inductive Outcome
  | abort (rtsp : rtsp_client_t) (trace : List Event)
  | ret (r : Int) (rtsp : rtsp_client_t) (trace : List Event)
deriving DecidableEq, Repr

/-- The check `assert(c)` lets the run continue: always with `NDEBUG`, otherwise when `c` holds. -/
def assert (env : Env) (c : Bool) : Bool := env.NDEBUG || c

namespace Pause

/-- The request format of `rtsp-client-pause.c`. -/
def sc_format : CStr :=
  ("PAUSE %s RTSP/1.0\r\n" ++
  "CSeq: %u\r\n" ++
  "Session: %s\r\n" ++
  "User-Agent: %s\r\n" ++
  "\r\n").toList

end Pause

namespace Play

/-- The request format of `rtsp-client-play.c`. -/
def sc_format : CStr :=
  ("PLAY %s RTSP/1.0\r\n" ++
  "CSeq: %u\r\n" ++
  "Session: %s\r\n" ++
  "%s" ++ -- Range
  "%s" ++ -- Speed
  "User-Agent: %s\r\n" ++
  "\r\n").toList

end Play

/-! ## rtsp-client-pause.c -/

/-- The function `rtsp_client_media_pause`: send the PAUSE request of `tracks[progress]`. -/
def rtsp_client_media_pause (env : Env) (rtsp : rtsp_client_t) (trace : List Event) : Outcome :=
  if !assert env (rtsp.aggregate == false) then .abort rtsp trace else
  if !assert env (rtsp.state == .RTSP_PAUSE) then .abort rtsp trace else
  if !assert env (decide (rtsp.progress < media_count rtsp)) then .abort rtsp trace else
  match rtsp_get_media rtsp rtsp.progress with
  | none => .abort rtsp trace
  | some media =>
    if !assert env (media.session != []) then .abort rtsp trace else
    let out := snprintf env.req_size Pause.sc_format
      [.s media.uri, .u media.cseq, .s media.session, .s env.USER_AGENT]
    let rtsp1 := { rtsp with
      req := out.1
      media := rtsp.media.set rtsp.progress { media with cseq := (media.cseq + 1) % UINT_MOD } }
    if !assert env (decide (0 < out.2 ∧ out.2 < (env.req_size : Int))) then .abort rtsp1 trace else
    .ret (if out.2 = env.send trace media.uri out.1 out.2 then 0 else -1) rtsp1
      (trace ++ [Event.send media.uri out.1 out.2])

/-- The function `rtsp_client_pause`. -/
def rtsp_client_pause (env : Env) (rtsp0 : rtsp_client_t) (trace : List Event) : Outcome :=
  if !assert env (rtsp0.state == .RTSP_SETUP || rtsp0.state == .RTSP_PLAY
      || rtsp0.state == .RTSP_PAUSE) then .abort rtsp0 trace else
  let rtsp := { rtsp0 with state := .RTSP_PAUSE, progress := 0 }
  if rtsp.aggregate then
    if !assert env (decide (media_count rtsp > 0)) then .abort rtsp trace else
    if !assert env (rtsp.aggregate_uri != []) then .abort rtsp trace else
    match rtsp.media[0]? with
    | none => .abort rtsp trace
    | some media0 =>
      let out := snprintf env.req_size Pause.sc_format
        [.s rtsp.aggregate_uri, .u rtsp.cseq, .s media0.session, .s env.USER_AGENT]
      let rtsp1 := { rtsp with req := out.1, cseq := (rtsp.cseq + 1) % UINT_MOD }
      if !assert env (decide (0 < out.2 ∧ out.2 < (env.req_size : Int))) then .abort rtsp1 trace else
      .ret (if out.2 = env.send trace rtsp.aggregate_uri out.1 out.2 then 0 else -1) rtsp1
        (trace ++ [Event.send rtsp.aggregate_uri out.1 out.2])
  else
    rtsp_client_media_pause env rtsp trace

/-- The function `rtsp_client_media_pause_onreply`. -/
def rtsp_client_media_pause_onreply (env : Env) (rtsp : rtsp_client_t) (parser : rtsp_reply_t)
    (trace : List Event) : Outcome :=
  if !assert env (decide (rtsp.progress < media_count rtsp)) then .abort rtsp trace else
  let code := parser.rtsp_get_status_code
  if !assert env (460 != code) then .abort rtsp trace else
  if 200 = code then
    let rtsp1 := { rtsp with progress := rtsp.progress + 1 }
    if media_count rtsp1 = rtsp1.progress then
      .ret 0 rtsp1 (trace ++ [Event.onpause])
    else
      rtsp_client_media_pause env rtsp1 trace
  else
    .ret (-1) rtsp trace

/-- The function `rtsp_client_aggregate_pause_onreply`: aggregate control reply. -/
def rtsp_client_aggregate_pause_onreply (env : Env) (rtsp : rtsp_client_t) (parser : rtsp_reply_t)
    (trace : List Event) : Outcome :=
  if !assert env rtsp.aggregate then .abort rtsp trace else
  let code := parser.rtsp_get_status_code
  if 459 = code then
    rtsp_client_media_pause env rtsp trace
  else if 200 = code then
    .ret 0 rtsp (trace ++ [Event.onpause])
  else
    .ret (-1) rtsp trace

/-- The function `rtsp_client_pause_onreply`. -/
def rtsp_client_pause_onreply (env : Env) (rtsp : rtsp_client_t) (parser : rtsp_reply_t)
    (trace : List Event) : Outcome :=
  if !assert env (rtsp.state == .RTSP_PAUSE) then .abort rtsp trace else
  if !assert env (decide (rtsp.progress < media_count rtsp)) then .abort rtsp trace else
  if rtsp.aggregate then
    rtsp_client_aggregate_pause_onreply env rtsp parser trace
  else
    rtsp_client_media_pause_onreply env rtsp parser trace

/-! ## rtsp-client-play.c -/

/-- The function `rtsp_client_media_play`: send the PLAY request of `tracks[progress]`. -/
def rtsp_client_media_play (env : Env) (rtsp : rtsp_client_t) (trace : List Event) : Outcome :=
  if !assert env (rtsp.aggregate == false) then .abort rtsp trace else
  if !assert env (rtsp.state == .RTSP_PLAY) then .abort rtsp trace else
  if !assert env (decide (rtsp.progress < media_count rtsp)) then .abort rtsp trace else
  match rtsp_get_media rtsp rtsp.progress with
  | none => .abort rtsp trace
  | some media =>
    if !assert env (media.session != []) then .abort rtsp trace else
    let out := snprintf env.req_size Play.sc_format
      [.s media.uri, .u media.cseq, .s media.session, .s rtsp.range, .s rtsp.speed,
        .s env.USER_AGENT]
    let rtsp1 := { rtsp with
      req := out.1
      media := rtsp.media.set rtsp.progress { media with cseq := (media.cseq + 1) % UINT_MOD } }
    if !assert env (decide (0 < out.2 ∧ out.2 < (env.req_size : Int))) then .abort rtsp1 trace else
    .ret (if out.2 = env.send trace media.uri out.1 out.2 then 0 else -1) rtsp1
      (trace ++ [Event.send media.uri out.1 out.2])

/-- The function `rtsp_client_play`; `npt` and `speed` are `none` for a NULL pointer. -/
def rtsp_client_play (env : Env) (rtsp0 : rtsp_client_t) (npt : Option Nat)
    (speed : Option c_float) (trace : List Event) : Outcome :=
  let rtsp1 := { rtsp0 with state := .RTSP_PLAY, progress := 0 }
  let range := snprintf env.range_size
    (match npt with
      | some _ => ("Range: npt=%" ++ PRIu64 ++ ".%" ++ PRIu64 ++ "-\r\n").toList
      | none => "".toList)
    [.u (match npt with | some t => t / 1000 | none => 0),
      .u (match npt with | some t => t % 1000 | none => 0)]
  let rtsp2 := { rtsp1 with range := range.1 }
  let speed_out := snprintf env.speed_size
    (match speed with
      | some _ => "Speed: %f\r\n".toList
      | none => "".toList)
    [.f (match speed with | some v => v | none => ⟨"0.000000".toList⟩)]
  let rtsp := { rtsp2 with speed := speed_out.1 }
  if rtsp.aggregate then
    if !assert env (decide (media_count rtsp > 0)) then .abort rtsp trace else
    if !assert env (rtsp.aggregate_uri != []) then .abort rtsp trace else
    match rtsp.media[0]? with
    | none => .abort rtsp trace
    | some media0 =>
      let out := snprintf env.req_size Play.sc_format
        [.s rtsp.aggregate_uri, .u rtsp.cseq, .s media0.session, .s rtsp.range, .s rtsp.speed,
          .s env.USER_AGENT]
      let rtsp3 := { rtsp with req := out.1, cseq := (rtsp.cseq + 1) % UINT_MOD }
      if !assert env (decide (0 < out.2 ∧ out.2 < (env.req_size : Int))) then .abort rtsp3 trace else
      .ret (if out.2 = env.send trace rtsp.aggregate_uri out.1 out.2 then 0 else -1) rtsp3
        (trace ++ [Event.send rtsp.aggregate_uri out.1 out.2])
  else
    rtsp_client_media_play env rtsp trace

/-- The `for` loop of `rtsp_client_media_play_onreply` over the `RTP-Info` value.
`fuel` is the number of iterations the bound `i < N_MEDIA` still allows; the result is
the array and the final value of `i`. -/
def rtp_info_loop (env : Env) : Nat → Option CStr → Nat → List rtsp_rtp_info_t →
    List rtsp_rtp_info_t × Nat
  | 0, _, i, rtpInfo => (rtpInfo, i)
  | _ + 1, none, i, rtpInfo => (rtpInfo, i)
  | fuel + 1, some prtpinfo, i, rtpInfo =>
    let p1 := strchr prtpinfo ','
    let rtpInfo1 :=
      match env.rtsp_header_rtp_info prtpinfo with
      | some info =>
        rtpInfo.set i { uri := some info.url, seq := info.seq % UINT_MOD, time := info.rtptime % UINT_MOD }
      | none => rtpInfo
    rtp_info_loop env fuel (match p1 with | some p => some p.tail | none => none) (i + 1) rtpInfo1

/-- The function `rtsp_client_media_play_onreply`. -/
def rtsp_client_media_play_onreply (env : Env) (rtsp : rtsp_client_t) (parser : rtsp_reply_t)
    (trace : List Event) : Outcome :=
  if 200 ≠ parser.rtsp_get_status_code then .ret (-1) rtsp trace else
  let prange := parser.rtsp_get_header_by_name "Range".toList
  let pscale := parser.rtsp_get_header_by_name "Scale".toList
  let prtpinfo := parser.rtsp_get_header_by_name "RTP-Info".toList
  let scale : Option c_double := match pscale with | some v => some ⟨v⟩ | none => none
  let decoded : Option rtsp_header_range_t :=
    match prange with
    | some v => env.rtsp_header_range v
    | none => none
  let asserted : Bool :=
    match decoded with
    | some range => assert env (range.from_value == .RTSP_RANGE_TIME_NORMAL)
        && assert env (range.to_value != .RTSP_RANGE_TIME_NOW)
    | none => true
  if !asserted then .abort rtsp trace else
  let npt0 : Nat := match decoded with | some range => range.from | none => UINT64_MAX
  let npt1 : Nat :=
    match decoded with
    | some range => if range.to_value = .RTSP_RANGE_TIME_NOVALUE then UINT64_MAX else range.«to»
    | none => UINT64_MAX
  let rtp := rtp_info_loop env env.N_MEDIA prtpinfo 0
    (List.replicate env.N_MEDIA { uri := none, seq := 0, time := 0 })
  let trace1 := trace ++ [Event.onplay rtsp.progress
    (if UINT64_MAX = npt0 then none else some npt0)
    (if UINT64_MAX = npt1 then none else some npt1)
    scale rtp.1 rtp.2]
  let rtsp1 := { rtsp with progress := rtsp.progress + 1 }
  if media_count rtsp1 > rtsp1.progress then
    rtsp_client_media_play env rtsp1 trace1
  else
    .ret 0 rtsp1 trace1

/-- The function `rtsp_client_aggregate_play_onreply`: aggregate control reply. -/
def rtsp_client_aggregate_play_onreply (env : Env) (rtsp : rtsp_client_t) (parser : rtsp_reply_t)
    (trace : List Event) : Outcome :=
  if !assert env (rtsp.state == .RTSP_PLAY) then .abort rtsp trace else
  if !assert env (rtsp.progress == 0) then .abort rtsp trace else
  if !assert env rtsp.aggregate then .abort rtsp trace else
  let code := parser.rtsp_get_status_code
  if 459 = code then
    rtsp_client_media_play env rtsp trace
  else if 200 = code then
    rtsp_client_media_play_onreply env rtsp parser trace
  else
    .ret (-1) rtsp trace

/-- The function `rtsp_client_play_onreply`. -/
def rtsp_client_play_onreply (env : Env) (rtsp : rtsp_client_t) (parser : rtsp_reply_t)
    (trace : List Event) : Outcome :=
  if !assert env (rtsp.state == .RTSP_PLAY) then .abort rtsp trace else
  if !assert env (decide (rtsp.progress < media_count rtsp)) then .abort rtsp trace else
  if rtsp.aggregate then
    rtsp_client_aggregate_play_onreply env rtsp parser trace
  else
    rtsp_client_media_play_onreply env rtsp parser trace

/-! ## Scenarios: a call followed by the replies delivered to the reply handler -/

/-- Deliver the replies in order to `rtsp_client_pause_onreply`, each on the session and
trace the previous call left, for as long as the calls return 0. -/
def pause_replies (env : Env) : List rtsp_reply_t → rtsp_client_t → List Event → Outcome
  | [], rtsp, trace => .ret 0 rtsp trace
  | p :: ps, rtsp, trace =>
    match rtsp_client_pause_onreply env rtsp p trace with
    | .ret r rtsp1 trace1 => if r = 0 then pause_replies env ps rtsp1 trace1 else .ret r rtsp1 trace1
    | .abort rtsp1 trace1 => .abort rtsp1 trace1

/-- A call of `rtsp_client_pause` on an empty trace, followed by the given replies. -/
def pause_session (env : Env) (rtsp : rtsp_client_t) (replies : List rtsp_reply_t) : Outcome :=
  match rtsp_client_pause env rtsp [] with
  | .ret r rtsp1 trace1 => if r = 0 then pause_replies env replies rtsp1 trace1 else .ret r rtsp1 trace1
  | .abort rtsp1 trace1 => .abort rtsp1 trace1

/-- Deliver the replies in order to `rtsp_client_play_onreply`, each on the session and
trace the previous call left, for as long as the calls return 0. -/
def play_replies (env : Env) : List rtsp_reply_t → rtsp_client_t → List Event → Outcome
  | [], rtsp, trace => .ret 0 rtsp trace
  | p :: ps, rtsp, trace =>
    match rtsp_client_play_onreply env rtsp p trace with
    | .ret r rtsp1 trace1 => if r = 0 then play_replies env ps rtsp1 trace1 else .ret r rtsp1 trace1
    | .abort rtsp1 trace1 => .abort rtsp1 trace1

/-- A call of `rtsp_client_play` on an empty trace, followed by the given replies. -/
def play_session (env : Env) (rtsp : rtsp_client_t) (npt : Option Nat) (speed : Option c_float)
    (replies : List rtsp_reply_t) : Outcome :=
  match rtsp_client_play env rtsp npt speed [] with
  | .ret r rtsp1 trace1 => if r = 0 then play_replies env replies rtsp1 trace1 else .ret r rtsp1 trace1
  | .abort rtsp1 trace1 => .abort rtsp1 trace1

/-! ## Concrete sessions used to evaluate the code -/

/-- A transport that accepts every request whole. -/
def send_all : List Event → CStr → CStr → Int → Int := fun _ _ _ bytes => bytes

/-- An `RTP-Info` entry decoder for the examples: an entry that starts with `u` decodes
(to a fixed url, sequence number 1 and timestamp 100), any other entry is malformed. -/
def demo_rtp_info : CStr → Option rtsp_header_rtp_info_t
  | 'u' :: _ => some { url := "track1".toList, seq := 1, rtptime := 100 }
  | _ => none

/-- A `Range` decoder for the examples: every value decodes to the closed interval 10-15. -/
def demo_range : CStr → Option rtsp_header_range_t := fun _ =>
  some { from_value := .RTSP_RANGE_TIME_NORMAL, to_value := .RTSP_RANGE_TIME_NORMAL,
         «from» := 10, «to» := 15 }

/-- An environment for the examples: assertions on or off, two array slots per reply. -/
def demo_env (ndebug : Bool) : Env :=
  { NDEBUG := ndebug, USER_AGENT := "agent".toList, N_MEDIA := 2, req_size := 1024,
    range_size := 64, speed_size := 32, send := send_all,
    rtsp_header_range := demo_range, rtsp_header_rtp_info := demo_rtp_info }

/-- A session of two tracks after SETUP. -/
def demo_session (aggregate : Bool) : rtsp_client_t :=
  { state := .RTSP_SETUP, aggregate := aggregate, aggregate_uri := "rtsp://h/all".toList,
    cseq := 7, progress := 0,
    media := [{ uri := "rtsp://h/t0".toList, cseq := 3, session := "S0".toList },
              { uri := "rtsp://h/t1".toList, cseq := 5, session := "S1".toList }],
    range := [], speed := [], req := [] }

/-- A reply with a status code and no header. -/
def reply_code (code : Int) : rtsp_reply_t :=
  { rtsp_get_status_code := code, rtsp_get_header_by_name := fun _ => none }

/-! ## The wire text of a request, in the words of the spec -/

/-- The request text of the spec's section 6: the request line, the `CSeq` line, the
`Session` line, the optional PLAY fields (`Range`, `Speed`), the `User-Agent` line and
the empty line, each ended by CR LF. -/
def wire_request (method uri : CStr) (cseq : Nat) (session fields agent : CStr) : CStr :=
  method ++ " ".toList ++ uri ++ " RTSP/1.0\r\n".toList
    ++ "CSeq: ".toList ++ Nat.toDigits 10 cseq ++ "\r\n".toList
    ++ "Session: ".toList ++ session ++ "\r\n".toList
    ++ fields
    ++ "User-Agent: ".toList ++ agent ++ "\r\n".toList
    ++ "\r\n".toList

/-- The PAUSE request text for a track. -/
def pause_text (env : Env) (m : rtsp_media_t) : CStr :=
  wire_request "PAUSE".toList m.uri m.cseq m.session [] env.USER_AGENT

/-- The PLAY request text for a track, carrying the pending fragments (`Range`, then
`Speed`) of the session. -/
def play_text (env : Env) (fields : CStr) (m : rtsp_media_t) : CStr :=
  wire_request "PLAY".toList m.uri m.cseq m.session fields env.USER_AGENT

/-- The `send` event of the PAUSE request of a track, sent whole. -/
def pause_send (env : Env) (m : rtsp_media_t) : Event :=
  Event.send m.uri (pause_text env m) ((pause_text env m).length : Int)

/-- The `send` event of the PLAY request of a track, sent whole. -/
def play_send (env : Env) (fields : CStr) (m : rtsp_media_t) : Event :=
  Event.send m.uri (play_text env fields m) ((play_text env fields m).length : Int)

/-- The track as `cseq++` leaves it. -/
def bump (m : rtsp_media_t) : rtsp_media_t := { m with cseq := (m.cseq + 1) % UINT_MOD }

/-- The text of the aggregate PAUSE request: the aggregate uri, the session-level cseq
and the session id of the first track. -/
def pause_text_aggregate (env : Env) (rtsp : rtsp_client_t) (media0 : rtsp_media_t) : CStr :=
  wire_request "PAUSE".toList rtsp.aggregate_uri rtsp.cseq media0.session [] env.USER_AGENT

/-- The text of the aggregate PLAY request, carrying the pending fragments of the session. -/
def play_text_aggregate (env : Env) (rtsp : rtsp_client_t) (media0 : rtsp_media_t) : CStr :=
  wire_request "PLAY".toList rtsp.aggregate_uri rtsp.cseq media0.session
    (rtsp.range ++ rtsp.speed) env.USER_AGENT

/-- The pending `Range` fragment that `rtsp_client_play` stores for a start position. -/
def play_range (env : Env) (npt : Option Nat) : CStr :=
  (snprintf env.range_size
    (match npt with
      | some _ => ("Range: npt=%" ++ PRIu64 ++ ".%" ++ PRIu64 ++ "-\r\n").toList
      | none => "".toList)
    [.u (match npt with | some t => t / 1000 | none => 0),
      .u (match npt with | some t => t % 1000 | none => 0)]).1

/-- The pending `Speed` fragment that `rtsp_client_play` stores for a speed. -/
def play_speed (env : Env) (speed : Option c_float) : CStr :=
  (snprintf env.speed_size
    (match speed with
      | some _ => "Speed: %f\r\n".toList
      | none => "".toList)
    [.f (match speed with | some v => v | none => ⟨"0.000000".toList⟩)]).1

/-- The session as `rtsp_client_play` has it when it dispatches: state, cursor and the
two pending fragments set. -/
def play_prepared (env : Env) (rtsp : rtsp_client_t) (npt : Option Nat)
    (speed : Option c_float) : rtsp_client_t :=
  { rtsp with state := .RTSP_PLAY, progress := 0, range := play_range env npt,
              speed := play_speed env speed }

/-- The session the call returned or stopped with. -/
def Outcome.session : Outcome → rtsp_client_t
  | .abort rtsp _ => rtsp
  | .ret _ rtsp _ => rtsp

/-- The trace the call returned or stopped with. -/
def Outcome.events : Outcome → List Event
  | .abort _ trace => trace
  | .ret _ _ trace => trace

/-- The value the call returned, `none` when it did not return. -/
def Outcome.result : Outcome → Option Int
  | .abort _ _ => none
  | .ret r _ _ => some r

/-- The uri of a `send` event. -/
def Event.sent_uri : Event → Option CStr
  | .send uri _ _ => some uri
  | _ => none

/-- The track index of an `onplay` event. -/
def Event.onplay_index : Event → Option Nat
  | .onplay media _ _ _ _ _ => some media
  | _ => none

/-- The entry count of an `onplay` event. -/
def Event.onplay_count : Event → Option Nat
  | .onplay _ _ _ _ _ count => some count
  | _ => none

/-- The assertions of `rtsp_client_media_play_onreply` on the decoded `Range` header of a
reply let the run continue. -/
def range_asserted (env : Env) (parser : rtsp_reply_t) : Bool :=
  match parser.rtsp_get_header_by_name "Range".toList with
  | some v =>
    match env.rtsp_header_range v with
    | some range => assert env (range.from_value == .RTSP_RANGE_TIME_NORMAL)
        && assert env (range.to_value != .RTSP_RANGE_TIME_NOW)
    | none => true
  | none => true

/-- The zeroed slot that `memset` leaves in the array handed to `onplay`. -/
def zero_slot : rtsp_rtp_info_t := { uri := none, seq := 0, time := 0 }

/-- The `onplay` call that `rtsp_client_media_play_onreply` makes for a reply while the
cursor is at `index`. -/
def onplay_event (env : Env) (index : Nat) (parser : rtsp_reply_t) : Event :=
  let decoded : Option rtsp_header_range_t :=
    match parser.rtsp_get_header_by_name "Range".toList with
    | some v => env.rtsp_header_range v
    | none => none
  let npt0 : Nat := match decoded with | some range => range.from | none => UINT64_MAX
  let npt1 : Nat :=
    match decoded with
    | some range => if range.to_value = .RTSP_RANGE_TIME_NOVALUE then UINT64_MAX else range.«to»
    | none => UINT64_MAX
  let rtp := rtp_info_loop env env.N_MEDIA (parser.rtsp_get_header_by_name "RTP-Info".toList) 0
    (List.replicate env.N_MEDIA zero_slot)
  Event.onplay index
    (if UINT64_MAX = npt0 then none else some npt0)
    (if UINT64_MAX = npt1 then none else some npt1)
    (match parser.rtsp_get_header_by_name "Scale".toList with | some v => some ⟨v⟩ | none => none)
    rtp.1 rtp.2

/-- The events of a per-track PLAY sweep from the moment the request of track `k` is out:
each reply invokes `onplay` for the current track and then sends the request of the next
track, if there is one. -/
def play_tail (env : Env) (fields : CStr) : Nat → List rtsp_media_t → List rtsp_reply_t → List Event
  | _, _, [] => []
  | k, [], p :: _ => [onplay_event env k p]
  | k, m :: post, p :: ps =>
    onplay_event env k p :: play_send env fields m :: play_tail env fields (k + 1) post ps

/-- Whether an event is a call of `send`. -/
def Event.is_send : Event → Bool
  | .send _ _ _ => true
  | _ => false

/-- The `Range` line of the spec for a start position of `t` milliseconds, as the code
writes it: the seconds and the milliseconds in plain decimal, no padding. -/
def range_line (t : Nat) : CStr :=
  "Range: npt=".toList ++ Nat.toDigits 10 (t / 1000) ++ ".".toList ++ Nat.toDigits 10 (t % 1000)
    ++ "-\r\n".toList

/-- The uri an entry call addresses: the aggregate uri, or the uri of the first track. -/
def target_uri (rtsp : rtsp_client_t) (media0 : rtsp_media_t) : CStr :=
  if rtsp.aggregate then rtsp.aggregate_uri else media0.uri

/-- The cseq an entry call consumes: the session-level one, or the first track's. -/
def target_cseq (rtsp : rtsp_client_t) (media0 : rtsp_media_t) : Nat :=
  if rtsp.aggregate then rtsp.cseq else media0.cseq

/-- The aggregate branch of `rtsp_client_play`, on the session with state, cursor and
pending fragments already set. -/
def play_aggregate_branch (env : Env) (rtsp : rtsp_client_t) (trace : List Event) : Outcome :=
  if !assert env (decide (media_count rtsp > 0)) then .abort rtsp trace else
  if !assert env (rtsp.aggregate_uri != []) then .abort rtsp trace else
  match rtsp.media[0]? with
  | none => .abort rtsp trace
  | some media0 =>
    let out := snprintf env.req_size Play.sc_format
      [.s rtsp.aggregate_uri, .u rtsp.cseq, .s media0.session, .s rtsp.range, .s rtsp.speed,
        .s env.USER_AGENT]
    let rtsp3 := { rtsp with req := out.1, cseq := (rtsp.cseq + 1) % UINT_MOD }
    if !assert env (decide (0 < out.2 ∧ out.2 < (env.req_size : Int))) then .abort rtsp3 trace else
    .ret (if out.2 = env.send trace rtsp.aggregate_uri out.1 out.2 then 0 else -1) rtsp3
      (trace ++ [Event.send rtsp.aggregate_uri out.1 out.2])

/-- A call of `send` that hands over a whole text: the byte count is the text's length. -/
def sent (uri text : CStr) : Event := Event.send uri text (text.length : Int)

/-- The call returned, some value, and left this trace. -/
def Outcome.returns (o : Outcome) (trace : List Event) : Prop :=
  ∃ r rtsp, o = .ret r rtsp trace

/-- The suffixes of a header value that follow each of its commas, in order. -/
def after_commas : CStr → List CStr
  | [] => []
  | c :: cs => if c = ',' then cs :: after_commas cs else after_commas cs

/-- The entries of an `RTP-Info` value as the loop presents them to the decoder: the
value itself, then the text after each comma. -/
def rtp_entries (v : CStr) : List CStr := v :: after_commas v

/-- The slot the loop leaves for an entry: filled from the decoded entry, or still zeroed
when the entry does not decode. -/
def rtp_slot (env : Env) (entry : CStr) : rtsp_rtp_info_t :=
  match env.rtsp_header_rtp_info entry with
  | some info =>
    { uri := some info.url, seq := info.seq % UINT_MOD, time := info.rtptime % UINT_MOD }
  | none => zero_slot

/-- A 200 reply whose only header is `RTP-Info` with the given value. -/
def reply_rtp_info (v : CStr) : rtsp_reply_t :=
  { rtsp_get_status_code := 200,
    rtsp_get_header_by_name := fun name => if name = "RTP-Info".toList then some v else none }

/-- The two-track session while the reply of its last track is awaited during PLAY. -/
def demo_last_track : rtsp_client_t :=
  { demo_session false with state := .RTSP_PLAY, progress := 1 }

/-- A session of one track while the reply of that track is awaited during PLAY. -/
def demo_single : rtsp_client_t :=
  { state := .RTSP_PLAY, aggregate := false, aggregate_uri := [], cseq := 0, progress := 0,
    media := [{ uri := "rtsp://h/t0".toList, cseq := 4, session := "S0".toList }],
    range := [], speed := [], req := [] }

/-- The array of an `onplay` event. -/
def Event.onplay_slots : Event → Option (List rtsp_rtp_info_t)
  | .onplay _ _ _ _ rtpInfo _ => some rtpInfo
  | _ => none

/-- The start position of an `onplay` event: `some none` when the pointer is NULL. -/
def Event.onplay_npt0 : Event → Option (Option Nat)
  | .onplay _ npt0 _ _ _ _ => some npt0
  | _ => none

/-- The end position of an `onplay` event: `some none` when the pointer is NULL. -/
def Event.onplay_npt1 : Event → Option (Option Nat)
  | .onplay _ _ npt1 _ _ _ => some npt1
  | _ => none

/-- The scale of an `onplay` event: `some none` when the pointer is NULL. -/
def Event.onplay_scale : Event → Option (Option c_double)
  | .onplay _ _ _ scale _ _ => some scale
  | _ => none

/-- The decoded `Range` header of a reply: `none` when the header is missing or the
decoder rejects its value. -/
def decoded_range (env : Env) (parser : rtsp_reply_t) : Option rtsp_header_range_t :=
  match parser.rtsp_get_header_by_name "Range".toList with
  | some v => env.rtsp_header_range v
  | none => none

/-- A 200 reply whose only header has the given name and value. -/
def reply_header (name v : CStr) : rtsp_reply_t :=
  { rtsp_get_status_code := 200,
    rtsp_get_header_by_name := fun n => if n = name then some v else none }

/-- The example environment with a `Range` decoder that always yields the given value. -/
def demo_env_range (ndebug : Bool) (range : rtsp_header_range_t) : Env :=
  { demo_env ndebug with rtsp_header_range := fun _ => some range }

/-- The session with the cursor moved to the next track. -/
def advance (rtsp : rtsp_client_t) : rtsp_client_t :=
  { rtsp with progress := rtsp.progress + 1 }

/-- The session an entry call leaves after its request is formatted: the request buffer
holds the text, and the counter of the target is consumed (the session-level cseq on an
aggregate session, the cseq of the first track otherwise). -/
def entry_session (base : rtsp_client_t) (media0 : rtsp_media_t) (text : CStr) : rtsp_client_t :=
  if base.aggregate then
    { base with req := text, cseq := (base.cseq + 1) % UINT_MOD }
  else
    { base with req := text, media := base.media.set 0 (bump media0) }

/-- The value a dispatch returns, decided by what `send` reports for the whole text. -/
def send_result (env : Env) (trace : List Event) (uri text : CStr) : Int :=
  if (text.length : Int) = env.send trace uri text (text.length : Int) then 0 else -1

/-- The call made exactly one `send`, of the whole text to the uri, after the given trace;
it returned 0 if and only if `send` reported the full length, and -1 otherwise. -/
def Outcome.dispatched (o : Outcome) (env : Env) (trace : List Event) (uri text : CStr) : Prop :=
  o.events = trace ++ [sent uri text]
    ∧ (o.result = some 0 ↔ env.send trace uri text (text.length : Int) = (text.length : Int))
    ∧ (o.result = some 0 ∨ o.result = some (-1))

/-- The two-track session in state Pause, waiting for the reply of its first track. -/
def demo_paused : rtsp_client_t := { demo_session false with state := .RTSP_PAUSE }

/-- The two-track session in state Play, waiting for the reply of its first track. -/
def demo_playing : rtsp_client_t := { demo_session false with state := .RTSP_PLAY }

/-! ## Calls and their effects -/

/-- The calls a client of the two files makes. -/
inductive Call
  | play (npt : Option Nat) (speed : Option c_float)
  | pause
  | play_onreply (parser : rtsp_reply_t)
  | pause_onreply (parser : rtsp_reply_t)

/-- Whether the call is one of the two reply handlers. -/
def Call.is_reply : Call → Bool
  | .play _ _ => false
  | .pause => false
  | .play_onreply _ => true
  | .pause_onreply _ => true

/-- Run a call on a session and a trace. -/
def call (env : Env) : Call → rtsp_client_t → List Event → Outcome
  | .play npt speed, rtsp, trace => rtsp_client_play env rtsp npt speed trace
  | .pause, rtsp, trace => rtsp_client_pause env rtsp trace
  | .play_onreply parser, rtsp, trace => rtsp_client_play_onreply env rtsp parser trace
  | .pause_onreply parser, rtsp, trace => rtsp_client_pause_onreply env rtsp parser trace

/-- What `snprintf` yields for the PAUSE request of a track. -/
def pause_out (env : Env) (m : rtsp_media_t) : CStr × Int :=
  snprintf env.req_size Pause.sc_format
    [.s m.uri, .u m.cseq, .s m.session, .s env.USER_AGENT]

/-- What `snprintf` yields for the PLAY request of a track. -/
def play_out (env : Env) (base : rtsp_client_t) (m : rtsp_media_t) : CStr × Int :=
  snprintf env.req_size Play.sc_format
    [.s m.uri, .u m.cseq, .s m.session, .s base.range, .s base.speed, .s env.USER_AGENT]

/-- What `snprintf` yields for the aggregate PAUSE request. -/
def pause_out_aggregate (env : Env) (base : rtsp_client_t) (media0 : rtsp_media_t) : CStr × Int :=
  snprintf env.req_size Pause.sc_format
    [.s base.aggregate_uri, .u base.cseq, .s media0.session, .s env.USER_AGENT]

/-- What `snprintf` yields for the aggregate PLAY request. -/
def play_out_aggregate (env : Env) (base : rtsp_client_t) (media0 : rtsp_media_t) : CStr × Int :=
  snprintf env.req_size Play.sc_format
    [.s base.aggregate_uri, .u base.cseq, .s media0.session, .s base.range, .s base.speed,
      .s env.USER_AGENT]

/-- The outcome of a per-track dispatch that reached `send`: the request buffer holds the
formatted text, the cseq of the track under the cursor is consumed, `send` was called once
and decided the return value. -/
def sent_track (env : Env) (base : rtsp_client_t) (trace : List Event) (m : rtsp_media_t)
    (out : CStr × Int) : Outcome :=
  .ret (if out.2 = env.send trace m.uri out.1 out.2 then 0 else -1)
    { base with req := out.1, media := base.media.set base.progress (bump m) }
    (trace ++ [Event.send m.uri out.1 out.2])

/-- The outcome of an aggregate dispatch that reached `send`: the request buffer holds the
formatted text, the session-level cseq is consumed, `send` was called once and decided the
return value. -/
def sent_aggregate (env : Env) (base : rtsp_client_t) (trace : List Event)
    (out : CStr × Int) : Outcome :=
  .ret (if out.2 = env.send trace base.aggregate_uri out.1 out.2 then 0 else -1)
    { base with req := out.1, cseq := (base.cseq + 1) % UINT_MOD }
    (trace ++ [Event.send base.aggregate_uri out.1 out.2])

/-- The session as `rtsp_client_pause` has it when it dispatches. -/
def pause_prepared (rtsp : rtsp_client_t) : rtsp_client_t :=
  { rtsp with state := .RTSP_PAUSE, progress := 0 }

/-- The aggregate branch of `rtsp_client_pause`, on the session with state and cursor
already set. -/
def pause_aggregate_branch (env : Env) (rtsp : rtsp_client_t) (trace : List Event) : Outcome :=
  if !assert env (decide (media_count rtsp > 0)) then .abort rtsp trace else
  if !assert env (rtsp.aggregate_uri != []) then .abort rtsp trace else
  match rtsp.media[0]? with
  | none => .abort rtsp trace
  | some media0 =>
    let out := snprintf env.req_size Pause.sc_format
      [.s rtsp.aggregate_uri, .u rtsp.cseq, .s media0.session, .s env.USER_AGENT]
    let rtsp1 := { rtsp with req := out.1, cseq := (rtsp.cseq + 1) % UINT_MOD }
    if !assert env (decide (0 < out.2 ∧ out.2 < (env.req_size : Int))) then .abort rtsp1 trace else
    .ret (if out.2 = env.send trace rtsp.aggregate_uri out.1 out.2 then 0 else -1) rtsp1
      (trace ++ [Event.send rtsp.aggregate_uri out.1 out.2])

/-- Run a sequence of calls, each on the session and trace the previous one left; an
assertion failure ends the run. -/
def run (env : Env) : List Call → rtsp_client_t → List Event → Outcome
  | [], rtsp, trace => .ret 0 rtsp trace
  | c :: cs, rtsp, trace =>
    match call env c rtsp trace with
    | .ret _ rtsp1 trace1 => run env cs rtsp1 trace1
    | .abort rtsp1 trace1 => .abort rtsp1 trace1

/-- A session of one track whose cseq stands at the largest `unsigned int`. -/
def demo_wrap : rtsp_client_t :=
  { state := .RTSP_SETUP, aggregate := false, aggregate_uri := [], cseq := 0, progress := 0,
    media := [{ uri := "rtsp://h/t0".toList, cseq := 4294967295, session := "S0".toList }],
    range := [], speed := [], req := [] }

/-- How a call that returned used the cseq counters, from session `s` and trace `tr`:
either it sent nothing and changed no counter; or it sent one request for some track `k`,
whose text carries the value the track's cseq had, and advanced that cseq by one modulo
2^32, changing no other counter; or it sent one aggregate request, whose text carries the
value the session cseq had, and advanced the session cseq by one modulo 2^32, changing no
track's cseq. (The text is what the request buffer holds: the formatted request, cut to
the buffer size.) -/
def counters_accounted (env : Env) (s : rtsp_client_t) (tr : List Event) : Outcome → Prop
  | .abort _ _ => True
  | .ret _ s1 tr1 =>
    (s1.cseq = s.cseq ∧ s1.media = s.media
      ∧ ∃ cbs, tr1 = tr ++ cbs ∧ cbs.filter Event.is_send = [])
    ∨ (∃ k m cbs method fields bytes, s.media[k]? = some m
        ∧ cbs.filter Event.is_send = []
        ∧ tr1 = tr ++ cbs ++ [Event.send m.uri
            ((wire_request method m.uri m.cseq m.session fields env.USER_AGENT).take
              (env.req_size - 1)) bytes]
        ∧ s1.media = s.media.set k (bump m) ∧ s1.cseq = s.cseq)
    ∨ (∃ m0 method fields bytes, s.media[0]? = some m0
        ∧ tr1 = tr ++ [Event.send s.aggregate_uri
            ((wire_request method s.aggregate_uri s.cseq m0.session fields env.USER_AGENT).take
              (env.req_size - 1)) bytes]
        ∧ s1.media = s.media ∧ s1.cseq = (s.cseq + 1) % UINT_MOD)

/-- A call respects the entry assertions of its function on a session: the state that
`rtsp_client_pause` asserts; for a reply handler, the state of its operation and the
cursor on a track. -/
def Call.enabled : Call → rtsp_client_t → Prop
  | .play _ _, _ => True
  | .pause, s => s.state = .RTSP_SETUP ∨ s.state = .RTSP_PLAY ∨ s.state = .RTSP_PAUSE
  | .play_onreply _, s => s.state = .RTSP_PLAY ∧ s.progress < media_count s
  | .pause_onreply _, s => s.state = .RTSP_PAUSE ∧ s.progress < media_count s

/-- The step relation of the PLAY/PAUSE state machine: the sessions and traces reached
from `s0` by calls that return. With `NDEBUG` the calls are required to respect the entry
assertions; with assertions enabled the code enforces them itself, so any call is allowed. -/
inductive Reachable (env : Env) (s0 : rtsp_client_t) : rtsp_client_t → List Event → Prop
  | start : Reachable env s0 s0 []
  | step {s : rtsp_client_t} {tr : List Event} (c : Call) (r : Int) (s1 : rtsp_client_t)
      (tr1 : List Event) :
      Reachable env s0 s tr → (c.enabled s ∨ env.NDEBUG = false) →
      call env c s tr = .ret r s1 tr1 → Reachable env s0 s1 tr1

/-- What a step from session `s` and trace `tr` to session `s1` and trace `tr1` does to
the cursor: it stays within the track list; a reply handler leaves it or raises it by one;
an entry call sets it to 0; and when the step ended with a per-track request (any request
sent by a reply handler, or by an entry call on a non-aggregate session), the cursor is on
a track and the request is addressed to that track. -/
def progress_step (c : Call) (s : rtsp_client_t) (tr : List Event) (s1 : rtsp_client_t)
    (tr1 : List Event) : Prop :=
  s1.progress ≤ media_count s1
  ∧ (c.is_reply = true → s.progress ≤ s1.progress ∧ s1.progress ≤ s.progress + 1)
  ∧ (c.is_reply = false → s1.progress = 0)
  ∧ ∀ cbs uri text bytes, (c.is_reply = true ∨ s.aggregate = false) →
      tr1 = tr ++ cbs ++ [Event.send uri text bytes] →
      s1.progress < media_count s1 ∧ ∃ m, s1.media[s1.progress]? = some m ∧ m.uri = uri

/-- The uri and session id of every track, in index order. -/
def track_ids (rtsp : rtsp_client_t) : List (CStr × CStr) :=
  rtsp.media.map (fun m => (m.uri, m.session))

/-- Two sessions address the same targets: same aggregate flag, same aggregate uri, same
tracks with the same uris and session ids (their counters may differ). -/
def same_target (s s1 : rtsp_client_t) : Prop :=
  s1.aggregate = s.aggregate ∧ s1.aggregate_uri = s.aggregate_uri ∧ track_ids s1 = track_ids s

/-- How `send` decided the result of a call that started on the trace `tr`: the call made
no `send` at all; or it made exactly one, as its last action, and returned 0 when `send`
reported the byte count it was given, and -1 for any other value. -/
def Outcome.decided_by_send (o : Outcome) (env : Env) (tr : List Event) : Prop :=
  (∃ cbs, o.events = tr ++ cbs ∧ cbs.filter Event.is_send = [])
  ∨ ∃ cbs uri text bytes, cbs.filter Event.is_send = []
      ∧ o.events = tr ++ cbs ++ [Event.send uri text bytes]
      ∧ o.result = some (if bytes = env.send (tr ++ cbs) uri text bytes then 0 else -1)

/-- A transport that reports an error for every request. -/
def send_refused : List Event → CStr → CStr → Int → Int := fun _ _ _ _ => -1

/-- The example environment with a transport that reports an error for every request. -/
def demo_env_refused (ndebug : Bool) : Env := { demo_env ndebug with send := send_refused }

theorem format_pause (u s a : CStr) (n : Nat) :
    format Pause.sc_format [.s u, .u n, .s s, .s a] = wire_request "PAUSE".toList u n s [] a := by
  simp [format, Pause.sc_format, wire_request]

theorem format_play (u s r sp a : CStr) (n : Nat) :
    format Play.sc_format [.s u, .u n, .s s, .s r, .s sp, .s a]
      = wire_request "PLAY".toList u n s (r ++ sp) a := by
  simp [format, Play.sc_format, wire_request]

theorem wire_request_length_pos (method uri : CStr) (cseq : Nat) (session fields agent : CStr) :
    0 < (wire_request method uri cseq session fields agent).length := by
  simp [wire_request]

theorem snprintf_fits (size : Nat) (fmt : CStr) (args : List Arg)
    (h : (format fmt args).length < size) :
    snprintf size fmt args = (format fmt args, ((format fmt args).length : Int)) := by
  simp only [snprintf]
  rw [List.take_of_length_le (by omega)]

theorem set_middle {α : Type} (pre : List α) (m x : α) (post : List α) :
    (pre ++ m :: post).set pre.length x = pre ++ x :: post := by
  induction pre with
  | nil => rfl
  | cons a pre ih => simp [List.set, ih]

theorem get_middle {α : Type} (pre : List α) (m : α) (post : List α) :
    (pre ++ m :: post)[pre.length]? = some m := by
  induction pre with
  | nil => simp
  | cons a pre ih => simpa using ih

/-- One dispatch of `rtsp_client_media_pause` on a session that meets its assertions:
the request of `tracks[progress]` is formatted whole, the track's `cseq` is consumed,
`send` is called once and decides the return value. -/
theorem media_pause_step (env : Env) (rtsp : rtsp_client_t) (trace : List Event)
    (m : rtsp_media_t) (hagg : rtsp.aggregate = false) (hst : rtsp.state = .RTSP_PAUSE)
    (hm : rtsp.media[rtsp.progress]? = some m) (hs : m.session ≠ [])
    (hfit : (pause_text env m).length < env.req_size) :
    rtsp_client_media_pause env rtsp trace =
      .ret (if ((pause_text env m).length : Int)
              = env.send trace m.uri (pause_text env m) ((pause_text env m).length : Int)
            then 0 else -1)
        { rtsp with req := pause_text env m, media := rtsp.media.set rtsp.progress (bump m) }
        (trace ++ [pause_send env m]) := by
  have hlt : rtsp.progress < rtsp.media.length := by
    rcases List.getElem?_eq_some.1 hm with ⟨h, -⟩
    exact h
  have hpos := wire_request_length_pos "PAUSE".toList m.uri m.cseq m.session [] env.USER_AGENT
  have hfmt : (format Pause.sc_format [.s m.uri, .u m.cseq, .s m.session, .s env.USER_AGENT]).length
      < env.req_size := by
    rw [format_pause]; exact hfit
  unfold rtsp_client_media_pause
  simp only [rtsp_get_media, hm, snprintf_fits _ _ _ hfmt, format_pause]
  simp [assert, hagg, hst, media_count, hlt, hs, pause_text, pause_send, bump] at hfit hpos ⊢
  intro _
  exact ⟨List.length_pos.1 hpos, hfit⟩

/-- A 200 reply on the per-track PAUSE path: `progress` advances; on the last track
`onpause` is invoked, otherwise the next track's request is dispatched. -/
theorem media_pause_onreply_200 (env : Env) (rtsp : rtsp_client_t) (parser : rtsp_reply_t)
    (trace : List Event) (hst : rtsp.state = .RTSP_PAUSE) (hagg : rtsp.aggregate = false)
    (hlt : rtsp.progress < rtsp.media.length) (hcode : parser.rtsp_get_status_code = 200) :
    rtsp_client_pause_onreply env rtsp parser trace =
      if rtsp.media.length = rtsp.progress + 1 then
        .ret 0 { rtsp with progress := rtsp.progress + 1 } (trace ++ [Event.onpause])
      else
        rtsp_client_media_pause env { rtsp with progress := rtsp.progress + 1 } trace := by
  simp [rtsp_client_pause_onreply, rtsp_client_media_pause_onreply, assert, hst, hagg,
    media_count, hlt, hcode]

/-- The per-track PAUSE sweep from a session that waits for the reply of track
`pre.length`: `j` replies with status 200 dispatch the next `j` tracks in index order, and
`onpause` is invoked when, and only when, the reply of the last track has arrived. -/
theorem pause_sweep (env : Env) (hsend : ∀ h u q n, env.send h u q n = n) :
    ∀ (replies : List rtsp_reply_t) (post pre : List rtsp_media_t) (m : rtsp_media_t)
      (rtsp : rtsp_client_t) (trace : List Event),
      rtsp.aggregate = false → rtsp.state = .RTSP_PAUSE → rtsp.progress = pre.length →
      rtsp.media = pre ++ m :: post →
      (∀ x ∈ post, x.session ≠ [] ∧ (pause_text env x).length < env.req_size) →
      (∀ p ∈ replies, p.rtsp_get_status_code = 200) →
      replies.length ≤ post.length + 1 →
      ∃ rtsp1, pause_replies env replies rtsp trace =
        .ret 0 rtsp1 (trace ++ (post.take replies.length).map (pause_send env)
          ++ (if replies.length = post.length + 1 then [Event.onpause] else [])) := by
  intro replies
  induction replies with
  | nil =>
    intro post pre m rtsp trace _ _ _ _ _ _ _
    exact ⟨rtsp, by simp [pause_replies]⟩
  | cons p ps ih =>
    intro post pre m rtsp trace hagg hst hprog hmedia hpost h200 hlen
    have hlt : rtsp.progress < rtsp.media.length := by
      rw [hprog, hmedia]; simp
    have hp : p.rtsp_get_status_code = 200 := h200 p (List.mem_cons_self _ _)
    have hstep := media_pause_onreply_200 env rtsp p trace hst hagg hlt hp
    cases post with
    | nil =>
      have hps : ps = [] := by
        cases ps with
        | nil => rfl
        | cons q qs => simp at hlen
      subst hps
      have hN : rtsp.media.length = rtsp.progress + 1 := by rw [hprog, hmedia]; simp
      rw [if_pos hN] at hstep
      exact ⟨{ rtsp with progress := rtsp.progress + 1 }, by simp [pause_replies, hstep]⟩
    | cons m2 post2 =>
      have hN : ¬ rtsp.media.length = rtsp.progress + 1 := by rw [hprog, hmedia]; simp
      rw [if_neg hN] at hstep
      have hm2 : ({ rtsp with progress := rtsp.progress + 1 } : rtsp_client_t).media[
          ({ rtsp with progress := rtsp.progress + 1 } : rtsp_client_t).progress]? = some m2 := by
        show rtsp.media[rtsp.progress + 1]? = some m2
        rw [hprog, hmedia]
        have := get_middle (pre ++ [m]) m2 post2
        simpa using this
      have h2 := hpost m2 (List.mem_cons_self _ _)
      have hdisp := media_pause_step env { rtsp with progress := rtsp.progress + 1 } trace m2
        hagg hst hm2 h2.1 h2.2
      rw [hsend] at hdisp
      simp only [if_true] at hdisp
      rw [hdisp] at hstep
      have hset : rtsp.media.set (rtsp.progress + 1) (bump m2) = (pre ++ [m]) ++ bump m2 :: post2 := by
        rw [hprog, hmedia]
        simp
      obtain ⟨rtsp1, h1⟩ := ih post2 (pre ++ [m]) (bump m2)
        { rtsp with progress := rtsp.progress + 1, req := pause_text env m2,
                    media := rtsp.media.set (rtsp.progress + 1) (bump m2) }
        (trace ++ [pause_send env m2]) hagg hst (by simp [hprog]) hset
        (fun x hx => hpost x (List.mem_cons_of_mem _ hx))
        (fun q hq => h200 q (List.mem_cons_of_mem _ hq))
        (by simp at hlen ⊢; omega)
      refine ⟨rtsp1, ?_⟩
      simp only [pause_replies, hstep, if_true]
      rw [h1]
      simp

/-- On a non-aggregate session in a state that PAUSE accepts, `rtsp_client_pause` sets the
state and the cursor and dispatches the request of the first track. -/
theorem pause_non_aggregate (env : Env) (rtsp : rtsp_client_t) (trace : List Event)
    (hagg : rtsp.aggregate = false)
    (hstate : rtsp.state = .RTSP_SETUP ∨ rtsp.state = .RTSP_PLAY ∨ rtsp.state = .RTSP_PAUSE) :
    rtsp_client_pause env rtsp trace =
      rtsp_client_media_pause env { rtsp with state := .RTSP_PAUSE, progress := 0 } trace := by
  rcases hstate with h | h | h <;> simp [rtsp_client_pause, assert, hagg, h]

/-- The whole per-track PAUSE exchange on a non-aggregate session, for any number of
200 replies up to the number of tracks. -/
theorem pause_session_sweep (env : Env) (rtsp : rtsp_client_t) (replies : List rtsp_reply_t)
    (hsend : ∀ h u q n, env.send h u q n = n)
    (hagg : rtsp.aggregate = false)
    (hstate : rtsp.state = .RTSP_SETUP ∨ rtsp.state = .RTSP_PLAY ∨ rtsp.state = .RTSP_PAUSE)
    (htracks : ∀ m ∈ rtsp.media, m.session ≠ [] ∧ (pause_text env m).length < env.req_size)
    (hN : 1 ≤ rtsp.media.length)
    (hlen : replies.length + 1 ≤ rtsp.media.length + 1)
    (h200 : ∀ p ∈ replies, p.rtsp_get_status_code = 200) :
    ∃ rtsp1, pause_session env rtsp replies =
      .ret 0 rtsp1 ((rtsp.media.take (replies.length + 1)).map (pause_send env)
        ++ (if replies.length = rtsp.media.length then [Event.onpause] else [])) := by
  obtain ⟨m0, post, hmedia⟩ : ∃ m0 post, rtsp.media = m0 :: post := by
    cases h : rtsp.media with
    | nil => simp [h] at hN
    | cons a l => exact ⟨a, l, rfl⟩
  have h0 := htracks m0 (by simp [hmedia])
  have hdisp := media_pause_step env { rtsp with state := .RTSP_PAUSE, progress := 0 } [] m0
    hagg rfl (by simp [hmedia]) h0.1 h0.2
  rw [hsend] at hdisp
  simp only [if_true] at hdisp
  obtain ⟨rtsp1, h1⟩ := pause_sweep env hsend replies post [] (bump m0)
    { rtsp with state := .RTSP_PAUSE, progress := 0, req := pause_text env m0,
                media := rtsp.media.set 0 (bump m0) }
    ([] ++ [pause_send env m0]) hagg rfl rfl (by simp [hmedia])
    (fun x hx => htracks x (by simp [hmedia, hx])) h200 (by simp [hmedia] at hlen; omega)
  refine ⟨rtsp1, ?_⟩
  simp only [pause_session, pause_non_aggregate env rtsp [] hagg hstate, hdisp, if_true]
  rw [h1]
  simp [hmedia]

/-- C1: on a non-aggregate session with N >= 1 tracks in state Setup, Play or Pause whose
sends are all accepted whole, `rtsp_client_pause` followed by N replies with status 200
returns 0 throughout and leaves the trace: the PAUSE request of each track (its uri, its
session id, its cseq), in index order, then one `onpause`; after only j < N replies the
trace holds the first j + 1 requests and no `onpause`. -/
theorem C1_pause_per_track (env : Env) (rtsp : rtsp_client_t) (replies : List rtsp_reply_t)
    (hsend : ∀ h u q n, env.send h u q n = n)
    (hagg : rtsp.aggregate = false)
    (hN : 1 ≤ rtsp.media.length)
    (hstate : rtsp.state = .RTSP_SETUP ∨ rtsp.state = .RTSP_PLAY ∨ rtsp.state = .RTSP_PAUSE)
    (htracks : ∀ m ∈ rtsp.media, m.session ≠ [] ∧ (pause_text env m).length < env.req_size)
    (hlen : replies.length = rtsp.media.length)
    (h200 : ∀ p ∈ replies, p.rtsp_get_status_code = 200) :
    (∃ rtsp1, pause_session env rtsp replies =
        .ret 0 rtsp1 (rtsp.media.map (pause_send env) ++ [Event.onpause]))
    ∧ ∀ j, j < rtsp.media.length → ∃ rtsp1, pause_session env rtsp (replies.take j) =
        .ret 0 rtsp1 ((rtsp.media.take (j + 1)).map (pause_send env)) := by
  constructor
  · obtain ⟨rtsp1, h⟩ := pause_session_sweep env rtsp replies hsend hagg hstate htracks hN
      (by omega) h200
    refine ⟨rtsp1, ?_⟩
    rw [h, hlen]
    simp
  · intro j hj
    have hjl : (replies.take j).length = j := by
      rw [List.length_take]; omega
    obtain ⟨rtsp1, h⟩ := pause_session_sweep env rtsp (replies.take j) hsend hagg hstate htracks
      hN (by omega) (fun p hp => h200 p (List.mem_of_mem_take hp))
    refine ⟨rtsp1, ?_⟩
    rw [h, hjl]
    have hne : ¬ j = rtsp.media.length := by omega
    simp [hne]

theorem C1_pause_per_track_witness :
    (∃ rtsp1, pause_session (demo_env false) (demo_session false) [reply_code 200, reply_code 200] =
        .ret 0 rtsp1 ((demo_session false).media.map (pause_send (demo_env false)) ++ [Event.onpause]))
    ∧ ∀ j, j < (demo_session false).media.length → ∃ rtsp1,
        pause_session (demo_env false) (demo_session false) ([reply_code 200, reply_code 200].take j) =
        .ret 0 rtsp1 (((demo_session false).media.take (j + 1)).map (pause_send (demo_env false))) :=
  C1_pause_per_track (demo_env false) (demo_session false) [reply_code 200, reply_code 200]
    (fun _ _ _ _ => rfl) rfl (by decide) (Or.inl rfl) (by decide) rfl (by decide)

/-- The aggregate dispatch of `rtsp_client_pause` on a session that meets its assertions:
one request to the aggregate uri, with the session-level cseq and the session id of the
first track; the session cseq is consumed and `send` decides the return value. -/
theorem pause_aggregate_step (env : Env) (rtsp : rtsp_client_t) (trace : List Event)
    (media0 : rtsp_media_t) (hagg : rtsp.aggregate = true)
    (hstate : rtsp.state = .RTSP_SETUP ∨ rtsp.state = .RTSP_PLAY ∨ rtsp.state = .RTSP_PAUSE)
    (h0 : rtsp.media[0]? = some media0) (huri : rtsp.aggregate_uri ≠ [])
    (hfit : (pause_text_aggregate env rtsp media0).length < env.req_size) :
    rtsp_client_pause env rtsp trace =
      .ret (if ((pause_text_aggregate env rtsp media0).length : Int)
              = env.send trace rtsp.aggregate_uri (pause_text_aggregate env rtsp media0)
                  ((pause_text_aggregate env rtsp media0).length : Int)
            then 0 else -1)
        { rtsp with state := .RTSP_PAUSE, progress := 0,
                    req := pause_text_aggregate env rtsp media0,
                    cseq := (rtsp.cseq + 1) % UINT_MOD }
        (trace ++ [Event.send rtsp.aggregate_uri (pause_text_aggregate env rtsp media0)
          ((pause_text_aggregate env rtsp media0).length : Int)]) := by
  have hlt : 0 < rtsp.media.length := by
    rcases List.getElem?_eq_some.1 h0 with ⟨h, -⟩
    exact h
  have hpos := wire_request_length_pos "PAUSE".toList rtsp.aggregate_uri rtsp.cseq
    media0.session [] env.USER_AGENT
  have hfmt : (format Pause.sc_format
      [.s rtsp.aggregate_uri, .u rtsp.cseq, .s media0.session, .s env.USER_AGENT]).length
      < env.req_size := by
    rw [format_pause]; exact hfit
  unfold rtsp_client_pause
  simp only [h0, hagg, snprintf_fits _ _ _ hfmt, format_pause]
  have hne := List.length_pos.1 hpos
  rcases hstate with h | h | h <;>
    simp [assert, h, media_count, hlt, huri, pause_text_aggregate] at hfit hne ⊢ <;>
    exact fun _ => ⟨hne, hfit⟩

/-- A 200 reply to the aggregate PAUSE request: `onpause` is invoked, nothing is sent. -/
theorem pause_aggregate_onreply_200 (env : Env) (rtsp : rtsp_client_t) (parser : rtsp_reply_t)
    (trace : List Event) (hst : rtsp.state = .RTSP_PAUSE) (hagg : rtsp.aggregate = true)
    (hlt : rtsp.progress < rtsp.media.length) (hcode : parser.rtsp_get_status_code = 200) :
    rtsp_client_pause_onreply env rtsp parser trace = .ret 0 rtsp (trace ++ [Event.onpause]) := by
  simp [rtsp_client_pause_onreply, rtsp_client_aggregate_pause_onreply, assert, hst, hagg,
    media_count, hlt, hcode]

/-- C4: on an aggregate session with at least one track (`media0` is the first) in state
Setup, Play or Pause, `rtsp_client_pause` calls `send` exactly once, for the aggregate uri,
with a PAUSE request that carries the session-level cseq and the session id of the first
track; a 200 reply handled on the session it leaves returns 0, invokes `onpause` exactly
once and sends nothing. -/
theorem C4_pause_aggregate (env : Env) (rtsp : rtsp_client_t) (parser : rtsp_reply_t)
    (trace : List Event) (media0 : rtsp_media_t) (hagg : rtsp.aggregate = true)
    (hstate : rtsp.state = .RTSP_SETUP ∨ rtsp.state = .RTSP_PLAY ∨ rtsp.state = .RTSP_PAUSE)
    (h0 : rtsp.media[0]? = some media0) (huri : rtsp.aggregate_uri ≠ [])
    (hfit : (pause_text_aggregate env rtsp media0).length < env.req_size)
    (hcode : parser.rtsp_get_status_code = 200) :
    ∃ r rtsp1,
      rtsp_client_pause env rtsp trace =
        .ret r rtsp1 (trace ++ [Event.send rtsp.aggregate_uri
          (wire_request "PAUSE".toList rtsp.aggregate_uri rtsp.cseq media0.session []
            env.USER_AGENT)
          ((pause_text_aggregate env rtsp media0).length : Int)])
      ∧ ∀ trace1, rtsp_client_pause_onreply env rtsp1 parser trace1 =
          .ret 0 rtsp1 (trace1 ++ [Event.onpause]) := by
  have hlt : 0 < rtsp.media.length := by
    rcases List.getElem?_eq_some.1 h0 with ⟨h, -⟩
    exact h
  refine ⟨_, _, pause_aggregate_step env rtsp trace media0 hagg hstate h0 huri hfit, ?_⟩
  intro trace1
  exact pause_aggregate_onreply_200 env _ parser trace1 rfl hagg hlt hcode

theorem C4_pause_aggregate_witness :
    ∃ r rtsp1,
      rtsp_client_pause (demo_env false) (demo_session true) [] =
        .ret r rtsp1 ([] ++ [Event.send (demo_session true).aggregate_uri
          (wire_request "PAUSE".toList (demo_session true).aggregate_uri (demo_session true).cseq
            "S0".toList [] (demo_env false).USER_AGENT)
          ((pause_text_aggregate (demo_env false) (demo_session true)
            { uri := "rtsp://h/t0".toList, cseq := 3, session := "S0".toList }).length : Int)])
      ∧ ∀ trace1, rtsp_client_pause_onreply (demo_env false) rtsp1 (reply_code 200) trace1 =
          .ret 0 rtsp1 (trace1 ++ [Event.onpause]) :=
  C4_pause_aggregate (demo_env false) (demo_session true) (reply_code 200) []
    { uri := "rtsp://h/t0".toList, cseq := 3, session := "S0".toList }
    rfl (Or.inl rfl) rfl (by decide) (by decide) rfl

/-- C2, evaluated on an aggregate session of two tracks whose aggregate PAUSE is answered
with 459. With assertions enabled the fallback stops at `assert(0 == rtsp->aggregate)` in
`rtsp_client_media_pause`: the only request ever sent is the aggregate one. With `NDEBUG`
the request of track 0 is sent, and the first 200 reply is taken as the reply of an
aggregate request: `onpause` is invoked at once and track 1 is never paused. -/
theorem C2_pause_fallback_two_tracks :
    (pause_session (demo_env false) (demo_session true)
        [reply_code 459, reply_code 200, reply_code 200]).result = none
    ∧ (pause_session (demo_env false) (demo_session true)
        [reply_code 459, reply_code 200, reply_code 200]).events.filterMap Event.sent_uri
        = ["rtsp://h/all".toList]
    ∧ (pause_session (demo_env true) (demo_session true)
        [reply_code 459, reply_code 200]).result = some 0
    ∧ (pause_session (demo_env true) (demo_session true)
        [reply_code 459, reply_code 200]).events.filterMap Event.sent_uri
        = ["rtsp://h/all".toList, "rtsp://h/t0".toList]
    ∧ (pause_session (demo_env true) (demo_session true)
        [reply_code 459, reply_code 200]).events.getLast? = some Event.onpause := by
  decide

/-- C3, evaluated on an aggregate session of two tracks whose aggregate PLAY is answered
with 200. `onplay` is invoked with index 0, then the handler goes on to dispatch track 1:
with assertions enabled it stops at `assert(0 == rtsp->aggregate)` in
`rtsp_client_media_play` and does not return; with `NDEBUG` it sends a per-track PLAY
request to `tracks[1]`. -/
theorem C3_play_aggregate_200_two_tracks :
    (play_session (demo_env false) (demo_session true) none none [reply_code 200]).result = none
    ∧ (play_session (demo_env false) (demo_session true) none none
        [reply_code 200]).events.filterMap Event.onplay_index = [0]
    ∧ (play_session (demo_env true) (demo_session true) none none [reply_code 200]).result = some 0
    ∧ (play_session (demo_env true) (demo_session true) none none
        [reply_code 200]).events.filterMap Event.onplay_index = [0]
    ∧ (play_session (demo_env true) (demo_session true) none none
        [reply_code 200]).events.filterMap Event.sent_uri
        = ["rtsp://h/all".toList, "rtsp://h/t1".toList] := by
  decide

/-- C6, evaluated on an aggregate session of two tracks whose aggregate PLAY is answered
with 459. With assertions enabled the fallback stops at `assert(0 == rtsp->aggregate)` in
`rtsp_client_media_play`: the handler does not return and no per-track request is sent.
With `NDEBUG` the per-track sequence runs as the claim says. -/
theorem C6_play_fallback_two_tracks :
    (play_session (demo_env false) (demo_session true) none none [reply_code 459]).result = none
    ∧ (play_session (demo_env false) (demo_session true) none none
        [reply_code 459]).events.filterMap Event.sent_uri = ["rtsp://h/all".toList]
    ∧ (play_session (demo_env true) (demo_session true) none none
        [reply_code 459, reply_code 200, reply_code 200]).result = some 0
    ∧ (play_session (demo_env true) (demo_session true) none none
        [reply_code 459, reply_code 200, reply_code 200]).events.filterMap Event.sent_uri
        = ["rtsp://h/all".toList, "rtsp://h/t0".toList, "rtsp://h/t1".toList]
    ∧ (play_session (demo_env true) (demo_session true) none none
        [reply_code 459, reply_code 200, reply_code 200]).events.filterMap Event.onplay_index
        = [0, 1] := by
  decide

/-- One dispatch of `rtsp_client_media_play` on a session that meets its assertions:
the request of `tracks[progress]` is formatted whole with the pending fragments, the
track's `cseq` is consumed, `send` is called once and decides the return value. -/
theorem media_play_step (env : Env) (rtsp : rtsp_client_t) (trace : List Event)
    (m : rtsp_media_t) (hagg : rtsp.aggregate = false) (hst : rtsp.state = .RTSP_PLAY)
    (hm : rtsp.media[rtsp.progress]? = some m) (hs : m.session ≠ [])
    (hfit : (play_text env (rtsp.range ++ rtsp.speed) m).length < env.req_size) :
    rtsp_client_media_play env rtsp trace =
      .ret (if ((play_text env (rtsp.range ++ rtsp.speed) m).length : Int)
              = env.send trace m.uri (play_text env (rtsp.range ++ rtsp.speed) m)
                  ((play_text env (rtsp.range ++ rtsp.speed) m).length : Int)
            then 0 else -1)
        { rtsp with req := play_text env (rtsp.range ++ rtsp.speed) m,
                    media := rtsp.media.set rtsp.progress (bump m) }
        (trace ++ [play_send env (rtsp.range ++ rtsp.speed) m]) := by
  have hlt : rtsp.progress < rtsp.media.length := by
    rcases List.getElem?_eq_some.1 hm with ⟨h, -⟩
    exact h
  have hpos := wire_request_length_pos "PLAY".toList m.uri m.cseq m.session
    (rtsp.range ++ rtsp.speed) env.USER_AGENT
  have hfmt : (format Play.sc_format [.s m.uri, .u m.cseq, .s m.session, .s rtsp.range,
      .s rtsp.speed, .s env.USER_AGENT]).length < env.req_size := by
    rw [format_play]; exact hfit
  have hne := List.length_pos.1 hpos
  unfold rtsp_client_media_play
  simp only [rtsp_get_media, hm, snprintf_fits _ _ _ hfmt, format_play]
  simp [assert, hagg, hst, media_count, hlt, hs, play_text, play_send, bump] at hfit hne ⊢
  exact fun _ => ⟨hne, hfit⟩

/-- A 200 reply on the per-track PLAY path whose `Range` header passes the assertions:
`onplay` is invoked for the current track, `progress` advances, and the request of the
next track is dispatched if there is one. -/
theorem media_play_onreply_200 (env : Env) (rtsp : rtsp_client_t) (parser : rtsp_reply_t)
    (trace : List Event) (hcode : parser.rtsp_get_status_code = 200)
    (hrange : range_asserted env parser = true) :
    rtsp_client_media_play_onreply env rtsp parser trace =
      if rtsp.media.length > rtsp.progress + 1 then
        rtsp_client_media_play env { rtsp with progress := rtsp.progress + 1 }
          (trace ++ [onplay_event env rtsp.progress parser])
      else
        .ret 0 { rtsp with progress := rtsp.progress + 1 }
          (trace ++ [onplay_event env rtsp.progress parser]) := by
  unfold range_asserted at hrange
  unfold rtsp_client_media_play_onreply onplay_event
  simp only [hcode, media_count, zero_slot]
  cases hr : parser.rtsp_get_header_by_name "Range".toList with
  | none => simp
  | some v =>
    rw [hr] at hrange
    cases hd : env.rtsp_header_range v with
    | none => simp [hd]
    | some range =>
      simp only [hd] at hrange
      simp [hd, hrange]

theorem onplay_event_index (env : Env) (k : Nat) (p : rtsp_reply_t) :
    (onplay_event env k p).onplay_index = some k := by
  simp [onplay_event, Event.onplay_index]

theorem onplay_event_is_send (env : Env) (k : Nat) (p : rtsp_reply_t) :
    (onplay_event env k p).is_send = false := by
  simp [onplay_event, Event.is_send]

theorem play_tail_indices (env : Env) (fields : CStr) :
    ∀ (replies : List rtsp_reply_t) (post : List rtsp_media_t) (k : Nat),
      replies.length ≤ post.length + 1 →
      (play_tail env fields k post replies).filterMap Event.onplay_index
        = List.range' k replies.length := by
  intro replies
  induction replies with
  | nil => intro post k _; simp [play_tail]
  | cons p ps ih =>
    intro post k hlen
    cases post with
    | nil =>
      have hps : ps = [] := by
        cases ps with
        | nil => rfl
        | cons q qs => simp at hlen
      subst hps
      simp [play_tail, onplay_event_index, List.range']
    | cons m post2 =>
      have := ih post2 (k + 1) (by simp at hlen ⊢; omega)
      rw [play_tail, List.filterMap_cons_some (onplay_event_index env k p),
        List.filterMap_cons_none (by rfl), this]
      rfl

theorem play_tail_sends (env : Env) (fields : CStr) :
    ∀ (replies : List rtsp_reply_t) (post : List rtsp_media_t) (k : Nat),
      (play_tail env fields k post replies).filter Event.is_send
        = (post.take replies.length).map (play_send env fields) := by
  intro replies
  induction replies with
  | nil => intro post k; simp [play_tail]
  | cons p ps ih =>
    intro post k
    cases post with
    | nil => simp [play_tail, onplay_event_is_send]
    | cons m post2 =>
      rw [play_tail, List.filter_cons_of_neg (by simp [onplay_event_is_send]),
        List.filter_cons_of_pos (by rfl), ih post2 (k + 1)]
      simp

/-- On a non-aggregate session in state Play with the cursor on a track, the reply
handler is the per-track one. -/
theorem play_onreply_non_aggregate (env : Env) (rtsp : rtsp_client_t) (parser : rtsp_reply_t)
    (trace : List Event) (hst : rtsp.state = .RTSP_PLAY) (hagg : rtsp.aggregate = false)
    (hlt : rtsp.progress < rtsp.media.length) :
    rtsp_client_play_onreply env rtsp parser trace =
      rtsp_client_media_play_onreply env rtsp parser trace := by
  simp [rtsp_client_play_onreply, assert, hst, hagg, media_count, hlt]

/-- The per-track PLAY sweep from a session that waits for the reply of track
`pre.length`: each 200 reply invokes `onplay` for the current track and dispatches the
next one; after the reply of the last track nothing more is sent. -/
theorem play_sweep (env : Env) (fields : CStr) (hsend : ∀ h u q n, env.send h u q n = n) :
    ∀ (replies : List rtsp_reply_t) (post pre : List rtsp_media_t) (m : rtsp_media_t)
      (rtsp : rtsp_client_t) (trace : List Event),
      rtsp.aggregate = false → rtsp.state = .RTSP_PLAY → rtsp.progress = pre.length →
      rtsp.media = pre ++ m :: post → rtsp.range ++ rtsp.speed = fields →
      (∀ x ∈ post, x.session ≠ [] ∧ (play_text env fields x).length < env.req_size) →
      (∀ p ∈ replies, p.rtsp_get_status_code = 200 ∧ range_asserted env p = true) →
      replies.length ≤ post.length + 1 →
      ∃ rtsp1, play_replies env replies rtsp trace =
          .ret 0 rtsp1 (trace ++ play_tail env fields pre.length post replies)
        ∧ rtsp1.progress = pre.length + replies.length := by
  intro replies
  induction replies with
  | nil =>
    intro post pre m rtsp trace _ _ hprog _ _ _ _ _
    exact ⟨rtsp, by simp [play_replies, play_tail], by simp [hprog]⟩
  | cons p ps ih =>
    intro post pre m rtsp trace hagg hst hprog hmedia hfields hpost h200 hlen
    have hlt : rtsp.progress < rtsp.media.length := by
      rw [hprog, hmedia]; simp
    have hp := h200 p (List.mem_cons_self _ _)
    have hstep := play_onreply_non_aggregate env rtsp p trace hst hagg hlt
    rw [media_play_onreply_200 env rtsp p trace hp.1 hp.2] at hstep
    cases post with
    | nil =>
      have hps : ps = [] := by
        cases ps with
        | nil => rfl
        | cons q qs => simp at hlen
      subst hps
      have hN : ¬ rtsp.media.length > rtsp.progress + 1 := by rw [hprog, hmedia]; simp
      rw [if_neg hN] at hstep
      exact ⟨{ rtsp with progress := rtsp.progress + 1 },
        by simp [play_replies, hstep, play_tail, hprog], by simp [hprog]⟩
    | cons m2 post2 =>
      have hN : rtsp.media.length > rtsp.progress + 1 := by rw [hprog, hmedia]; simp
      rw [if_pos hN] at hstep
      have hm2 : ({ rtsp with progress := rtsp.progress + 1 } : rtsp_client_t).media[
          ({ rtsp with progress := rtsp.progress + 1 } : rtsp_client_t).progress]? = some m2 := by
        show rtsp.media[rtsp.progress + 1]? = some m2
        rw [hprog, hmedia]
        have := get_middle (pre ++ [m]) m2 post2
        simpa using this
      have h2 := hpost m2 (List.mem_cons_self _ _)
      have hdisp := media_play_step env { rtsp with progress := rtsp.progress + 1 }
        (trace ++ [onplay_event env rtsp.progress p]) m2 hagg hst hm2 h2.1
        (by show (play_text env (rtsp.range ++ rtsp.speed) m2).length < env.req_size
            rw [hfields]; exact h2.2)
      rw [hsend] at hdisp
      simp only [if_true] at hdisp
      rw [hdisp] at hstep
      have hset : rtsp.media.set (rtsp.progress + 1) (bump m2) = (pre ++ [m]) ++ bump m2 :: post2 := by
        rw [hprog, hmedia]
        simp
      obtain ⟨rtsp1, h1, hp1⟩ := ih post2 (pre ++ [m]) (bump m2)
        { rtsp with progress := rtsp.progress + 1,
                    req := play_text env (rtsp.range ++ rtsp.speed) m2,
                    media := rtsp.media.set (rtsp.progress + 1) (bump m2) }
        (trace ++ [onplay_event env rtsp.progress p] ++ [play_send env (rtsp.range ++ rtsp.speed) m2])
        hagg hst (by simp [hprog]) hset hfields
        (fun x hx => hpost x (List.mem_cons_of_mem _ hx))
        (fun q hq => h200 q (List.mem_cons_of_mem _ hq))
        (by simp at hlen ⊢; omega)
      refine ⟨rtsp1, ?_, ?_⟩
      · simp only [play_replies, hstep, if_true]
        rw [h1]
        simp [play_tail, hprog, hfields]
      · rw [hp1]; simp; omega

theorem play_tail_last (env : Env) (fields : CStr) :
    ∀ (replies : List rtsp_reply_t) (post : List rtsp_media_t) (k : Nat),
      replies.length = post.length + 1 →
      ∃ p, (play_tail env fields k post replies).getLast? = some (onplay_event env (k + post.length) p) := by
  intro replies
  induction replies with
  | nil => intro post k h; simp at h
  | cons p ps ih =>
    intro post k hlen
    cases post with
    | nil => exact ⟨p, by simp [play_tail]⟩
    | cons m post2 =>
      obtain ⟨q, hq⟩ := ih post2 (k + 1) (by simp at hlen ⊢; omega)
      refine ⟨q, ?_⟩
      have hk : k + 1 + post2.length = k + (m :: post2).length := by
        rw [List.length_cons]; omega
      rw [play_tail, List.getLast?_cons_cons, List.getLast?_cons, hq, hk]
      simp

/-- On a non-aggregate session `rtsp_client_play` stores the pending fragments, sets the
state and the cursor and dispatches the request of the first track. -/
theorem play_non_aggregate (env : Env) (rtsp : rtsp_client_t) (npt : Option Nat)
    (speed : Option c_float) (trace : List Event) (hagg : rtsp.aggregate = false) :
    rtsp_client_play env rtsp npt speed trace =
      rtsp_client_media_play env (play_prepared env rtsp npt speed) trace := by
  simp [rtsp_client_play, play_prepared, play_range, play_speed, hagg]

/-- The whole per-track PLAY exchange on a non-aggregate session: the exact trace. -/
theorem play_session_sweep (env : Env) (rtsp : rtsp_client_t) (npt : Option Nat)
    (speed : Option c_float) (replies : List rtsp_reply_t) (m0 : rtsp_media_t)
    (post : List rtsp_media_t)
    (hsend : ∀ h u q n, env.send h u q n = n)
    (hagg : rtsp.aggregate = false) (hmedia : rtsp.media = m0 :: post)
    (htracks : ∀ m ∈ rtsp.media, m.session ≠ [] ∧
      (play_text env (play_range env npt ++ play_speed env speed) m).length < env.req_size)
    (hlen : replies.length ≤ post.length + 1)
    (h200 : ∀ p ∈ replies, p.rtsp_get_status_code = 200 ∧ range_asserted env p = true) :
    ∃ rtsp1, play_session env rtsp npt speed replies =
        .ret 0 rtsp1 (play_send env (play_range env npt ++ play_speed env speed) m0
          :: play_tail env (play_range env npt ++ play_speed env speed) 0 post replies)
      ∧ rtsp1.progress = replies.length := by
  have h0 := htracks m0 (by simp [hmedia])
  have hdisp := media_play_step env (play_prepared env rtsp npt speed) [] m0
    hagg rfl (by simp [play_prepared, hmedia]) h0.1 h0.2
  rw [hsend] at hdisp
  simp only [if_true] at hdisp
  obtain ⟨rtsp1, h1, hp1⟩ := play_sweep env (play_range env npt ++ play_speed env speed) hsend
    replies post [] (bump m0)
    { play_prepared env rtsp npt speed with
        req := play_text env (play_range env npt ++ play_speed env speed) m0,
        media := (play_prepared env rtsp npt speed).media.set 0 (bump m0) }
    ([] ++ [play_send env (play_range env npt ++ play_speed env speed) m0]) hagg rfl rfl
    (by simp [play_prepared, hmedia]) rfl
    (fun x hx => htracks x (by simp [hmedia, hx])) h200 hlen
  refine ⟨rtsp1, ?_, by simpa using hp1⟩
  simp only [play_session, play_non_aggregate env rtsp npt speed [] hagg]
  have hd2 : rtsp_client_media_play env (play_prepared env rtsp npt speed) [] = _ := hdisp
  rw [hd2]
  simp only [if_true]
  exact h1

/-- C5: on a non-aggregate session with N >= 1 tracks whose sends are all accepted whole,
`rtsp_client_play` followed by N replies with status 200 returns 0 throughout, invokes
`onplay` N times with the track indices 0, 1, ..., N-1 in that order, sends exactly N PLAY
requests, the k-th being the request of `tracks[k-1]`, and ends with `progress = N`; the
last event is the `onplay` of track N-1, so nothing is sent after the N-th reply. -/
theorem C5_play_per_track (env : Env) (rtsp : rtsp_client_t) (npt : Option Nat)
    (speed : Option c_float) (replies : List rtsp_reply_t)
    (hsend : ∀ h u q n, env.send h u q n = n)
    (hagg : rtsp.aggregate = false) (hN : 1 ≤ rtsp.media.length)
    (htracks : ∀ m ∈ rtsp.media, m.session ≠ [] ∧
      (play_text env (play_range env npt ++ play_speed env speed) m).length < env.req_size)
    (hlen : replies.length = rtsp.media.length)
    (h200 : ∀ p ∈ replies, p.rtsp_get_status_code = 200 ∧ range_asserted env p = true) :
    ∃ rtsp1 trace, play_session env rtsp npt speed replies = .ret 0 rtsp1 trace
      ∧ trace.filterMap Event.onplay_index = List.range rtsp.media.length
      ∧ trace.filter Event.is_send
          = rtsp.media.map (play_send env (play_range env npt ++ play_speed env speed))
      ∧ rtsp1.progress = rtsp.media.length
      ∧ ∃ p, trace.getLast? = some (onplay_event env (rtsp.media.length - 1) p) := by
  obtain ⟨m0, post, hmedia⟩ : ∃ m0 post, rtsp.media = m0 :: post := by
    cases h : rtsp.media with
    | nil => simp [h] at hN
    | cons a l => exact ⟨a, l, rfl⟩
  have hl : replies.length = post.length + 1 := by rw [hlen, hmedia]; simp
  obtain ⟨rtsp1, h1, hp1⟩ := play_session_sweep env rtsp npt speed replies m0 post hsend hagg
    hmedia htracks (by omega) h200
  obtain ⟨q, hq⟩ := play_tail_last env (play_range env npt ++ play_speed env speed) replies post 0 hl
  refine ⟨rtsp1, _, h1, ?_, ?_, by omega, q, ?_⟩
  · rw [List.filterMap_cons_none (by rfl), play_tail_indices env _ replies post 0 (by omega),
      hlen, List.range_eq_range']
  · rw [List.filter_cons_of_pos (by rfl), play_tail_sends, hmedia, hl]
    simp
  · have hpost : rtsp.media.length - 1 = 0 + post.length := by rw [hmedia]; simp
    rw [hpost]
    cases hpt : play_tail env (play_range env npt ++ play_speed env speed) 0 post replies with
    | nil => rw [hpt] at hq; simp at hq
    | cons a l =>
      rw [hpt] at hq
      rw [List.getLast?_cons_cons, hq]

theorem C5_play_per_track_witness :
    ∃ rtsp1 trace, play_session (demo_env false) (demo_session false) (some 10500) none
        [reply_code 200, reply_code 200] = .ret 0 rtsp1 trace
      ∧ trace.filterMap Event.onplay_index = List.range (demo_session false).media.length
      ∧ trace.filter Event.is_send
          = (demo_session false).media.map (play_send (demo_env false)
              (play_range (demo_env false) (some 10500) ++ play_speed (demo_env false) none))
      ∧ rtsp1.progress = (demo_session false).media.length
      ∧ ∃ p, trace.getLast? = some (onplay_event (demo_env false)
          ((demo_session false).media.length - 1) p) :=
  C5_play_per_track (demo_env false) (demo_session false) (some 10500) none
    [reply_code 200, reply_code 200] (fun _ _ _ _ => rfl) rfl (by decide) (by decide) rfl
    (by decide)

theorem play_range_none (env : Env) : play_range env none = [] := by
  simp [play_range, snprintf, format]

theorem play_speed_none (env : Env) : play_speed env none = [] := by
  simp [play_speed, snprintf, format]

theorem play_range_some (env : Env) (t : Nat) (h : (range_line t).length < env.range_size) :
    play_range env (some t) = range_line t := by
  have hf : ("Range: npt=%" ++ PRIu64 ++ ".%" ++ PRIu64 ++ "-\r\n").toList
      = "Range: npt=%llu.%llu-\r\n".toList := by rfl
  have hfmt : format "Range: npt=%llu.%llu-\r\n".toList [.u (t / 1000), .u (t % 1000)]
      = range_line t := by
    simp [format, range_line]
  simp only [play_range, hf]
  rw [snprintf_fits _ _ _ (by rw [hfmt]; exact h), hfmt]

theorem rtsp_client_play_unfold (env : Env) (rtsp : rtsp_client_t) (npt : Option Nat)
    (speed : Option c_float) (trace : List Event) :
    rtsp_client_play env rtsp npt speed trace =
      if rtsp.aggregate = true then
        play_aggregate_branch env (play_prepared env rtsp npt speed) trace
      else
        rtsp_client_media_play env (play_prepared env rtsp npt speed) trace := by
  rfl

/-- The aggregate dispatch of `rtsp_client_play` on a session that meets its assertions:
one request to the aggregate uri, with the session-level cseq, the session id of the first
track and the pending fragments; `send` decides the return value. -/
theorem play_aggregate_step (env : Env) (rtsp : rtsp_client_t) (npt : Option Nat)
    (speed : Option c_float) (trace : List Event) (media0 : rtsp_media_t)
    (hagg : rtsp.aggregate = true) (h0 : rtsp.media[0]? = some media0)
    (huri : rtsp.aggregate_uri ≠ [])
    (hfit : (play_text_aggregate env (play_prepared env rtsp npt speed) media0).length
      < env.req_size) :
    rtsp_client_play env rtsp npt speed trace =
      .ret (if ((play_text_aggregate env (play_prepared env rtsp npt speed) media0).length : Int)
              = env.send trace rtsp.aggregate_uri
                  (play_text_aggregate env (play_prepared env rtsp npt speed) media0)
                  ((play_text_aggregate env (play_prepared env rtsp npt speed) media0).length : Int)
            then 0 else -1)
        { play_prepared env rtsp npt speed with
            req := play_text_aggregate env (play_prepared env rtsp npt speed) media0,
            cseq := (rtsp.cseq + 1) % UINT_MOD }
        (trace ++ [Event.send rtsp.aggregate_uri
          (play_text_aggregate env (play_prepared env rtsp npt speed) media0)
          ((play_text_aggregate env (play_prepared env rtsp npt speed) media0).length : Int)]) := by
  have hlt : 0 < rtsp.media.length := by
    rcases List.getElem?_eq_some.1 h0 with ⟨h, -⟩
    exact h
  have hpos := wire_request_length_pos "PLAY".toList rtsp.aggregate_uri rtsp.cseq
    media0.session (play_range env npt ++ play_speed env speed) env.USER_AGENT
  have hne := List.length_pos.1 hpos
  have hfit2 : (wire_request "PLAY".toList rtsp.aggregate_uri rtsp.cseq media0.session
      (play_range env npt ++ play_speed env speed) env.USER_AGENT).length < env.req_size := hfit
  have hfmt : (format Play.sc_format [.s rtsp.aggregate_uri, .u rtsp.cseq, .s media0.session,
      .s (play_range env npt), .s (play_speed env speed), .s env.USER_AGENT]).length
      < env.req_size := by
    rw [format_play]; exact hfit2
  have hsn := snprintf_fits _ _ _ hfmt
  rw [format_play] at hsn
  rw [rtsp_client_play_unfold, if_pos hagg]
  unfold play_aggregate_branch
  have h0p : (play_prepared env rtsp npt speed).media[0]? = some media0 := h0
  simp only [h0p]
  simp only [play_prepared, hsn]
  simp [assert, media_count, hlt, huri, play_text_aggregate, play_prepared] at hne hfit2 ⊢
  exact fun _ => ⟨hne, hfit2⟩

/-- C7, evaluated: for a start position of 10005 ms the stored fragment is
`Range: npt=10.5-`, not `npt=10.005-`: the milliseconds are printed without padding to
three digits, so the value reads as 10.5 s. For 10500 ms it is `npt=10.500-`, and without
a start position the fragment is empty. -/
theorem C7_range_fragment_unpadded :
    (rtsp_client_play (demo_env false) (demo_session false) (some 10005) none []).session.range
      = "Range: npt=10.5-\r\n".toList
    ∧ (rtsp_client_play (demo_env false) (demo_session false) (some 10500) none []).session.range
      = "Range: npt=10.500-\r\n".toList
    ∧ (rtsp_client_play (demo_env false) (demo_session false) none none []).session.range = [] := by
  decide

theorem wire_request_play_shorter (u s a : CStr) (n : Nat) :
    (wire_request "PLAY".toList u n s [] a).length + 1
      = (wire_request "PAUSE".toList u n s [] a).length := by
  simp [wire_request]

/-- An entry call of PLAY on a session that meets the assertions returns after one `send`
of the whole request for the target (aggregate uri and session cseq, or first track). -/
theorem play_entry_returns (env : Env) (rtsp : rtsp_client_t) (npt : Option Nat)
    (speed : Option c_float) (trace : List Event) (media0 : rtsp_media_t)
    (h0 : rtsp.media[0]? = some media0) (hs0 : media0.session ≠ [])
    (huri : rtsp.aggregate = true → rtsp.aggregate_uri ≠ [])
    (hfit : (wire_request "PLAY".toList (target_uri rtsp media0) (target_cseq rtsp media0)
      media0.session (play_range env npt ++ play_speed env speed) env.USER_AGENT).length
      < env.req_size) :
    (rtsp_client_play env rtsp npt speed trace).returns
      (trace ++ [sent (target_uri rtsp media0)
        (wire_request "PLAY".toList (target_uri rtsp media0) (target_cseq rtsp media0)
          media0.session (play_range env npt ++ play_speed env speed) env.USER_AGENT)]) := by
  cases hagg : rtsp.aggregate with
  | true =>
    simp only [target_uri, target_cseq, hagg, if_true] at hfit ⊢
    exact ⟨_, _, play_aggregate_step env rtsp npt speed trace media0 hagg h0 (huri hagg) hfit⟩
  | false =>
    simp only [target_uri, target_cseq, hagg] at hfit ⊢
    rw [play_non_aggregate env rtsp npt speed trace hagg]
    exact ⟨_, _, media_play_step env (play_prepared env rtsp npt speed) trace media0 hagg rfl
      h0 hs0 hfit⟩

/-- An entry call of PAUSE on a session that meets the assertions returns after one `send`
of the whole request for the target (aggregate uri and session cseq, or first track). -/
theorem pause_entry_returns (env : Env) (rtsp : rtsp_client_t) (trace : List Event)
    (media0 : rtsp_media_t)
    (hstate : rtsp.state = .RTSP_SETUP ∨ rtsp.state = .RTSP_PLAY ∨ rtsp.state = .RTSP_PAUSE)
    (h0 : rtsp.media[0]? = some media0) (hs0 : media0.session ≠ [])
    (huri : rtsp.aggregate = true → rtsp.aggregate_uri ≠ [])
    (hfit : (wire_request "PAUSE".toList (target_uri rtsp media0) (target_cseq rtsp media0)
      media0.session [] env.USER_AGENT).length < env.req_size) :
    (rtsp_client_pause env rtsp trace).returns
      (trace ++ [sent (target_uri rtsp media0)
        (wire_request "PAUSE".toList (target_uri rtsp media0) (target_cseq rtsp media0)
          media0.session [] env.USER_AGENT)]) := by
  cases hagg : rtsp.aggregate with
  | true =>
    simp only [target_uri, target_cseq, hagg, if_true] at hfit ⊢
    exact ⟨_, _, pause_aggregate_step env rtsp trace media0 hagg hstate h0 (huri hagg) hfit⟩
  | false =>
    simp only [target_uri, target_cseq, hagg] at hfit ⊢
    rw [pause_non_aggregate env rtsp trace hagg hstate]
    exact ⟨_, _, media_pause_step env { rtsp with state := .RTSP_PAUSE, progress := 0 } trace
      media0 hagg rfl h0 hs0 hfit⟩

/-- C8: on a session that meets the assertions of the dispatch code (`media0` is the first
track, `m` the track under the cursor, both with a session id; an aggregate session has its
aggregate uri set; the requests fit the request buffer), with the target of an entry call being the aggregate uri
and session cseq, or the first track and its cseq:
(1) `rtsp_client_play` without start position and speed sends exactly
`PLAY <uri> RTSP/1.0 CRLF CSeq: <n> CRLF Session: <id> CRLF User-Agent: <agent> CRLF CRLF`;
(2) `rtsp_client_pause` sends the same shape with method PAUSE;
(3) and (4) so do the per-track dispatches `rtsp_client_media_play` (with empty pending
fragments) and `rtsp_client_media_pause` for the track under the cursor;
(5) with a start position `t` the `Range` line stands between the `Session` line and the
`Speed` fragment and `User-Agent` line. -/
theorem C8_request_wire_shape (env : Env) (rtsp : rtsp_client_t) (trace : List Event)
    (media0 m : rtsp_media_t) (t : Nat) (speed : Option c_float)
    (hstate : rtsp.state = .RTSP_SETUP ∨ rtsp.state = .RTSP_PLAY ∨ rtsp.state = .RTSP_PAUSE)
    (h0 : rtsp.media[0]? = some media0) (hm : rtsp.media[rtsp.progress]? = some m)
    (hs0 : media0.session ≠ []) (hs : m.session ≠ [])
    (huri : rtsp.aggregate = true → rtsp.aggregate_uri ≠ [])
    (hfit0 : (wire_request "PAUSE".toList (target_uri rtsp media0) (target_cseq rtsp media0)
      media0.session [] env.USER_AGENT).length < env.req_size)
    (hfitm : (pause_text env m).length < env.req_size)
    (hfitr : (wire_request "PLAY".toList (target_uri rtsp media0) (target_cseq rtsp media0)
      media0.session (range_line t ++ play_speed env speed) env.USER_AGENT).length < env.req_size)
    (hrange : (range_line t).length < env.range_size) :
    (rtsp_client_play env rtsp none none trace).returns
      (trace ++ [sent (target_uri rtsp media0)
        ("PLAY ".toList ++ target_uri rtsp media0 ++ " RTSP/1.0\r\nCSeq: ".toList
          ++ Nat.toDigits 10 (target_cseq rtsp media0) ++ "\r\nSession: ".toList
          ++ media0.session ++ "\r\nUser-Agent: ".toList ++ env.USER_AGENT
          ++ "\r\n\r\n".toList)])
    ∧ (rtsp_client_pause env rtsp trace).returns
      (trace ++ [sent (target_uri rtsp media0)
        ("PAUSE ".toList ++ target_uri rtsp media0 ++ " RTSP/1.0\r\nCSeq: ".toList
          ++ Nat.toDigits 10 (target_cseq rtsp media0) ++ "\r\nSession: ".toList
          ++ media0.session ++ "\r\nUser-Agent: ".toList ++ env.USER_AGENT
          ++ "\r\n\r\n".toList)])
    ∧ (rtsp_client_media_play env
        { rtsp with aggregate := false, state := .RTSP_PLAY, range := [], speed := [] }
        trace).returns
      (trace ++ [sent m.uri
        ("PLAY ".toList ++ m.uri ++ " RTSP/1.0\r\nCSeq: ".toList
          ++ Nat.toDigits 10 m.cseq ++ "\r\nSession: ".toList
          ++ m.session ++ "\r\nUser-Agent: ".toList ++ env.USER_AGENT
          ++ "\r\n\r\n".toList)])
    ∧ (rtsp_client_media_pause env { rtsp with aggregate := false, state := .RTSP_PAUSE }
        trace).returns
      (trace ++ [sent m.uri
        ("PAUSE ".toList ++ m.uri ++ " RTSP/1.0\r\nCSeq: ".toList
          ++ Nat.toDigits 10 m.cseq ++ "\r\nSession: ".toList
          ++ m.session ++ "\r\nUser-Agent: ".toList ++ env.USER_AGENT
          ++ "\r\n\r\n".toList)])
    ∧ (rtsp_client_play env rtsp (some t) speed trace).returns
      (trace ++ [sent (target_uri rtsp media0)
        ("PLAY ".toList ++ target_uri rtsp media0 ++ " RTSP/1.0\r\nCSeq: ".toList
          ++ Nat.toDigits 10 (target_cseq rtsp media0) ++ "\r\nSession: ".toList
          ++ media0.session ++ "\r\n".toList
          ++ ("Range: npt=".toList ++ Nat.toDigits 10 (t / 1000) ++ ".".toList
              ++ Nat.toDigits 10 (t % 1000) ++ "-\r\n".toList)
          ++ play_speed env speed
          ++ "User-Agent: ".toList ++ env.USER_AGENT ++ "\r\n\r\n".toList)]) := by
  have hfitp : (wire_request "PLAY".toList (target_uri rtsp media0) (target_cseq rtsp media0)
      media0.session (play_range env none ++ play_speed env none) env.USER_AGENT).length
      < env.req_size := by
    rw [play_range_none, play_speed_none]
    have := wire_request_play_shorter (target_uri rtsp media0) media0.session env.USER_AGENT
      (target_cseq rtsp media0)
    simp only [List.append_nil]
    omega
  have hfitmp : (play_text env ([] ++ []) m).length < env.req_size := by
    have := wire_request_play_shorter m.uri m.session env.USER_AGENT m.cseq
    simp only [play_text, pause_text, List.append_nil] at hfitm ⊢
    omega
  have e1 := play_entry_returns env rtsp none none trace media0 h0 hs0 huri hfitp
  have e2 := pause_entry_returns env rtsp trace media0 hstate h0 hs0 huri hfit0
  have e3 : (rtsp_client_media_play env
      { rtsp with aggregate := false, state := .RTSP_PLAY, range := [], speed := [] }
      trace).returns _ :=
    ⟨_, _, media_play_step env
      { rtsp with aggregate := false, state := .RTSP_PLAY, range := [], speed := [] }
      trace m rfl rfl hm hs hfitmp⟩
  have e4 : (rtsp_client_media_pause env { rtsp with aggregate := false, state := .RTSP_PAUSE }
      trace).returns _ :=
    ⟨_, _, media_pause_step env { rtsp with aggregate := false, state := .RTSP_PAUSE }
      trace m rfl rfl hm hs hfitm⟩
  have e5 := play_entry_returns env rtsp (some t) speed trace media0 h0 hs0 huri
    (by rw [play_range_some env t hrange]; exact hfitr)
  rw [play_range_none, play_speed_none] at e1
  rw [play_range_some env t hrange] at e5
  refine ⟨?_, ?_, ?_, ?_, ?_⟩
  · simpa [wire_request] using e1
  · simpa [wire_request] using e2
  · simpa [wire_request, play_send, play_text, sent] using e3
  · simpa [wire_request, pause_send, pause_text, sent] using e4
  · simpa [wire_request, range_line] using e5

theorem C8_request_wire_shape_witness :
    (rtsp_client_play (demo_env false) (demo_session false) none none []).returns
      ([] ++ [sent "rtsp://h/t0".toList
        "PLAY rtsp://h/t0 RTSP/1.0\r\nCSeq: 3\r\nSession: S0\r\nUser-Agent: agent\r\n\r\n".toList])
    ∧ (rtsp_client_pause (demo_env false) (demo_session false) []).returns
      ([] ++ [sent "rtsp://h/t0".toList
        "PAUSE rtsp://h/t0 RTSP/1.0\r\nCSeq: 3\r\nSession: S0\r\nUser-Agent: agent\r\n\r\n".toList])
    ∧ (rtsp_client_media_play (demo_env false)
        { demo_session false with aggregate := false, state := .RTSP_PLAY, range := [], speed := [] }
        []).returns
      ([] ++ [sent "rtsp://h/t0".toList
        "PLAY rtsp://h/t0 RTSP/1.0\r\nCSeq: 3\r\nSession: S0\r\nUser-Agent: agent\r\n\r\n".toList])
    ∧ (rtsp_client_media_pause (demo_env false)
        { demo_session false with aggregate := false, state := .RTSP_PAUSE } []).returns
      ([] ++ [sent "rtsp://h/t0".toList
        "PAUSE rtsp://h/t0 RTSP/1.0\r\nCSeq: 3\r\nSession: S0\r\nUser-Agent: agent\r\n\r\n".toList])
    ∧ (rtsp_client_play (demo_env false) (demo_session false) (some 10500) none []).returns
      ([] ++ [sent "rtsp://h/t0".toList
        ("PLAY rtsp://h/t0 RTSP/1.0\r\nCSeq: 3\r\nSession: S0\r\n"
          ++ "Range: npt=10.500-\r\nUser-Agent: agent\r\n\r\n").toList]) :=
  C8_request_wire_shape (demo_env false) (demo_session false) []
    { uri := "rtsp://h/t0".toList, cseq := 3, session := "S0".toList }
    { uri := "rtsp://h/t0".toList, cseq := 3, session := "S0".toList } 10500 none
    (Or.inl rfl) rfl rfl (by decide) (by decide) (by decide) (by decide) (by decide) (by decide)
    (by decide)

theorem rtp_info_loop_none (env : Env) (fuel i : Nat) (rtpInfo : List rtsp_rtp_info_t) :
    rtp_info_loop env fuel none i rtpInfo = (rtpInfo, i) := by
  cases fuel <;> rfl

theorem after_commas_strchr (v : CStr) :
    after_commas v =
      match strchr v ',' with
      | none => []
      | some p => p.tail :: after_commas p.tail := by
  induction v with
  | nil => rfl
  | cons c cs ih =>
    by_cases h : c = ','
    · simp [after_commas, strchr, h]
    · simp [after_commas, strchr, h, ih]

/-- What the `RTP-Info` loop computes: one slot per entry presented to the decoder, up to
the capacity, filled or left zeroed; the final index counts every entry presented. -/
theorem rtp_info_loop_entries (env : Env) :
    ∀ (fuel : Nat) (v : CStr) (i : Nat) (pre : List rtsp_rtp_info_t), pre.length = i →
      rtp_info_loop env fuel (some v) i (pre ++ List.replicate fuel zero_slot) =
        (pre ++ ((rtp_entries v).take fuel).map (rtp_slot env)
            ++ List.replicate (fuel - (rtp_entries v).length) zero_slot,
          i + min fuel (rtp_entries v).length) := by
  intro fuel
  induction fuel with
  | zero => intro v i pre _; simp [rtp_info_loop]
  | succ n ih =>
    intro v i pre hi
    have hslot : (match env.rtsp_header_rtp_info v with
        | some info => (pre ++ List.replicate (n + 1) zero_slot).set i
            { uri := some info.url, seq := info.seq % UINT_MOD, time := info.rtptime % UINT_MOD }
        | none => pre ++ List.replicate (n + 1) zero_slot)
        = (pre ++ [rtp_slot env v]) ++ List.replicate n zero_slot := by
      subst hi
      cases hd : env.rtsp_header_rtp_info v with
      | none => simp [rtp_slot, hd, List.replicate_succ]
      | some info =>
        simp only [rtp_slot, hd, List.replicate_succ]
        rw [set_middle]
        simp
    rw [rtp_info_loop]
    simp only [hslot]
    have hac := after_commas_strchr v
    cases hs : strchr v ',' with
    | none =>
      rw [hs] at hac
      simp [rtp_info_loop_none, rtp_entries, hac]
    | some p =>
      rw [hs] at hac
      simp only at hac ⊢
      rw [ih p.tail (i + 1) (pre ++ [rtp_slot env v]) (by simp [hi])]
      simp only [rtp_entries, hac]
      have hmin : i + 1 + min n (p.tail :: after_commas p.tail).length
          = i + min (n + 1) (v :: p.tail :: after_commas p.tail).length := by
        simp only [List.length_cons]
        omega
      rw [hmin]
      simp

theorem after_commas_length (v : CStr) : (after_commas v).length = v.count ',' := by
  induction v with
  | nil => rfl
  | cons c cs ih =>
    by_cases h : c = ','
    · simp [after_commas, h, ih]
    · have h2 : ¬ (c == ',') = true := by simpa using h
      simp [after_commas, h, ih, List.count_cons, h2]

/-- The array and the count that `onplay` receives for a reply with an `RTP-Info` header. -/
theorem onplay_event_rtp_info (env : Env) (k : Nat) (parser : rtsp_reply_t) (v : CStr)
    (hv : parser.rtsp_get_header_by_name "RTP-Info".toList = some v) :
    (onplay_event env k parser).onplay_slots =
        some (((rtp_entries v).take env.N_MEDIA).map (rtp_slot env)
          ++ List.replicate (env.N_MEDIA - (rtp_entries v).length) zero_slot)
      ∧ (onplay_event env k parser).onplay_count = some (min env.N_MEDIA (rtp_entries v).length) := by
  have h := rtp_info_loop_entries env env.N_MEDIA v 0 [] rfl
  simp only [List.nil_append, Nat.zero_add] at h
  unfold onplay_event
  simp only [hv, h, Event.onplay_slots, Event.onplay_count, and_self]

/-- Without an `RTP-Info` header `onplay` receives the count 0. -/
theorem onplay_event_no_rtp_info (env : Env) (k : Nat) (parser : rtsp_reply_t)
    (hv : parser.rtsp_get_header_by_name "RTP-Info".toList = none) :
    (onplay_event env k parser).onplay_count = some 0 := by
  unfold onplay_event
  simp only [hv, rtp_info_loop_none, Event.onplay_count]

/-- The dispatch of a track only adds to the trace. -/
theorem media_play_events (env : Env) (rtsp : rtsp_client_t) (trace : List Event) :
    ∃ l, (rtsp_client_media_play env rtsp trace).events = trace ++ l := by
  unfold rtsp_client_media_play
  split
  · exact ⟨[], by simp [Outcome.events]⟩
  · split
    · exact ⟨[], by simp [Outcome.events]⟩
    · split
      · exact ⟨[], by simp [Outcome.events]⟩
      · split
        · exact ⟨[], by simp [Outcome.events]⟩
        · split
          · exact ⟨[], by simp [Outcome.events]⟩
          · simp only
            split
            · exact ⟨[], by simp [Outcome.events]⟩
            · exact ⟨_, rfl⟩

/-- The first thing a 200 reply on the per-track PLAY path adds to the trace is the
`onplay` call for the track under the cursor. -/
theorem media_play_onreply_first_event (env : Env) (rtsp : rtsp_client_t)
    (parser : rtsp_reply_t) (trace : List Event) (hcode : parser.rtsp_get_status_code = 200)
    (hrange : range_asserted env parser = true) :
    (rtsp_client_media_play_onreply env rtsp parser trace).events[trace.length]?
      = some (onplay_event env rtsp.progress parser) := by
  rw [media_play_onreply_200 env rtsp parser trace hcode hrange]
  split
  · obtain ⟨l, hl⟩ := media_play_events env { rtsp with progress := rtsp.progress + 1 }
      (trace ++ [onplay_event env rtsp.progress parser])
    rw [hl, List.append_assoc, List.singleton_append]
    exact get_middle _ _ _
  · exact get_middle _ _ []

/-- C9 (as stated, refuted): the two-track session awaits the reply of its last track; the
reply's `RTP-Info` value has two entries, the first malformed, the second decodable.
`onplay` receives the count 2 and an array whose first slot is the zeroed slot of the
malformed entry, although only one entry decoded. -/
theorem C9_malformed_entry_counted :
    (rtsp_client_play_onreply (demo_env false) demo_last_track
        (reply_rtp_info "x,url=t".toList) []).events
      = [Event.onplay 1 none none none
          [zero_slot, { uri := some "track1".toList, seq := 1, time := 100 }] 2]
    ∧ ((rtp_entries "x,url=t".toList).filterMap (demo_env false).rtsp_header_rtp_info).length = 1 := by
  decide

/-- C10 (as stated, refuted): a session of one track receives a 200 reply whose `RTP-Info`
value has two entries; `onplay` receives the count 2, more than the track count 1. -/
theorem C10_count_exceeds_track_count :
    (rtsp_client_play_onreply (demo_env false) demo_single
        (reply_rtp_info "url=a,url=b".toList) []).events.filterMap Event.onplay_count = [2]
    ∧ media_count demo_single = 1 := by
  decide

/-- C10 (amended): for every 200 reply the count `onplay` receives is at most the array
capacity `N_MEDIA`, whatever the track count: it is 0 without an `RTP-Info` header, and
otherwise the number of comma-separated entries (commas plus one) or `N_MEDIA`, whichever
is smaller. -/
theorem C10_count_bounded_by_capacity (env : Env) (rtsp : rtsp_client_t)
    (parser : rtsp_reply_t) (trace : List Event) (hcode : parser.rtsp_get_status_code = 200)
    (hrange : range_asserted env parser = true) :
    ∃ ev, (rtsp_client_media_play_onreply env rtsp parser trace).events[trace.length]? = some ev
      ∧ ev.onplay_count = some (match parser.rtsp_get_header_by_name "RTP-Info".toList with
          | none => 0
          | some v => min env.N_MEDIA (v.count ',' + 1))
      ∧ (match parser.rtsp_get_header_by_name "RTP-Info".toList with
          | none => 0
          | some v => min env.N_MEDIA (v.count ',' + 1)) ≤ env.N_MEDIA := by
  refine ⟨onplay_event env rtsp.progress parser,
    media_play_onreply_first_event env rtsp parser trace hcode hrange, ?_⟩
  cases hv : parser.rtsp_get_header_by_name "RTP-Info".toList with
  | none =>
    exact ⟨onplay_event_no_rtp_info env rtsp.progress parser hv, Nat.zero_le _⟩
  | some v =>
    have hlen : (rtp_entries v).length = v.count ',' + 1 := by
      simp [rtp_entries, after_commas_length]
    have h := (onplay_event_rtp_info env rtsp.progress parser v hv).2
    rw [hlen] at h
    exact ⟨h, Nat.min_le_left _ _⟩

theorem C10_count_bounded_by_capacity_witness :
    ∃ ev, (rtsp_client_media_play_onreply (demo_env false) demo_single
        (reply_rtp_info "url=a,url=b".toList) []).events[([] : List Event).length]? = some ev
      ∧ ev.onplay_count = some (match (reply_rtp_info "url=a,url=b".toList).rtsp_get_header_by_name
            "RTP-Info".toList with
          | none => 0
          | some v => min (demo_env false).N_MEDIA (v.count ',' + 1))
      ∧ (match (reply_rtp_info "url=a,url=b".toList).rtsp_get_header_by_name
            "RTP-Info".toList with
          | none => 0
          | some v => min (demo_env false).N_MEDIA (v.count ',' + 1)) ≤ (demo_env false).N_MEDIA :=
  C10_count_bounded_by_capacity (demo_env false) demo_single
    (reply_rtp_info "url=a,url=b".toList) [] rfl (by decide)

/-- The start and end position that `onplay` receives, from the decoded `Range` header. -/
theorem onplay_event_npt (env : Env) (k : Nat) (parser : rtsp_reply_t) :
    (onplay_event env k parser).onplay_npt0 = some
        (match decoded_range env parser with
          | none => none
          | some range => if UINT64_MAX = range.from then none else some range.from)
    ∧ (onplay_event env k parser).onplay_npt1 = some
        (match decoded_range env parser with
          | none => none
          | some range =>
            if range.to_value = .RTSP_RANGE_TIME_NOVALUE then none
            else if UINT64_MAX = range.«to» then none else some range.«to») := by
  unfold onplay_event decoded_range
  cases hr : parser.rtsp_get_header_by_name "Range".toList with
  | none => simp [Event.onplay_npt0, Event.onplay_npt1]
  | some v =>
    cases hd : env.rtsp_header_range v with
    | none => simp [Event.onplay_npt0, Event.onplay_npt1, hd]
    | some range =>
      by_cases h : range.to_value = .RTSP_RANGE_TIME_NOVALUE <;>
        simp [Event.onplay_npt0, Event.onplay_npt1, hd, h]

/-- The scale that `onplay` receives: present exactly when the header is. -/
theorem onplay_event_scale (env : Env) (k : Nat) (parser : rtsp_reply_t) :
    (onplay_event env k parser).onplay_scale = some
      ((parser.rtsp_get_header_by_name "Scale".toList).map c_double.mk) := by
  unfold onplay_event
  cases hs : parser.rtsp_get_header_by_name "Scale".toList <;> simp [Event.onplay_scale]

/-- A 200 reply given to `rtsp_client_play_onreply` on a session that meets its entry
assertions reaches `rtsp_client_media_play_onreply`, on the aggregate path as well. -/
theorem play_onreply_200_eq (env : Env) (rtsp : rtsp_client_t) (parser : rtsp_reply_t)
    (trace : List Event) (hst : rtsp.state = .RTSP_PLAY)
    (hlt : rtsp.progress < rtsp.media.length)
    (hagg : rtsp.aggregate = true → rtsp.progress = 0)
    (hcode : parser.rtsp_get_status_code = 200) :
    rtsp_client_play_onreply env rtsp parser trace =
      rtsp_client_media_play_onreply env rtsp parser trace := by
  cases ha : rtsp.aggregate with
  | false => exact play_onreply_non_aggregate env rtsp parser trace hst ha hlt
  | true =>
    have hne : rtsp.media ≠ [] := by
      intro h
      rw [h] at hlt
      simp at hlt
    simp [rtsp_client_play_onreply, rtsp_client_aggregate_play_onreply, assert, hst, ha,
      media_count, hcode, hagg ha, hne]

theorem decoded_range_some (env : Env) (parser : rtsp_reply_t) (range : rtsp_header_range_t)
    (hdec : decoded_range env parser = some range) :
    ∃ v, parser.rtsp_get_header_by_name "Range".toList = some v
      ∧ env.rtsp_header_range v = some range := by
  rw [decoded_range] at hdec
  cases hr : parser.rtsp_get_header_by_name "Range".toList with
  | none => rw [hr] at hdec; cases hdec
  | some v => rw [hr] at hdec; exact ⟨v, rfl, hdec⟩

theorem range_asserted_eq (env : Env) (parser : rtsp_reply_t) (range : rtsp_header_range_t)
    (hdec : decoded_range env parser = some range) :
    range_asserted env parser =
      (assert env (range.from_value == .RTSP_RANGE_TIME_NORMAL)
        && assert env (range.to_value != .RTSP_RANGE_TIME_NOW)) := by
  obtain ⟨v, hr, hd⟩ := decoded_range_some env parser range hdec
  rw [range_asserted, hr]
  simp only [hd]

/-- A 200 reply whose decoded `Range` header fails an assertion stops the handler before
anything is called or changed. -/
theorem media_play_onreply_abort (env : Env) (rtsp : rtsp_client_t) (parser : rtsp_reply_t)
    (trace : List Event) (range : rtsp_header_range_t)
    (hcode : parser.rtsp_get_status_code = 200)
    (hdec : decoded_range env parser = some range)
    (hfalse : (assert env (range.from_value == .RTSP_RANGE_TIME_NORMAL)
        && assert env (range.to_value != .RTSP_RANGE_TIME_NOW)) = false) :
    rtsp_client_media_play_onreply env rtsp parser trace = .abort rtsp trace := by
  obtain ⟨v, hr, hd⟩ := decoded_range_some env parser range hdec
  rw [rtsp_client_media_play_onreply, hr]
  simp only [hcode, hd, hfalse]
  simp

/-- C11 (as stated, refuted): the `Range` header of a 200 reply decodes to a normal
interval with lower bound 2^64 - 1 and upper bound 15; `onplay` receives no start position
(and the end position 15). -/
theorem C11_lower_bound_sentinel :
    (rtsp_client_play_onreply
        (demo_env_range false
          { from_value := .RTSP_RANGE_TIME_NORMAL, to_value := .RTSP_RANGE_TIME_NORMAL,
            «from» := 18446744073709551615, «to» := 15 })
        demo_last_track (reply_header "Range".toList "npt=x-15".toList) []).events
      = [Event.onplay 1 none (some 15) none [zero_slot, zero_slot] 0] := by
  decide

/-- C11 (amended): for every 200 PLAY reply that passes the handler's assertions, `onplay`
is the first call made and receives: no start and no end position when the `Range` header
is missing or does not decode; otherwise the decoded lower bound `a` as start position,
unless `a` is 2^64 - 1 (then none), and as end position none for an open-ended interval,
else the decoded upper bound `b`, unless `b` is 2^64 - 1 (then none). -/
theorem C11_range_to_onplay (env : Env) (rtsp : rtsp_client_t) (parser : rtsp_reply_t)
    (trace : List Event) (hcode : parser.rtsp_get_status_code = 200)
    (hrange : range_asserted env parser = true) :
    ∃ ev, (rtsp_client_media_play_onreply env rtsp parser trace).events[trace.length]? = some ev
      ∧ ev.onplay_npt0 = some
          (match decoded_range env parser with
            | none => none
            | some range => if UINT64_MAX = range.from then none else some range.from)
      ∧ ev.onplay_npt1 = some
          (match decoded_range env parser with
            | none => none
            | some range =>
              if range.to_value = .RTSP_RANGE_TIME_NOVALUE then none
              else if UINT64_MAX = range.«to» then none else some range.«to») :=
  ⟨onplay_event env rtsp.progress parser,
    media_play_onreply_first_event env rtsp parser trace hcode hrange,
    (onplay_event_npt env rtsp.progress parser).1, (onplay_event_npt env rtsp.progress parser).2⟩

theorem C11_range_to_onplay_witness :
    ∃ ev, (rtsp_client_media_play_onreply (demo_env false) demo_last_track
        (reply_header "Range".toList "npt=10-15".toList) []).events[([] : List Event).length]? = some ev
      ∧ ev.onplay_npt0 = some
          (match decoded_range (demo_env false) (reply_header "Range".toList "npt=10-15".toList) with
            | none => none
            | some range => if UINT64_MAX = range.from then none else some range.from)
      ∧ ev.onplay_npt1 = some
          (match decoded_range (demo_env false) (reply_header "Range".toList "npt=10-15".toList) with
            | none => none
            | some range =>
              if range.to_value = .RTSP_RANGE_TIME_NOVALUE then none
              else if UINT64_MAX = range.«to» then none else some range.«to») :=
  C11_range_to_onplay (demo_env false) demo_last_track
    (reply_header "Range".toList "npt=10-15".toList) [] rfl (by decide)

/-- C16 (as stated, refuted): the `Range` header of a 200 reply decodes with a "now" upper
bound. With assertions enabled the handler does not return at all, so it reports no error;
with `NDEBUG` it returns 0 after invoking `onplay` and advancing `progress`. -/
theorem C16_now_upper_bound :
    (rtsp_client_play_onreply
        (demo_env_range false
          { from_value := .RTSP_RANGE_TIME_NORMAL, to_value := .RTSP_RANGE_TIME_NOW,
            «from» := 10, «to» := 0 })
        demo_last_track (reply_header "Range".toList "npt=10-now".toList) []).result = none
    ∧ (rtsp_client_play_onreply
        (demo_env_range true
          { from_value := .RTSP_RANGE_TIME_NORMAL, to_value := .RTSP_RANGE_TIME_NOW,
            «from» := 10, «to» := 0 })
        demo_last_track (reply_header "Range".toList "npt=10-now".toList) [])
      = .ret 0 (advance demo_last_track)
          [Event.onplay 1 (some 10) (some 0) none [zero_slot, zero_slot] 0] := by
  decide

/-- C16 (amended): a 200 PLAY reply whose `Range` header decodes with a lower bound that
is not a normal time, or with a "now" upper bound, violates an assertion of the handler.
With assertions enabled the handler stops there: it does not return, `onplay` is not
invoked, `progress` is not advanced and nothing is sent. With `NDEBUG` the reply is
processed like every other 200 reply. In neither build is an error reported on account of
the `Range` value. -/
theorem C16_now_range_asserted (env : Env) (rtsp : rtsp_client_t) (parser : rtsp_reply_t)
    (trace : List Event) (range : rtsp_header_range_t)
    (hst : rtsp.state = .RTSP_PLAY) (hlt : rtsp.progress < rtsp.media.length)
    (hagg : rtsp.aggregate = true → rtsp.progress = 0)
    (hcode : parser.rtsp_get_status_code = 200)
    (hdec : decoded_range env parser = some range)
    (hbad : range.from_value ≠ .RTSP_RANGE_TIME_NORMAL ∨ range.to_value = .RTSP_RANGE_TIME_NOW) :
    rtsp_client_play_onreply env rtsp parser trace =
      if env.NDEBUG = true then
        (if rtsp.media.length > rtsp.progress + 1 then
          rtsp_client_media_play env { rtsp with progress := rtsp.progress + 1 }
            (trace ++ [onplay_event env rtsp.progress parser])
        else
          .ret 0 { rtsp with progress := rtsp.progress + 1 }
            (trace ++ [onplay_event env rtsp.progress parser]))
      else
        .abort rtsp trace := by
  rw [play_onreply_200_eq env rtsp parser trace hst hlt hagg hcode]
  have hra := range_asserted_eq env parser range hdec
  cases hN : env.NDEBUG with
  | true =>
    have : range_asserted env parser = true := by rw [hra]; simp [assert, hN]
    simp only [if_true]
    exact media_play_onreply_200 env rtsp parser trace hcode this
  | false =>
    simp only [Bool.false_eq_true, if_false]
    apply media_play_onreply_abort env rtsp parser trace range hcode hdec
    rcases hbad with h | h <;> simp [assert, hN, h]

theorem C16_now_range_asserted_witness :
    rtsp_client_play_onreply
        (demo_env_range false
          { from_value := .RTSP_RANGE_TIME_NORMAL, to_value := .RTSP_RANGE_TIME_NOW,
            «from» := 10, «to» := 0 })
        demo_last_track (reply_header "Range".toList "npt=10-now".toList) [] =
      if (demo_env_range false
          { from_value := .RTSP_RANGE_TIME_NORMAL, to_value := .RTSP_RANGE_TIME_NOW,
            «from» := 10, «to» := 0 }).NDEBUG = true then
        (if demo_last_track.media.length > demo_last_track.progress + 1 then
          rtsp_client_media_play
            (demo_env_range false
              { from_value := .RTSP_RANGE_TIME_NORMAL, to_value := .RTSP_RANGE_TIME_NOW,
                «from» := 10, «to» := 0 })
            { demo_last_track with progress := demo_last_track.progress + 1 }
            ([] ++ [onplay_event
              (demo_env_range false
                { from_value := .RTSP_RANGE_TIME_NORMAL, to_value := .RTSP_RANGE_TIME_NOW,
                  «from» := 10, «to» := 0 })
              demo_last_track.progress (reply_header "Range".toList "npt=10-now".toList)])
        else
          .ret 0 { demo_last_track with progress := demo_last_track.progress + 1 }
            ([] ++ [onplay_event
              (demo_env_range false
                { from_value := .RTSP_RANGE_TIME_NORMAL, to_value := .RTSP_RANGE_TIME_NOW,
                  «from» := 10, «to» := 0 })
              demo_last_track.progress (reply_header "Range".toList "npt=10-now".toList)]))
      else
        .abort demo_last_track [] :=
  C16_now_range_asserted _ demo_last_track (reply_header "Range".toList "npt=10-now".toList) []
    { from_value := .RTSP_RANGE_TIME_NORMAL, to_value := .RTSP_RANGE_TIME_NOW,
      «from» := 10, «to» := 0 }
    rfl (by decide) (by decide) rfl rfl (Or.inr rfl)

/-- C17 (as stated, refuted): a 200 reply carries the header `Scale: abc`, which is not a
number; `onplay` still receives a scale, the value `atof` returns for that text. -/
theorem C17_unparsed_scale_present :
    (rtsp_client_play_onreply (demo_env false) demo_last_track
        (reply_header "Scale".toList "abc".toList) []).events
      = [Event.onplay 1 none none (some ⟨"abc".toList⟩) [zero_slot, zero_slot] 0] := by
  decide

/-- The exact outcome of `rtsp_client_pause` on a session that meets the assertions. -/
theorem pause_entry_exact (env : Env) (rtsp : rtsp_client_t) (trace : List Event)
    (media0 : rtsp_media_t)
    (hstate : rtsp.state = .RTSP_SETUP ∨ rtsp.state = .RTSP_PLAY ∨ rtsp.state = .RTSP_PAUSE)
    (h0 : rtsp.media[0]? = some media0)
    (hs0 : rtsp.aggregate = false → media0.session ≠ [])
    (huri : rtsp.aggregate = true → rtsp.aggregate_uri ≠ [])
    (hfit : (wire_request "PAUSE".toList (target_uri rtsp media0) (target_cseq rtsp media0)
      media0.session [] env.USER_AGENT).length < env.req_size) :
    rtsp_client_pause env rtsp trace =
      .ret (send_result env trace (target_uri rtsp media0)
          (wire_request "PAUSE".toList (target_uri rtsp media0) (target_cseq rtsp media0)
            media0.session [] env.USER_AGENT))
        (entry_session { rtsp with state := .RTSP_PAUSE, progress := 0 } media0
          (wire_request "PAUSE".toList (target_uri rtsp media0) (target_cseq rtsp media0)
            media0.session [] env.USER_AGENT))
        (trace ++ [sent (target_uri rtsp media0)
          (wire_request "PAUSE".toList (target_uri rtsp media0) (target_cseq rtsp media0)
            media0.session [] env.USER_AGENT)]) := by
  cases hagg : rtsp.aggregate with
  | true =>
    simp only [target_uri, target_cseq, hagg, if_true] at hfit ⊢
    rw [pause_aggregate_step env rtsp trace media0 hagg hstate h0 (huri hagg) hfit]
    simp [send_result, entry_session, sent, pause_text_aggregate, hagg]
  | false =>
    simp only [target_uri, target_cseq, hagg] at hfit ⊢
    rw [pause_non_aggregate env rtsp trace hagg hstate,
      media_pause_step env { rtsp with state := .RTSP_PAUSE, progress := 0 } trace
        media0 hagg rfl h0 (hs0 hagg) hfit]
    simp [send_result, entry_session, sent, pause_text, pause_send, hagg]

/-- The exact outcome of `rtsp_client_play` on a session that meets the assertions. -/
theorem play_entry_exact (env : Env) (rtsp : rtsp_client_t) (npt : Option Nat)
    (speed : Option c_float) (trace : List Event) (media0 : rtsp_media_t)
    (h0 : rtsp.media[0]? = some media0)
    (hs0 : rtsp.aggregate = false → media0.session ≠ [])
    (huri : rtsp.aggregate = true → rtsp.aggregate_uri ≠ [])
    (hfit : (wire_request "PLAY".toList (target_uri rtsp media0) (target_cseq rtsp media0)
      media0.session (play_range env npt ++ play_speed env speed) env.USER_AGENT).length
      < env.req_size) :
    rtsp_client_play env rtsp npt speed trace =
      .ret (send_result env trace (target_uri rtsp media0)
          (wire_request "PLAY".toList (target_uri rtsp media0) (target_cseq rtsp media0)
            media0.session (play_range env npt ++ play_speed env speed) env.USER_AGENT))
        (entry_session (play_prepared env rtsp npt speed) media0
          (wire_request "PLAY".toList (target_uri rtsp media0) (target_cseq rtsp media0)
            media0.session (play_range env npt ++ play_speed env speed) env.USER_AGENT))
        (trace ++ [sent (target_uri rtsp media0)
          (wire_request "PLAY".toList (target_uri rtsp media0) (target_cseq rtsp media0)
            media0.session (play_range env npt ++ play_speed env speed) env.USER_AGENT)]) := by
  cases hagg : rtsp.aggregate with
  | true =>
    simp only [target_uri, target_cseq, hagg, if_true] at hfit ⊢
    rw [play_aggregate_step env rtsp npt speed trace media0 hagg h0 (huri hagg) hfit]
    simp [send_result, entry_session, sent, play_text_aggregate, play_prepared, hagg]
  | false =>
    simp only [target_uri, target_cseq, hagg] at hfit ⊢
    rw [play_non_aggregate env rtsp npt speed trace hagg,
      media_play_step env (play_prepared env rtsp npt speed) trace media0 hagg rfl h0 (hs0 hagg)
        hfit]
    simp [send_result, entry_session, sent, play_text, play_send, play_prepared, hagg]

/-- The exact outcome of a 200 reply on the per-track PAUSE path when a further track
follows: the cursor advances and the request of that track is dispatched. -/
theorem pause_onreply_next_exact (env : Env) (rtsp : rtsp_client_t) (parser : rtsp_reply_t)
    (trace : List Event) (m : rtsp_media_t)
    (hst : rtsp.state = .RTSP_PAUSE) (hagg : rtsp.aggregate = false)
    (hm : rtsp.media[rtsp.progress + 1]? = some m) (hs : m.session ≠ [])
    (hfit : (pause_text env m).length < env.req_size)
    (hcode : parser.rtsp_get_status_code = 200) :
    rtsp_client_pause_onreply env rtsp parser trace =
      .ret (send_result env trace m.uri (pause_text env m))
        { rtsp with progress := rtsp.progress + 1, req := pause_text env m,
                    media := rtsp.media.set (rtsp.progress + 1) (bump m) }
        (trace ++ [sent m.uri (pause_text env m)]) := by
  have hlt1 : rtsp.progress + 1 < rtsp.media.length := by
    rcases List.getElem?_eq_some.1 hm with ⟨h, -⟩
    exact h
  rw [media_pause_onreply_200 env rtsp parser trace hst hagg (by omega) hcode,
    if_neg (by omega),
    media_pause_step env { rtsp with progress := rtsp.progress + 1 } trace m hagg hst hm hs hfit]
  rfl

/-- The exact outcome of a 200 reply on the per-track PLAY path when a further track
follows: `onplay` is invoked, the cursor advances and the request of that track is
dispatched. -/
theorem play_onreply_next_exact (env : Env) (rtsp : rtsp_client_t) (parser : rtsp_reply_t)
    (trace : List Event) (m : rtsp_media_t)
    (hst : rtsp.state = .RTSP_PLAY) (hagg : rtsp.aggregate = false)
    (hm : rtsp.media[rtsp.progress + 1]? = some m) (hs : m.session ≠ [])
    (hfit : (play_text env (rtsp.range ++ rtsp.speed) m).length < env.req_size)
    (hcode : parser.rtsp_get_status_code = 200)
    (hrange : range_asserted env parser = true) :
    rtsp_client_play_onreply env rtsp parser trace =
      .ret (send_result env (trace ++ [onplay_event env rtsp.progress parser]) m.uri
          (play_text env (rtsp.range ++ rtsp.speed) m))
        { rtsp with progress := rtsp.progress + 1,
                    req := play_text env (rtsp.range ++ rtsp.speed) m,
                    media := rtsp.media.set (rtsp.progress + 1) (bump m) }
        (trace ++ [onplay_event env rtsp.progress parser]
          ++ [sent m.uri (play_text env (rtsp.range ++ rtsp.speed) m)]) := by
  have hlt1 : rtsp.progress + 1 < rtsp.media.length := by
    rcases List.getElem?_eq_some.1 hm with ⟨h, -⟩
    exact h
  rw [play_onreply_non_aggregate env rtsp parser trace hst hagg (by omega),
    media_play_onreply_200 env rtsp parser trace hcode hrange, if_pos (by omega),
    media_play_step env { rtsp with progress := rtsp.progress + 1 }
      (trace ++ [onplay_event env rtsp.progress parser]) m hagg hst hm hs hfit]
  rfl

theorem dispatched_of_ret (env : Env) (rtsp : rtsp_client_t) (trace : List Event)
    (uri text : CStr) :
    (Outcome.ret (send_result env trace uri text) rtsp (trace ++ [sent uri text])).dispatched
      env trace uri text := by
  unfold Outcome.dispatched send_result
  by_cases h : (text.length : Int) = env.send trace uri text (text.length : Int)
  · rw [if_pos h]
    exact ⟨rfl, ⟨fun _ => h.symm, fun _ => rfl⟩, Or.inl rfl⟩
  · rw [if_neg h]
    refine ⟨rfl, ⟨fun h2 => ?_, fun h2 => absurd h2.symm h⟩, Or.inr rfl⟩
    simp [Outcome.result] at h2

theorem get_set_self {α : Type} (l : List α) (i : Nat) (m x : α) (h : l[i]? = some m) :
    (l.set i x)[i]? = some x := by
  rcases List.getElem?_eq_some.1 h with ⟨hlt, -⟩
  simp [List.getElem?_set, hlt]

/-- C12 (as stated, refuted): a non-aggregate session waits in state Pause for the reply
of its first track and the reply has status 460. With assertions enabled the handler stops
at `assert(460 != code)`: it does not return a failure. -/
theorem C12_pause_460_per_track :
    (rtsp_client_pause_onreply (demo_env false) demo_paused (reply_code 460) []).result = none := by
  decide

/-- C12 (amended): let the status of a reply be neither 200 nor, on an aggregate session,
459. On a session `rp` that meets the assertions of the PLAY handler (state Play, cursor
on a track, cursor 0 when aggregate) `rtsp_client_play_onreply` returns -1; on a session
`rq` that meets the assertions of the PAUSE handler (state Pause, cursor on a track)
`rtsp_client_pause_onreply` returns -1, except for status 460 on the per-track path with
assertions enabled, which is asserted not to occur. In both cases no callback is invoked,
nothing is sent and the session is left as it was. -/
theorem C12_rejected_reply (env : Env) (rp rq : rtsp_client_t) (parser : rtsp_reply_t)
    (trace : List Event)
    (h200 : parser.rtsp_get_status_code ≠ 200)
    (hp_state : rp.state = .RTSP_PLAY) (hp_cursor : rp.progress < rp.media.length)
    (hp_first : rp.aggregate = true → rp.progress = 0)
    (hp_459 : rp.aggregate = true → parser.rtsp_get_status_code ≠ 459)
    (hq_state : rq.state = .RTSP_PAUSE) (hq_cursor : rq.progress < rq.media.length)
    (hq_459 : rq.aggregate = true → parser.rtsp_get_status_code ≠ 459)
    (hq_460 : env.NDEBUG = true ∨ rq.aggregate = true ∨ parser.rtsp_get_status_code ≠ 460) :
    rtsp_client_play_onreply env rp parser trace = .ret (-1) rp trace
    ∧ rtsp_client_pause_onreply env rq parser trace = .ret (-1) rq trace := by
  have h200' : ¬ (200 = parser.rtsp_get_status_code) := fun h => h200 h.symm
  constructor
  · cases ha : rp.aggregate with
    | false =>
      rw [play_onreply_non_aggregate env rp parser trace hp_state ha hp_cursor]
      simp [rtsp_client_media_play_onreply, h200']
    | true =>
      have h459 : ¬ (459 = parser.rtsp_get_status_code) := fun h => hp_459 ha h.symm
      have hne : rp.media ≠ [] := by
        intro h
        rw [h] at hp_cursor
        simp at hp_cursor
      simp [rtsp_client_play_onreply, rtsp_client_aggregate_play_onreply, assert, hp_state, ha,
        media_count, hp_first ha, hne, h459, h200']
  · cases ha : rq.aggregate with
    | false =>
      have h460 : env.NDEBUG = true ∨ ¬ (460 = parser.rtsp_get_status_code) := by
        rcases hq_460 with h | h | h
        · exact Or.inl h
        · rw [ha] at h; cases h
        · exact Or.inr (fun h2 => h h2.symm)
      rcases h460 with h | h <;>
        simp [rtsp_client_pause_onreply, rtsp_client_media_pause_onreply, assert, hq_state, ha,
          media_count, hq_cursor, h, h200']
    | true =>
      have h459 : ¬ (459 = parser.rtsp_get_status_code) := fun h => hq_459 ha h.symm
      simp [rtsp_client_pause_onreply, rtsp_client_aggregate_pause_onreply, assert, hq_state,
        ha, media_count, hq_cursor, h459, h200']

theorem C12_rejected_reply_witness :
    rtsp_client_play_onreply (demo_env false) demo_playing (reply_code 404) []
        = .ret (-1) demo_playing []
    ∧ rtsp_client_pause_onreply (demo_env false) demo_paused (reply_code 404) []
        = .ret (-1) demo_paused [] :=
  C12_rejected_reply (demo_env false) demo_playing demo_paused (reply_code 404) []
    (by decide) rfl (by decide) (by decide) (by decide) rfl (by decide) (by decide) (by decide)

/-! ## Every path of every call -/

/-- Every path of `rtsp_client_media_pause`: an assertion stops it before `send`, or it
sends the request of the track under the cursor. -/
theorem media_pause_cases (env : Env) (s : rtsp_client_t) (tr : List Event) :
    (∃ s1, rtsp_client_media_pause env s tr = .abort s1 tr)
    ∨ ∃ m, s.media[s.progress]? = some m
        ∧ rtsp_client_media_pause env s tr = sent_track env s tr m (pause_out env m) := by
  unfold rtsp_client_media_pause
  split
  · exact Or.inl ⟨_, rfl⟩
  · split
    · exact Or.inl ⟨_, rfl⟩
    · split
      · exact Or.inl ⟨_, rfl⟩
      · split
        · exact Or.inl ⟨_, rfl⟩
        · rename_i m hm
          split
          · exact Or.inl ⟨_, rfl⟩
          · simp only
            split
            · exact Or.inl ⟨_, rfl⟩
            · exact Or.inr ⟨m, hm, rfl⟩

/-- Every path of `rtsp_client_media_play`: an assertion stops it before `send`, or it
sends the request of the track under the cursor. -/
theorem media_play_cases (env : Env) (s : rtsp_client_t) (tr : List Event) :
    (∃ s1, rtsp_client_media_play env s tr = .abort s1 tr)
    ∨ ∃ m, s.media[s.progress]? = some m
        ∧ rtsp_client_media_play env s tr = sent_track env s tr m (play_out env s m) := by
  unfold rtsp_client_media_play
  split
  · exact Or.inl ⟨_, rfl⟩
  · split
    · exact Or.inl ⟨_, rfl⟩
    · split
      · exact Or.inl ⟨_, rfl⟩
      · split
        · exact Or.inl ⟨_, rfl⟩
        · rename_i m hm
          split
          · exact Or.inl ⟨_, rfl⟩
          · simp only
            split
            · exact Or.inl ⟨_, rfl⟩
            · exact Or.inr ⟨m, hm, rfl⟩

theorem rtsp_client_pause_unfold (env : Env) (s : rtsp_client_t) (tr : List Event) :
    rtsp_client_pause env s tr =
      if (!assert env (s.state == .RTSP_SETUP || s.state == .RTSP_PLAY
          || s.state == .RTSP_PAUSE)) = true then .abort s tr
      else if s.aggregate = true then pause_aggregate_branch env (pause_prepared s) tr
      else rtsp_client_media_pause env (pause_prepared s) tr := by
  rfl

/-- Every path of `rtsp_client_pause`. -/
theorem pause_cases (env : Env) (s : rtsp_client_t) (tr : List Event) :
    (∃ s1, rtsp_client_pause env s tr = .abort s1 tr)
    ∨ (s.aggregate = true ∧ ∃ m0, s.media[0]? = some m0
        ∧ rtsp_client_pause env s tr =
            sent_aggregate env (pause_prepared s) tr
              (pause_out_aggregate env (pause_prepared s) m0))
    ∨ (s.aggregate = false ∧ ∃ m, s.media[0]? = some m
        ∧ rtsp_client_pause env s tr =
            sent_track env (pause_prepared s) tr m (pause_out env m)) := by
  rw [rtsp_client_pause_unfold]
  split
  · exact Or.inl ⟨_, rfl⟩
  · cases hagg : s.aggregate with
    | false =>
      simp only [Bool.false_eq_true, if_false]
      rcases media_pause_cases env (pause_prepared s) tr with ⟨s1, h1⟩ | ⟨m, hm, h1⟩
      · exact Or.inl ⟨s1, h1⟩
      · exact Or.inr (Or.inr ⟨(by first | rfl | trivial), m, hm, h1⟩)
    | true =>
      simp only [if_true]
      unfold pause_aggregate_branch
      split
      · exact Or.inl ⟨_, rfl⟩
      · split
        · exact Or.inl ⟨_, rfl⟩
        · split
          · exact Or.inl ⟨_, rfl⟩
          · rename_i m0 hm0
            simp only
            split
            · exact Or.inl ⟨_, rfl⟩
            · exact Or.inr (Or.inl ⟨(by first | rfl | trivial), m0, hm0, rfl⟩)

/-- Every path of `rtsp_client_play`. -/
theorem play_cases (env : Env) (s : rtsp_client_t) (npt : Option Nat) (speed : Option c_float)
    (tr : List Event) :
    (∃ s1, rtsp_client_play env s npt speed tr = .abort s1 tr)
    ∨ (s.aggregate = true ∧ ∃ m0, s.media[0]? = some m0
        ∧ rtsp_client_play env s npt speed tr =
            sent_aggregate env (play_prepared env s npt speed) tr
              (play_out_aggregate env (play_prepared env s npt speed) m0))
    ∨ (s.aggregate = false ∧ ∃ m, s.media[0]? = some m
        ∧ rtsp_client_play env s npt speed tr =
            sent_track env (play_prepared env s npt speed) tr m
              (play_out env (play_prepared env s npt speed) m)) := by
  rw [rtsp_client_play_unfold]
  cases hagg : s.aggregate with
  | false =>
    simp only [Bool.false_eq_true, if_false]
    rcases media_play_cases env (play_prepared env s npt speed) tr with ⟨s1, h1⟩ | ⟨m, hm, h1⟩
    · exact Or.inl ⟨s1, h1⟩
    · exact Or.inr (Or.inr ⟨(by first | rfl | trivial), m, hm, h1⟩)
  | true =>
    simp only [if_true]
    unfold play_aggregate_branch
    split
    · exact Or.inl ⟨_, rfl⟩
    · split
      · exact Or.inl ⟨_, rfl⟩
      · split
        · exact Or.inl ⟨_, rfl⟩
        · rename_i m0 hm0
          simp only
          split
          · exact Or.inl ⟨_, rfl⟩
          · exact Or.inr (Or.inl ⟨(by first | rfl | trivial), m0, hm0, rfl⟩)

/-- Every path of `rtsp_client_pause_onreply`. -/
theorem pause_onreply_cases (env : Env) (s : rtsp_client_t) (p : rtsp_reply_t)
    (tr : List Event) :
    (∃ s1, rtsp_client_pause_onreply env s p tr = .abort s1 tr)
    ∨ (p.rtsp_get_status_code ≠ 200 ∧ rtsp_client_pause_onreply env s p tr = .ret (-1) s tr)
    ∨ (p.rtsp_get_status_code = 200 ∧ s.aggregate = true
        ∧ rtsp_client_pause_onreply env s p tr = .ret 0 s (tr ++ [Event.onpause]))
    ∨ (p.rtsp_get_status_code = 200 ∧ s.aggregate = false ∧ s.media.length = s.progress + 1
        ∧ rtsp_client_pause_onreply env s p tr = .ret 0 (advance s) (tr ++ [Event.onpause]))
    ∨ (p.rtsp_get_status_code = 459 ∧ s.aggregate = true ∧ ∃ m, s.media[s.progress]? = some m
        ∧ rtsp_client_pause_onreply env s p tr = sent_track env s tr m (pause_out env m))
    ∨ (p.rtsp_get_status_code = 200 ∧ s.aggregate = false
        ∧ ∃ m, s.media[s.progress + 1]? = some m
        ∧ rtsp_client_pause_onreply env s p tr =
            sent_track env (advance s) tr m (pause_out env m)) := by
  unfold rtsp_client_pause_onreply
  split
  · exact Or.inl ⟨_, rfl⟩
  · split
    · exact Or.inl ⟨_, rfl⟩
    · cases hagg : s.aggregate with
      | true =>
        simp only [if_true]
        unfold rtsp_client_aggregate_pause_onreply
        split
        · exact Or.inl ⟨_, rfl⟩
        · simp only
          split
          · rename_i h459
            rcases media_pause_cases env s tr with ⟨s1, h1⟩ | ⟨m, hm, h1⟩
            · exact Or.inl ⟨s1, h1⟩
            · exact Or.inr (Or.inr (Or.inr (Or.inr (Or.inl ⟨h459.symm, (by first | rfl | trivial), m, hm, h1⟩))))
          · split
            · rename_i h200
              exact Or.inr (Or.inr (Or.inl ⟨h200.symm, (by first | rfl | trivial), rfl⟩))
            · rename_i h200
              exact Or.inr (Or.inl ⟨fun h => h200 h.symm, rfl⟩)
      | false =>
        simp only [Bool.false_eq_true, if_false]
        unfold rtsp_client_media_pause_onreply
        split
        · exact Or.inl ⟨_, rfl⟩
        · simp only
          split
          · exact Or.inl ⟨_, rfl⟩
          · split
            · rename_i h200
              split
              · rename_i hlast
                exact Or.inr (Or.inr (Or.inr (Or.inl ⟨h200.symm, (by first | rfl | trivial), hlast, rfl⟩)))
              · rcases media_pause_cases env (advance s) tr with ⟨s1, h1⟩ | ⟨m, hm, h1⟩
                · exact Or.inl ⟨s1, h1⟩
                · exact Or.inr (Or.inr (Or.inr (Or.inr (Or.inr ⟨h200.symm, (by first | rfl | trivial), m, hm, h1⟩))))
            · rename_i h200
              exact Or.inr (Or.inl ⟨fun h => h200 h.symm, rfl⟩)

/-- A 200 reply whose `Range` header fails the assertions stops the per-track PLAY
handler before anything is called or changed. -/
theorem media_play_onreply_not_asserted (env : Env) (s : rtsp_client_t) (p : rtsp_reply_t)
    (tr : List Event) (hcode : p.rtsp_get_status_code = 200)
    (hrange : range_asserted env p = false) :
    rtsp_client_media_play_onreply env s p tr = .abort s tr := by
  rw [range_asserted] at hrange
  cases hr : p.rtsp_get_header_by_name "Range".toList with
  | none => rw [hr] at hrange; cases hrange
  | some v =>
    rw [hr] at hrange
    cases hd : env.rtsp_header_range v with
    | none => simp only [hd] at hrange; cases hrange
    | some range =>
      simp only [hd] at hrange
      have hdec : decoded_range env p = some range := by
        rw [decoded_range, hr]
        exact hd
      exact media_play_onreply_abort env s p tr range hcode hdec hrange

/-- Every path of `rtsp_client_media_play_onreply`. -/
theorem media_play_onreply_cases (env : Env) (s : rtsp_client_t) (p : rtsp_reply_t)
    (tr : List Event) :
    (∃ s1, rtsp_client_media_play_onreply env s p tr = .abort s1 tr)
    ∨ (p.rtsp_get_status_code = 200
        ∧ ∃ s1, rtsp_client_media_play_onreply env s p tr =
            .abort s1 (tr ++ [onplay_event env s.progress p]))
    ∨ (p.rtsp_get_status_code ≠ 200 ∧ rtsp_client_media_play_onreply env s p tr = .ret (-1) s tr)
    ∨ (p.rtsp_get_status_code = 200 ∧ ¬ s.media.length > s.progress + 1
        ∧ rtsp_client_media_play_onreply env s p tr =
            .ret 0 (advance s) (tr ++ [onplay_event env s.progress p]))
    ∨ (p.rtsp_get_status_code = 200 ∧ ∃ m, s.media[s.progress + 1]? = some m
        ∧ rtsp_client_media_play_onreply env s p tr =
            sent_track env (advance s) (tr ++ [onplay_event env s.progress p]) m
              (play_out env (advance s) m)) := by
  by_cases hcode : p.rtsp_get_status_code = 200
  · cases hrange : range_asserted env p with
    | false => exact Or.inl ⟨_, media_play_onreply_not_asserted env s p tr hcode hrange⟩
    | true =>
      rw [media_play_onreply_200 env s p tr hcode hrange]
      split
      · rcases media_play_cases env (advance s) (tr ++ [onplay_event env s.progress p])
          with ⟨s1, h1⟩ | ⟨m, hm, h1⟩
        · exact Or.inr (Or.inl ⟨hcode, s1, h1⟩)
        · exact Or.inr (Or.inr (Or.inr (Or.inr ⟨hcode, m, hm, h1⟩)))
      · rename_i hlast
        exact Or.inr (Or.inr (Or.inr (Or.inl ⟨hcode, hlast, rfl⟩)))
  · refine Or.inr (Or.inr (Or.inl ⟨hcode, ?_⟩))
    have : ¬ (200 = p.rtsp_get_status_code) := fun h => hcode h.symm
    simp [rtsp_client_media_play_onreply, this]

/-- Every path of `rtsp_client_play_onreply`. -/
theorem play_onreply_cases (env : Env) (s : rtsp_client_t) (p : rtsp_reply_t)
    (tr : List Event) :
    (∃ s1, rtsp_client_play_onreply env s p tr = .abort s1 tr)
    ∨ (p.rtsp_get_status_code = 200
        ∧ ∃ s1, rtsp_client_play_onreply env s p tr =
            .abort s1 (tr ++ [onplay_event env s.progress p]))
    ∨ (p.rtsp_get_status_code ≠ 200 ∧ rtsp_client_play_onreply env s p tr = .ret (-1) s tr)
    ∨ (p.rtsp_get_status_code = 459 ∧ s.aggregate = true ∧ ∃ m, s.media[s.progress]? = some m
        ∧ rtsp_client_play_onreply env s p tr = sent_track env s tr m (play_out env s m))
    ∨ (p.rtsp_get_status_code = 200 ∧ ¬ s.media.length > s.progress + 1
        ∧ rtsp_client_play_onreply env s p tr =
            .ret 0 (advance s) (tr ++ [onplay_event env s.progress p]))
    ∨ (p.rtsp_get_status_code = 200 ∧ ∃ m, s.media[s.progress + 1]? = some m
        ∧ rtsp_client_play_onreply env s p tr =
            sent_track env (advance s) (tr ++ [onplay_event env s.progress p]) m
              (play_out env (advance s) m)) := by
  have hmedia : ∀ o, o = rtsp_client_media_play_onreply env s p tr →
      (∃ s1, o = .abort s1 tr)
      ∨ (p.rtsp_get_status_code = 200
          ∧ ∃ s1, o = .abort s1 (tr ++ [onplay_event env s.progress p]))
      ∨ (p.rtsp_get_status_code ≠ 200 ∧ o = .ret (-1) s tr)
      ∨ (p.rtsp_get_status_code = 459 ∧ s.aggregate = true ∧ ∃ m, s.media[s.progress]? = some m
          ∧ o = sent_track env s tr m (play_out env s m))
      ∨ (p.rtsp_get_status_code = 200 ∧ ¬ s.media.length > s.progress + 1
          ∧ o = .ret 0 (advance s) (tr ++ [onplay_event env s.progress p]))
      ∨ (p.rtsp_get_status_code = 200 ∧ ∃ m, s.media[s.progress + 1]? = some m
          ∧ o = sent_track env (advance s) (tr ++ [onplay_event env s.progress p]) m
                (play_out env (advance s) m)) := by
    intro o ho
    subst ho
    rcases media_play_onreply_cases env s p tr with h | h | h | h | h
    · exact Or.inl h
    · exact Or.inr (Or.inl h)
    · exact Or.inr (Or.inr (Or.inl h))
    · exact Or.inr (Or.inr (Or.inr (Or.inr (Or.inl h))))
    · exact Or.inr (Or.inr (Or.inr (Or.inr (Or.inr h))))
  unfold rtsp_client_play_onreply
  split
  · exact Or.inl ⟨_, rfl⟩
  · split
    · exact Or.inl ⟨_, rfl⟩
    · by_cases hagg : s.aggregate = true
      · rw [if_pos hagg]
        unfold rtsp_client_aggregate_play_onreply
        split
        · exact Or.inl ⟨_, rfl⟩
        · split
          · exact Or.inl ⟨_, rfl⟩
          · split
            · exact Or.inl ⟨_, rfl⟩
            · simp only
              split
              · rename_i h459
                rcases media_play_cases env s tr with ⟨s1, h1⟩ | ⟨m, hm, h1⟩
                · exact Or.inl ⟨s1, h1⟩
                · exact Or.inr (Or.inr (Or.inr (Or.inl ⟨h459.symm, hagg, m, hm, h1⟩)))
              · split
                · exact hmedia _ rfl
                · rename_i h200
                  exact Or.inr (Or.inr (Or.inl ⟨fun h => h200 h.symm, rfl⟩))
      · rw [if_neg hagg]
        exact hmedia _ rfl

theorem sent_track_added (env : Env) (base : rtsp_client_t) (tr : List Event)
    (m : rtsp_media_t) (out : CStr × Int) (o : Outcome) (h : o = sent_track env base tr m out) :
    ∃ e, e.is_send = true ∧ o.events = tr ++ [e] :=
  ⟨Event.send m.uri out.1 out.2, rfl, by rw [h]; rfl⟩

theorem sent_track_added_after (env : Env) (base : rtsp_client_t) (tr : List Event) (cb : Event)
    (m : rtsp_media_t) (out : CStr × Int) (o : Outcome)
    (h : o = sent_track env base (tr ++ [cb]) m out) :
    ∃ e, e.is_send = true ∧ o.events = tr ++ [cb, e] :=
  ⟨Event.send m.uri out.1 out.2, rfl, by rw [h]; simp [sent_track, Outcome.events]⟩

theorem sent_aggregate_added (env : Env) (base : rtsp_client_t) (tr : List Event)
    (out : CStr × Int) (o : Outcome) (h : o = sent_aggregate env base tr out) :
    ∃ e, e.is_send = true ∧ o.events = tr ++ [e] :=
  ⟨Event.send base.aggregate_uri out.1 out.2, rfl, by rw [h]; rfl⟩

/-- C15 (as stated, refuted): the cseq of a track stands at 4294967295; two successive
calls of `rtsp_client_pause` send two requests to that track, the first with CSeq
4294967295 and the second with CSeq 0. -/
theorem C15_cseq_wraps :
    (run (demo_env false) [.pause, .pause] demo_wrap []).events
      = [sent "rtsp://h/t0".toList
          "PAUSE rtsp://h/t0 RTSP/1.0\r\nCSeq: 4294967295\r\nSession: S0\r\nUser-Agent: agent\r\n\r\n".toList,
        sent "rtsp://h/t0".toList
          "PAUSE rtsp://h/t0 RTSP/1.0\r\nCSeq: 0\r\nSession: S0\r\nUser-Agent: agent\r\n\r\n".toList] := by
  decide

theorem pause_out_text (env : Env) (m : rtsp_media_t) :
    (pause_out env m).1 =
      (wire_request "PAUSE".toList m.uri m.cseq m.session [] env.USER_AGENT).take
        (env.req_size - 1) := by
  simp only [pause_out, snprintf, format_pause]

theorem play_out_text (env : Env) (base : rtsp_client_t) (m : rtsp_media_t) :
    (play_out env base m).1 =
      (wire_request "PLAY".toList m.uri m.cseq m.session (base.range ++ base.speed)
        env.USER_AGENT).take (env.req_size - 1) := by
  simp only [play_out, snprintf, format_play]

theorem pause_out_aggregate_text (env : Env) (base : rtsp_client_t) (m0 : rtsp_media_t) :
    (pause_out_aggregate env base m0).1 =
      (wire_request "PAUSE".toList base.aggregate_uri base.cseq m0.session [] env.USER_AGENT).take
        (env.req_size - 1) := by
  simp only [pause_out_aggregate, snprintf, format_pause]

theorem play_out_aggregate_text (env : Env) (base : rtsp_client_t) (m0 : rtsp_media_t) :
    (play_out_aggregate env base m0).1 =
      (wire_request "PLAY".toList base.aggregate_uri base.cseq m0.session
        (base.range ++ base.speed) env.USER_AGENT).take (env.req_size - 1) := by
  simp only [play_out_aggregate, snprintf, format_play]

theorem accounted_quiet (env : Env) (s : rtsp_client_t) (tr : List Event) (r : Int)
    (s1 : rtsp_client_t) (tr1 cbs : List Event) (hcseq : s1.cseq = s.cseq)
    (hmedia : s1.media = s.media) (htr : tr1 = tr ++ cbs)
    (hcbs : cbs.filter Event.is_send = []) :
    counters_accounted env s tr (.ret r s1 tr1) :=
  Or.inl ⟨hcseq, hmedia, cbs, htr, hcbs⟩

theorem accounted_track (env : Env) (s : rtsp_client_t) (tr : List Event)
    (base : rtsp_client_t) (tr1 cbs : List Event) (m : rtsp_media_t) (out : CStr × Int)
    (method fields : CStr) (hmedia : base.media = s.media) (hcseq : base.cseq = s.cseq)
    (hm : base.media[base.progress]? = some m) (htr : tr1 = tr ++ cbs)
    (hcbs : cbs.filter Event.is_send = [])
    (htext : out.1 = (wire_request method m.uri m.cseq m.session fields env.USER_AGENT).take
      (env.req_size - 1)) :
    counters_accounted env s tr (sent_track env base tr1 m out) := by
  refine Or.inr (Or.inl ⟨base.progress, m, cbs, method, fields, out.2, ?_, hcbs, ?_, ?_, hcseq⟩)
  · rw [← hmedia]; exact hm
  · rw [htr, htext]
  · show base.media.set base.progress (bump m) = s.media.set base.progress (bump m)
    rw [hmedia]

theorem accounted_aggregate (env : Env) (s : rtsp_client_t) (tr : List Event)
    (base : rtsp_client_t) (m0 : rtsp_media_t) (out : CStr × Int) (method fields : CStr)
    (hmedia : base.media = s.media) (hcseq : base.cseq = s.cseq)
    (huri : base.aggregate_uri = s.aggregate_uri) (h0 : s.media[0]? = some m0)
    (htext : out.1 = (wire_request method s.aggregate_uri s.cseq m0.session fields
      env.USER_AGENT).take (env.req_size - 1)) :
    counters_accounted env s tr (sent_aggregate env base tr out) := by
  refine Or.inr (Or.inr ⟨m0, method, fields, out.2, h0, ?_, hmedia, ?_⟩)
  · show tr ++ [Event.send base.aggregate_uri out.1 out.2] = _
    rw [htext, huri]
  · show (base.cseq + 1) % UINT_MOD = _
    rw [hcseq]

/-- C15 (amended): every request carries the current value of the counter it uses and
advances that counter by one modulo 2^32: the track's own cseq for a per-track request
(PLAY and PAUSE alike), the session-level cseq for an aggregate request. An aggregate
request changes no track's cseq, a per-track request changes neither the session cseq nor
any other track's cseq, and a call that sends nothing changes no counter. So the CSeq
values of successive requests on a track (or of successive aggregate requests) go up by
one each and are strictly increasing until the counter wraps from 4294967295 to 0. -/
theorem C15_counter_per_request (env : Env) (c : Call) (s : rtsp_client_t) (tr : List Event) :
    counters_accounted env s tr (call env c s tr) := by
  cases c with
  | play npt speed =>
    show counters_accounted env s tr (rtsp_client_play env s npt speed tr)
    rcases play_cases env s npt speed tr with ⟨s1, h⟩ | ⟨-, m0, hm0, h⟩ | ⟨-, m, hm, h⟩
    · rw [h]; trivial
    · rw [h]
      exact accounted_aggregate env s tr _ m0 _ _ _ rfl rfl rfl hm0
        (play_out_aggregate_text env _ m0)
    · rw [h]
      exact accounted_track env s tr _ tr [] m _ _ _ rfl rfl hm (by simp) rfl
        (play_out_text env _ m)
  | pause =>
    show counters_accounted env s tr (rtsp_client_pause env s tr)
    rcases pause_cases env s tr with ⟨s1, h⟩ | ⟨-, m0, hm0, h⟩ | ⟨-, m, hm, h⟩
    · rw [h]; trivial
    · rw [h]
      exact accounted_aggregate env s tr _ m0 _ _ _ rfl rfl rfl hm0
        (pause_out_aggregate_text env _ m0)
    · rw [h]
      exact accounted_track env s tr _ tr [] m _ _ _ rfl rfl hm (by simp) rfl
        (pause_out_text env m)
  | play_onreply p =>
    show counters_accounted env s tr (rtsp_client_play_onreply env s p tr)
    rcases play_onreply_cases env s p tr with ⟨s1, h⟩ | ⟨-, s1, h⟩ | ⟨-, h⟩
      | ⟨-, -, m, hm, h⟩ | ⟨-, -, h⟩ | ⟨-, m, hm, h⟩
    · rw [h]; trivial
    · rw [h]; trivial
    · rw [h]
      exact accounted_quiet env s tr _ s tr [] rfl rfl (by simp) rfl
    · rw [h]
      exact accounted_track env s tr s tr [] m _ _ _ rfl rfl hm (by simp) rfl
        (play_out_text env s m)
    · rw [h]
      exact accounted_quiet env s tr _ (advance s) _ [onplay_event env s.progress p] rfl rfl rfl
        (by simp [onplay_event_is_send])
    · rw [h]
      exact accounted_track env s tr (advance s) _ [onplay_event env s.progress p] m _ _ _
        rfl rfl hm rfl (by simp [onplay_event_is_send]) (play_out_text env _ m)
  | pause_onreply p =>
    show counters_accounted env s tr (rtsp_client_pause_onreply env s p tr)
    rcases pause_onreply_cases env s p tr with ⟨s1, h⟩ | ⟨-, h⟩ | ⟨-, -, h⟩ | ⟨-, -, -, h⟩
      | ⟨-, -, m, hm, h⟩ | ⟨-, -, m, hm, h⟩
    · rw [h]; trivial
    · rw [h]
      exact accounted_quiet env s tr _ s tr [] rfl rfl (by simp) rfl
    · rw [h]
      exact accounted_quiet env s tr _ s _ [Event.onpause] rfl rfl rfl rfl
    · rw [h]
      exact accounted_quiet env s tr _ (advance s) _ [Event.onpause] rfl rfl rfl rfl
    · rw [h]
      exact accounted_track env s tr s tr [] m _ _ _ rfl rfl hm (by simp) rfl
        (pause_out_text env m)
    · rw [h]
      exact accounted_track env s tr (advance s) tr [] m _ _ _ rfl rfl hm (by simp) rfl
        (pause_out_text env m)

theorem sent_track_inv (env : Env) (base : rtsp_client_t) (tr : List Event) (m : rtsp_media_t)
    (out : CStr × Int) (r : Int) (s1 : rtsp_client_t) (tr1 : List Event)
    (h : sent_track env base tr m out = .ret r s1 tr1) :
    s1 = { base with req := out.1, media := base.media.set base.progress (bump m) }
      ∧ tr1 = tr ++ [Event.send m.uri out.1 out.2] := by
  unfold sent_track at h
  injection h with _ h2 h3
  exact ⟨h2.symm, h3.symm⟩

theorem sent_aggregate_inv (env : Env) (base : rtsp_client_t) (tr : List Event)
    (out : CStr × Int) (r : Int) (s1 : rtsp_client_t) (tr1 : List Event)
    (h : sent_aggregate env base tr out = .ret r s1 tr1) :
    s1 = { base with req := out.1, cseq := (base.cseq + 1) % UINT_MOD }
      ∧ tr1 = tr ++ [Event.send base.aggregate_uri out.1 out.2] := by
  unfold sent_aggregate at h
  injection h with _ h2 h3
  exact ⟨h2.symm, h3.symm⟩

theorem progress_step_quiet (c : Call) (s : rtsp_client_t) (tr : List Event)
    (s1 : rtsp_client_t) (cbs : List Event)
    (hbound : s1.progress ≤ media_count s1)
    (hreply : c.is_reply = true ∧ s.progress ≤ s1.progress ∧ s1.progress ≤ s.progress + 1)
    (hcbs : ∀ e ∈ cbs, e.is_send = false) :
    progress_step c s tr s1 (tr ++ cbs) := by
  refine ⟨hbound, fun _ => hreply.2, fun h => ?_, ?_⟩
  · rw [hreply.1] at h; cases h
  · intro cbs2 uri text bytes _ htr
    rw [List.append_assoc] at htr
    have hc := List.append_cancel_left htr
    have hmem : Event.send uri text bytes ∈ cbs := by rw [hc]; simp
    have := hcbs _ hmem
    simp [Event.is_send] at this

theorem progress_step_track (c : Call) (s : rtsp_client_t) (tr : List Event)
    (base : rtsp_client_t) (cbs : List Event) (m : rtsp_media_t) (out : CStr × Int)
    (hm : base.media[base.progress]? = some m)
    (hreply : c.is_reply = true → s.progress ≤ base.progress ∧ base.progress ≤ s.progress + 1)
    (hentry : c.is_reply = false → base.progress = 0) :
    progress_step c s tr
      { base with req := out.1, media := base.media.set base.progress (bump m) }
      (tr ++ cbs ++ [Event.send m.uri out.1 out.2]) := by
  have hlt : base.progress < base.media.length := by
    rcases List.getElem?_eq_some.1 hm with ⟨h, -⟩
    exact h
  have hlt2 : base.progress < (base.media.set base.progress (bump m)).length := by
    rw [List.length_set]; exact hlt
  refine ⟨Nat.le_of_lt hlt2, hreply, hentry, ?_⟩
  intro cbs2 uri text bytes _ htr
  refine ⟨hlt2, bump m, get_set_self _ _ _ _ hm, ?_⟩
  have hlast := congrArg List.getLast? htr
  simp at hlast
  exact hlast.1

theorem progress_step_aggregate (c : Call) (s : rtsp_client_t) (tr : List Event)
    (s1 : rtsp_client_t) (tr1 : List Event) (hentry : c.is_reply = false)
    (hagg : s.aggregate = true) (hzero : s1.progress = 0) :
    progress_step c s tr s1 tr1 := by
  refine ⟨by rw [hzero]; exact Nat.zero_le _, fun h => ?_, fun _ => hzero, ?_⟩
  · rw [hentry] at h; cases h
  · intro cbs uri text bytes hor _
    rcases hor with h | h
    · rw [hentry] at h; cases h
    · rw [hagg] at h; cases h

/-- Every step that respects the entry assertions and returns treats the cursor as
`progress_step` says. -/
theorem step_progress (env : Env) (c : Call) (s : rtsp_client_t) (tr : List Event) (r : Int)
    (s1 : rtsp_client_t) (tr1 : List Event) (hen : c.enabled s)
    (h : call env c s tr = .ret r s1 tr1) : progress_step c s tr s1 tr1 := by
  cases c with
  | play npt speed =>
    have h' : rtsp_client_play env s npt speed tr = .ret r s1 tr1 := h
    rcases play_cases env s npt speed tr with ⟨s2, hc⟩ | ⟨hagg, m0, -, hc⟩ | ⟨-, m, hm, hc⟩
    · rw [hc] at h'; cases h'
    · rw [hc] at h'
      obtain ⟨hs1, -⟩ := sent_aggregate_inv _ _ _ _ _ _ _ h'
      exact progress_step_aggregate _ s tr s1 tr1 rfl hagg (by rw [hs1]; rfl)
    · rw [hc] at h'
      obtain ⟨hs1, htr1⟩ := sent_track_inv _ _ _ _ _ _ _ _ h'
      have := progress_step_track (.play npt speed) s tr (play_prepared env s npt speed) [] m
        (play_out env (play_prepared env s npt speed) m) hm (fun hr => by cases hr) (fun _ => rfl)
      rw [hs1, htr1]
      simpa using this
  | pause =>
    have h' : rtsp_client_pause env s tr = .ret r s1 tr1 := h
    rcases pause_cases env s tr with ⟨s2, hc⟩ | ⟨hagg, m0, -, hc⟩ | ⟨-, m, hm, hc⟩
    · rw [hc] at h'; cases h'
    · rw [hc] at h'
      obtain ⟨hs1, -⟩ := sent_aggregate_inv _ _ _ _ _ _ _ h'
      exact progress_step_aggregate _ s tr s1 tr1 rfl hagg (by rw [hs1]; rfl)
    · rw [hc] at h'
      obtain ⟨hs1, htr1⟩ := sent_track_inv _ _ _ _ _ _ _ _ h'
      have := progress_step_track .pause s tr (pause_prepared s) [] m (pause_out env m) hm
        (fun hr => by cases hr) (fun _ => rfl)
      rw [hs1, htr1]
      simpa using this
  | play_onreply p =>
    have h' : rtsp_client_play_onreply env s p tr = .ret r s1 tr1 := h
    have hlt : s.progress < media_count s := hen.2
    rcases play_onreply_cases env s p tr with ⟨s2, hc⟩ | ⟨-, s2, hc⟩ | ⟨-, hc⟩
      | ⟨-, -, m, hm, hc⟩ | ⟨-, -, hc⟩ | ⟨-, m, hm, hc⟩
    · rw [hc] at h'; cases h'
    · rw [hc] at h'; cases h'
    · rw [hc] at h'
      injection h' with _ hs1 htr1
      have := progress_step_quiet (.play_onreply p) s tr s [] (Nat.le_of_lt hlt)
        ⟨rfl, Nat.le_refl _, Nat.le_succ _⟩ (by simp)
      rw [← hs1, ← htr1]
      simpa using this
    · rw [hc] at h'
      obtain ⟨hs1, htr1⟩ := sent_track_inv _ _ _ _ _ _ _ _ h'
      have := progress_step_track (.play_onreply p) s tr s [] m (play_out env s m) hm
        (fun _ => ⟨Nat.le_refl _, Nat.le_succ _⟩) (fun hr => by cases hr)
      rw [hs1, htr1]
      simpa using this
    · rw [hc] at h'
      injection h' with _ hs1 htr1
      have := progress_step_quiet (.play_onreply p) s tr (advance s)
        [onplay_event env s.progress p] hlt
        ⟨rfl, Nat.le_succ _, Nat.le_refl _⟩ (by simp [onplay_event_is_send])
      rw [← hs1, ← htr1]
      exact this
    · rw [hc] at h'
      obtain ⟨hs1, htr1⟩ := sent_track_inv _ _ _ _ _ _ _ _ h'
      have := progress_step_track (.play_onreply p) s tr (advance s)
        [onplay_event env s.progress p] m (play_out env (advance s) m) hm
        (fun _ => ⟨Nat.le_succ _, Nat.le_refl _⟩) (fun hr => by cases hr)
      rw [hs1, htr1]
      exact this
  | pause_onreply p =>
    have h' : rtsp_client_pause_onreply env s p tr = .ret r s1 tr1 := h
    have hlt : s.progress < media_count s := hen.2
    rcases pause_onreply_cases env s p tr with ⟨s2, hc⟩ | ⟨-, hc⟩ | ⟨-, -, hc⟩ | ⟨-, -, -, hc⟩
      | ⟨-, -, m, hm, hc⟩ | ⟨-, -, m, hm, hc⟩
    · rw [hc] at h'; cases h'
    · rw [hc] at h'
      injection h' with _ hs1 htr1
      have := progress_step_quiet (.pause_onreply p) s tr s [] (Nat.le_of_lt hlt)
        ⟨rfl, Nat.le_refl _, Nat.le_succ _⟩ (by simp)
      rw [← hs1, ← htr1]
      simpa using this
    · rw [hc] at h'
      injection h' with _ hs1 htr1
      have := progress_step_quiet (.pause_onreply p) s tr s [Event.onpause] (Nat.le_of_lt hlt)
        ⟨rfl, Nat.le_refl _, Nat.le_succ _⟩ (by simp [Event.is_send])
      rw [← hs1, ← htr1]
      exact this
    · rw [hc] at h'
      injection h' with _ hs1 htr1
      have := progress_step_quiet (.pause_onreply p) s tr (advance s) [Event.onpause] hlt
        ⟨rfl, Nat.le_succ _, Nat.le_refl _⟩ (by simp [Event.is_send])
      rw [← hs1, ← htr1]
      exact this
    · rw [hc] at h'
      obtain ⟨hs1, htr1⟩ := sent_track_inv _ _ _ _ _ _ _ _ h'
      have := progress_step_track (.pause_onreply p) s tr s [] m (pause_out env m) hm
        (fun _ => ⟨Nat.le_refl _, Nat.le_succ _⟩) (fun hr => by cases hr)
      rw [hs1, htr1]
      simpa using this
    · rw [hc] at h'
      obtain ⟨hs1, htr1⟩ := sent_track_inv _ _ _ _ _ _ _ _ h'
      have := progress_step_track (.pause_onreply p) s tr (advance s) [] m (pause_out env m) hm
        (fun _ => ⟨Nat.le_succ _, Nat.le_refl _⟩) (fun hr => by cases hr)
      rw [hs1, htr1]
      simpa using this

/-- With assertions enabled, a call that returns has respected the entry assertions. -/
theorem enabled_of_ret (env : Env) (c : Call) (s : rtsp_client_t) (tr : List Event) (r : Int)
    (s1 : rtsp_client_t) (tr1 : List Event) (hN : env.NDEBUG = false)
    (h : call env c s tr = .ret r s1 tr1) : c.enabled s := by
  cases c with
  | play npt speed => trivial
  | pause =>
    have h' : rtsp_client_pause env s tr = .ret r s1 tr1 := h
    rw [rtsp_client_pause_unfold] at h'
    by_cases hst : s.state = .RTSP_SETUP ∨ s.state = .RTSP_PLAY ∨ s.state = .RTSP_PAUSE
    · exact hst
    · have hne : s.state ≠ .RTSP_SETUP ∧ s.state ≠ .RTSP_PLAY ∧ s.state ≠ .RTSP_PAUSE := by
        refine ⟨fun h1 => hst (Or.inl h1), fun h1 => hst (Or.inr (Or.inl h1)),
          fun h1 => hst (Or.inr (Or.inr h1))⟩
      simp [assert, hN, hne.1, hne.2.1, hne.2.2] at h'
  | play_onreply p =>
    have h' : rtsp_client_play_onreply env s p tr = .ret r s1 tr1 := h
    unfold rtsp_client_play_onreply at h'
    by_cases hst : s.state = .RTSP_PLAY
    · by_cases hlt : s.progress < media_count s
      · exact ⟨hst, hlt⟩
      · simp [assert, hN, hst, hlt] at h'
    · simp [assert, hN, hst] at h'
  | pause_onreply p =>
    have h' : rtsp_client_pause_onreply env s p tr = .ret r s1 tr1 := h
    unfold rtsp_client_pause_onreply at h'
    by_cases hst : s.state = .RTSP_PAUSE
    · by_cases hlt : s.progress < media_count s
      · exact ⟨hst, hlt⟩
      · simp [assert, hN, hst, hlt] at h'
    · simp [assert, hN, hst] at h'

/-- C18: in every state reached from a session with `progress = 0` by calls of
`rtsp_client_play`, `rtsp_client_pause`, `rtsp_client_play_onreply` and
`rtsp_client_pause_onreply` (calls that respect the entry assertions; with assertions
enabled, any calls), `progress` does not exceed the track count; and every further such
call that returns leaves `progress` within the track count, raises it by at most one and
never lowers it if it is a reply handler, sets it to 0 if it is a play or pause call, and,
when it has just sent a per-track request, leaves `progress` below the track count with the
request addressed to `tracks[progress]`. -/
theorem C18_progress_invariant (env : Env) (s0 s : rtsp_client_t) (tr : List Event)
    (h0 : s0.progress = 0) (hreach : Reachable env s0 s tr) :
    s.progress ≤ media_count s
    ∧ ∀ (c : Call) (r : Int) (s1 : rtsp_client_t) (tr1 : List Event),
        (c.enabled s ∨ env.NDEBUG = false) → call env c s tr = .ret r s1 tr1 →
        progress_step c s tr s1 tr1 := by
  have hstep : ∀ (c : Call) (s : rtsp_client_t) (tr : List Event) (r : Int)
      (s1 : rtsp_client_t) (tr1 : List Event),
      (c.enabled s ∨ env.NDEBUG = false) → call env c s tr = .ret r s1 tr1 →
      progress_step c s tr s1 tr1 := by
    intro c s tr r s1 tr1 hen h
    rcases hen with hen | hN
    · exact step_progress env c s tr r s1 tr1 hen h
    · exact step_progress env c s tr r s1 tr1 (enabled_of_ret env c s tr r s1 tr1 hN h) h
  refine ⟨?_, fun c r s1 tr1 hen h => hstep c s tr r s1 tr1 hen h⟩
  induction hreach with
  | start => rw [h0]; exact Nat.zero_le _
  | step c r s1 tr1 _ hen h _ => exact (hstep c _ _ r s1 tr1 hen h).1

theorem C18_progress_invariant_witness :
    (rtsp_client_pause (demo_env false) (demo_session false) []).session.progress
        ≤ media_count (rtsp_client_pause (demo_env false) (demo_session false) []).session
    ∧ ∀ (c : Call) (r : Int) (s1 : rtsp_client_t) (tr1 : List Event),
        (c.enabled (rtsp_client_pause (demo_env false) (demo_session false) []).session
          ∨ (demo_env false).NDEBUG = false) →
        call (demo_env false) c (rtsp_client_pause (demo_env false) (demo_session false) []).session
          (rtsp_client_pause (demo_env false) (demo_session false) []).events = .ret r s1 tr1 →
        progress_step c (rtsp_client_pause (demo_env false) (demo_session false) []).session
          (rtsp_client_pause (demo_env false) (demo_session false) []).events s1 tr1 :=
  C18_progress_invariant (demo_env false) (demo_session false) _ _ rfl
    (Reachable.step (.pause) 0 _ _ Reachable.start (Or.inl (Or.inl rfl)) (by decide))

theorem map_set_bump (l : List rtsp_media_t) (i : Nat) (m : rtsp_media_t)
    (h : l[i]? = some m) :
    (l.set i (bump m)).map (fun m => (m.uri, m.session)) = l.map (fun m => (m.uri, m.session)) := by
  induction l generalizing i with
  | nil => rfl
  | cons a l ih =>
    cases i with
    | zero =>
      simp at h
      subst h
      simp [bump]
    | succ i =>
      simp at h
      simp [ih i h]

theorem same_target_refl (s : rtsp_client_t) : same_target s s := ⟨rfl, rfl, rfl⟩

theorem same_target_trans (a b c : rtsp_client_t) (h1 : same_target a b)
    (h2 : same_target b c) : same_target a c :=
  ⟨h2.1.trans h1.1, h2.2.1.trans h1.2.1, h2.2.2.trans h1.2.2⟩

/-- A per-track dispatch that reached `send` keeps the state, the cursor and the targets. -/
theorem sent_track_target (env : Env) (base : rtsp_client_t) (tr : List Event)
    (m : rtsp_media_t) (out : CStr × Int) (r : Int) (s1 : rtsp_client_t) (tr1 : List Event)
    (hm : base.media[base.progress]? = some m)
    (h : sent_track env base tr m out = .ret r s1 tr1) :
    s1.state = base.state ∧ s1.progress = base.progress ∧ same_target base s1 := by
  obtain ⟨hs1, -⟩ := sent_track_inv _ _ _ _ _ _ _ _ h
  subst hs1
  exact ⟨rfl, rfl, rfl, rfl, map_set_bump _ _ _ hm⟩

/-- A call of `rtsp_client_pause` that returns leaves state Pause, cursor 0 and the same
targets. -/
theorem pause_ret_target (env : Env) (s : rtsp_client_t) (tr : List Event) (r : Int)
    (s1 : rtsp_client_t) (tr1 : List Event) (h : rtsp_client_pause env s tr = .ret r s1 tr1) :
    s1.state = .RTSP_PAUSE ∧ s1.progress = 0 ∧ same_target s s1 := by
  rcases pause_cases env s tr with ⟨s2, hc⟩ | ⟨-, m0, -, hc⟩ | ⟨-, m, hm, hc⟩
  · rw [hc] at h; cases h
  · rw [hc] at h
    obtain ⟨hs1, -⟩ := sent_aggregate_inv _ _ _ _ _ _ _ h
    subst hs1
    exact ⟨rfl, rfl, rfl, rfl, rfl⟩
  · rw [hc] at h
    exact sent_track_target env (pause_prepared s) tr m _ r s1 tr1 hm h

/-- A call of `rtsp_client_pause_onreply` that returns keeps the state and the targets. -/
theorem pause_onreply_ret_target (env : Env) (s : rtsp_client_t) (p : rtsp_reply_t)
    (tr : List Event) (r : Int) (s1 : rtsp_client_t) (tr1 : List Event)
    (h : rtsp_client_pause_onreply env s p tr = .ret r s1 tr1) :
    s1.state = s.state ∧ same_target s s1 := by
  rcases pause_onreply_cases env s p tr with ⟨s2, hc⟩ | ⟨-, hc⟩ | ⟨-, -, hc⟩ | ⟨-, -, -, hc⟩
    | ⟨-, -, m, hm, hc⟩ | ⟨-, -, m, hm, hc⟩
  · rw [hc] at h; cases h
  · rw [hc] at h
    injection h with _ hs1 _
    subst hs1
    exact ⟨rfl, same_target_refl _⟩
  · rw [hc] at h
    injection h with _ hs1 _
    subst hs1
    exact ⟨rfl, same_target_refl _⟩
  · rw [hc] at h
    injection h with _ hs1 _
    subst hs1
    exact ⟨rfl, rfl, rfl, rfl⟩
  · rw [hc] at h
    have := sent_track_target env s tr m _ r s1 tr1 hm h
    exact ⟨this.1, this.2.2⟩
  · rw [hc] at h
    have := sent_track_target env (advance s) tr m _ r s1 tr1 hm h
    exact ⟨this.1, this.2.2⟩

/-- Any sequence of replies delivered to the PAUSE handler keeps the state and the
targets. -/
theorem pause_replies_target (env : Env) :
    ∀ (replies : List rtsp_reply_t) (s : rtsp_client_t) (tr : List Event) (r : Int)
      (s1 : rtsp_client_t) (tr1 : List Event),
      pause_replies env replies s tr = .ret r s1 tr1 → s1.state = s.state ∧ same_target s s1 := by
  intro replies
  induction replies with
  | nil =>
    intro s tr r s1 tr1 h
    simp only [pause_replies] at h
    injection h with _ hs1 _
    subst hs1
    exact ⟨rfl, same_target_refl _⟩
  | cons p ps ih =>
    intro s tr r s1 tr1 h
    simp only [pause_replies] at h
    cases hstep : rtsp_client_pause_onreply env s p tr with
    | abort s2 tr2 => rw [hstep] at h; cases h
    | ret r2 s2 tr2 =>
      rw [hstep] at h
      have hinv := pause_onreply_ret_target env s p tr r2 s2 tr2 hstep
      by_cases hr : r2 = 0
      · simp only [hr, if_true] at h
        have := ih s2 tr2 r s1 tr1 h
        exact ⟨this.1.trans hinv.1, same_target_trans _ _ _ hinv.2 this.2⟩
      · simp only [hr, if_false] at h
        injection h with _ hs1 _
        subst hs1
        exact hinv

/-- After `rtsp_client_pause` and any replies, a session that returned is in state Pause
and addresses the same targets as before. -/
theorem pause_session_target (env : Env) (s0 : rtsp_client_t) (replies : List rtsp_reply_t)
    (r1 : Int) (s1 : rtsp_client_t) (tr1 : List Event)
    (h : pause_session env s0 replies = .ret r1 s1 tr1) :
    s1.state = .RTSP_PAUSE ∧ same_target s0 s1 := by
  simp only [pause_session] at h
  cases hstep : rtsp_client_pause env s0 [] with
  | abort s2 tr2 => rw [hstep] at h; cases h
  | ret r2 s2 tr2 =>
    rw [hstep] at h
    have hinv := pause_ret_target env s0 [] r2 s2 tr2 hstep
    by_cases hr : r2 = 0
    · simp only [hr, if_true] at h
      have := pause_replies_target env replies s2 tr2 r1 s1 tr1 h
      exact ⟨this.1.trans hinv.1, same_target_trans _ _ _ hinv.2.2 this.2⟩
    · simp only [hr, if_false] at h
      injection h with _ hs1 _
      subst hs1
      exact ⟨hinv.1, hinv.2.2⟩

/-- In a state that PAUSE accepts, `rtsp_client_pause` does not depend on the state and
the cursor it finds. -/
theorem pause_forgets_cursor (env : Env) (s : rtsp_client_t) (st : rtsp_state) (k : Nat)
    (tr : List Event)
    (hs : s.state = .RTSP_SETUP ∨ s.state = .RTSP_PLAY ∨ s.state = .RTSP_PAUSE)
    (hst : st = .RTSP_SETUP ∨ st = .RTSP_PLAY ∨ st = .RTSP_PAUSE) :
    rtsp_client_pause env s tr = rtsp_client_pause env { s with state := st, progress := k } tr := by
  have e1 : (!assert env (s.state == .RTSP_SETUP || s.state == .RTSP_PLAY
      || s.state == .RTSP_PAUSE)) = false := by
    rcases hs with h | h | h <;> simp [assert, h]
  have e2 : (!assert env (st == .RTSP_SETUP || st == .RTSP_PLAY || st == .RTSP_PAUSE)) = false := by
    rcases hst with h | h | h <;> simp [assert, h]
  rw [rtsp_client_pause_unfold, rtsp_client_pause_unfold]
  simp only [e1, e2]
  rfl

/-- The exact outcome of a 200 reply given to `rtsp_client_play_onreply` on a session that
meets the entry assertions: a `Range` assertion stops the handler before anything is
called, or `onplay` is invoked and the cursor advanced, and then the request of the next
track is dispatched, or 0 returned when there is none. -/
theorem play_onreply_200_exact (env : Env) (rtsp : rtsp_client_t) (parser : rtsp_reply_t)
    (trace : List Event) (hst : rtsp.state = .RTSP_PLAY)
    (hlt : rtsp.progress < rtsp.media.length)
    (hagg : rtsp.aggregate = true → rtsp.progress = 0)
    (hcode : parser.rtsp_get_status_code = 200) :
    rtsp_client_play_onreply env rtsp parser trace =
      if range_asserted env parser = true then
        (if rtsp.media.length > rtsp.progress + 1 then
          rtsp_client_media_play env { rtsp with progress := rtsp.progress + 1 }
            (trace ++ [onplay_event env rtsp.progress parser])
        else
          .ret 0 { rtsp with progress := rtsp.progress + 1 }
            (trace ++ [onplay_event env rtsp.progress parser]))
      else
        .abort rtsp trace := by
  rw [play_onreply_200_eq env rtsp parser trace hst hlt hagg hcode]
  cases hr : range_asserted env parser with
  | true =>
    simp only [if_true]
    exact media_play_onreply_200 env rtsp parser trace hcode hr
  | false =>
    simp only [Bool.false_eq_true, if_false]
    exact media_play_onreply_not_asserted env rtsp parser trace hcode hr

/-- The call a 200 reply adds first to the trace is the `onplay` call for the track under
the cursor, unless a `Range` assertion stops the handler, which then adds nothing. -/
theorem play_onreply_200_first (env : Env) (rtsp : rtsp_client_t) (parser : rtsp_reply_t)
    (trace : List Event) (hst : rtsp.state = .RTSP_PLAY)
    (hlt : rtsp.progress < rtsp.media.length)
    (hagg : rtsp.aggregate = true → rtsp.progress = 0)
    (hcode : parser.rtsp_get_status_code = 200) :
    (rtsp_client_play_onreply env rtsp parser trace).events[trace.length]? =
      if range_asserted env parser = true then some (onplay_event env rtsp.progress parser)
      else none := by
  rw [play_onreply_200_eq env rtsp parser trace hst hlt hagg hcode]
  cases hr : range_asserted env parser with
  | true =>
    simp only [if_true]
    exact media_play_onreply_first_event env rtsp parser trace hcode hr
  | false =>
    simp only [Bool.false_eq_true, if_false]
    rw [media_play_onreply_not_asserted env rtsp parser trace hcode hr]
    simp [Outcome.events]

/-- C9 (amended): a 200 reply with an `RTP-Info` header, given to `rtsp_client_play_onreply`
on a session that meets the entry assertions (state Play, cursor on a track, cursor 0 when
aggregate). Unless an assertion on the `Range` header stops the handler, in which case
nothing is called, `onplay` is the first call made, for the track under the cursor. The
count it receives is the number of entries presented to the decoder (the comma-separated
entries, at most `N_MEDIA` of them), decoded or not; the array holds, in header order, one
slot per presented entry, filled with uri, sequence number and timestamp when the entry
decodes and left zeroed when it does not, followed by the untouched zeroed slots. A
malformed entry is no error: after `onplay` the handler advances `progress` and returns 0
on the last track, or else dispatches the PLAY request of the next track and returns what
that dispatch returns. -/
theorem C9_rtp_info_slots (env : Env) (rtsp : rtsp_client_t) (parser : rtsp_reply_t)
    (trace : List Event) (v : CStr)
    (hst : rtsp.state = .RTSP_PLAY) (hlt : rtsp.progress < rtsp.media.length)
    (hagg : rtsp.aggregate = true → rtsp.progress = 0)
    (hcode : parser.rtsp_get_status_code = 200)
    (hv : parser.rtsp_get_header_by_name "RTP-Info".toList = some v) :
    rtsp_client_play_onreply env rtsp parser trace =
      (if range_asserted env parser = true then
        (if rtsp.media.length > rtsp.progress + 1 then
          rtsp_client_media_play env { rtsp with progress := rtsp.progress + 1 }
            (trace ++ [onplay_event env rtsp.progress parser])
        else
          .ret 0 { rtsp with progress := rtsp.progress + 1 }
            (trace ++ [onplay_event env rtsp.progress parser]))
      else
        .abort rtsp trace)
    ∧ (rtsp_client_play_onreply env rtsp parser trace).events[trace.length]? =
        (if range_asserted env parser = true then some (onplay_event env rtsp.progress parser)
         else none)
    ∧ (onplay_event env rtsp.progress parser).onplay_index = some rtsp.progress
    ∧ (onplay_event env rtsp.progress parser).onplay_count
        = some (min env.N_MEDIA (rtp_entries v).length)
    ∧ (onplay_event env rtsp.progress parser).onplay_slots
        = some (((rtp_entries v).take env.N_MEDIA).map (rtp_slot env)
          ++ List.replicate (env.N_MEDIA - (rtp_entries v).length) zero_slot) :=
  ⟨play_onreply_200_exact env rtsp parser trace hst hlt hagg hcode,
    play_onreply_200_first env rtsp parser trace hst hlt hagg hcode,
    onplay_event_index env rtsp.progress parser,
    (onplay_event_rtp_info env rtsp.progress parser v hv).2,
    (onplay_event_rtp_info env rtsp.progress parser v hv).1⟩

theorem C9_rtp_info_slots_witness :
    rtsp_client_play_onreply (demo_env false) demo_last_track
        (reply_rtp_info "x,url=t".toList) [] =
      (if range_asserted (demo_env false) (reply_rtp_info "x,url=t".toList) = true then
        (if demo_last_track.media.length > demo_last_track.progress + 1 then
          rtsp_client_media_play (demo_env false)
            { demo_last_track with progress := demo_last_track.progress + 1 }
            ([] ++ [onplay_event (demo_env false) demo_last_track.progress
              (reply_rtp_info "x,url=t".toList)])
        else
          .ret 0 { demo_last_track with progress := demo_last_track.progress + 1 }
            ([] ++ [onplay_event (demo_env false) demo_last_track.progress
              (reply_rtp_info "x,url=t".toList)]))
      else
        .abort demo_last_track [])
    ∧ (rtsp_client_play_onreply (demo_env false) demo_last_track
        (reply_rtp_info "x,url=t".toList) []).events[([] : List Event).length]? =
        (if range_asserted (demo_env false) (reply_rtp_info "x,url=t".toList) = true then
          some (onplay_event (demo_env false) demo_last_track.progress
            (reply_rtp_info "x,url=t".toList))
         else none)
    ∧ (onplay_event (demo_env false) demo_last_track.progress
        (reply_rtp_info "x,url=t".toList)).onplay_index = some demo_last_track.progress
    ∧ (onplay_event (demo_env false) demo_last_track.progress
        (reply_rtp_info "x,url=t".toList)).onplay_count
        = some (min (demo_env false).N_MEDIA (rtp_entries "x,url=t".toList).length)
    ∧ (onplay_event (demo_env false) demo_last_track.progress
        (reply_rtp_info "x,url=t".toList)).onplay_slots
        = some (((rtp_entries "x,url=t".toList).take (demo_env false).N_MEDIA).map
            (rtp_slot (demo_env false))
          ++ List.replicate ((demo_env false).N_MEDIA - (rtp_entries "x,url=t".toList).length)
            zero_slot) :=
  C9_rtp_info_slots (demo_env false) demo_last_track (reply_rtp_info "x,url=t".toList) []
    "x,url=t".toList rfl (by decide) (by decide) rfl (by decide)

/-- C17 (amended): a 200 reply given to `rtsp_client_play_onreply` on a session that meets
the entry assertions (state Play, cursor on a track, cursor 0 when aggregate). Unless an
assertion on the `Range` header stops the handler, in which case nothing is called,
`onplay` is the first call made, and its scale argument is present exactly when the reply
carries a `Scale` header, whatever its value: it is the value `atof` returns for the
header's text. A value that is not a number is no error and is not treated as absent.
After `onplay` the handler advances `progress` and returns 0 on the last track, or else
dispatches the PLAY request of the next track and returns what that dispatch returns. -/
theorem C17_scale_follows_header (env : Env) (rtsp : rtsp_client_t) (parser : rtsp_reply_t)
    (trace : List Event)
    (hst : rtsp.state = .RTSP_PLAY) (hlt : rtsp.progress < rtsp.media.length)
    (hagg : rtsp.aggregate = true → rtsp.progress = 0)
    (hcode : parser.rtsp_get_status_code = 200) :
    rtsp_client_play_onreply env rtsp parser trace =
      (if range_asserted env parser = true then
        (if rtsp.media.length > rtsp.progress + 1 then
          rtsp_client_media_play env { rtsp with progress := rtsp.progress + 1 }
            (trace ++ [onplay_event env rtsp.progress parser])
        else
          .ret 0 { rtsp with progress := rtsp.progress + 1 }
            (trace ++ [onplay_event env rtsp.progress parser]))
      else
        .abort rtsp trace)
    ∧ (rtsp_client_play_onreply env rtsp parser trace).events[trace.length]? =
        (if range_asserted env parser = true then some (onplay_event env rtsp.progress parser)
         else none)
    ∧ (onplay_event env rtsp.progress parser).onplay_scale
        = some ((parser.rtsp_get_header_by_name "Scale".toList).map c_double.mk) :=
  ⟨play_onreply_200_exact env rtsp parser trace hst hlt hagg hcode,
    play_onreply_200_first env rtsp parser trace hst hlt hagg hcode,
    onplay_event_scale env rtsp.progress parser⟩

theorem C17_scale_follows_header_witness :
    rtsp_client_play_onreply (demo_env false) demo_last_track
        (reply_header "Scale".toList "abc".toList) [] =
      (if range_asserted (demo_env false) (reply_header "Scale".toList "abc".toList) = true then
        (if demo_last_track.media.length > demo_last_track.progress + 1 then
          rtsp_client_media_play (demo_env false)
            { demo_last_track with progress := demo_last_track.progress + 1 }
            ([] ++ [onplay_event (demo_env false) demo_last_track.progress
              (reply_header "Scale".toList "abc".toList)])
        else
          .ret 0 { demo_last_track with progress := demo_last_track.progress + 1 }
            ([] ++ [onplay_event (demo_env false) demo_last_track.progress
              (reply_header "Scale".toList "abc".toList)]))
      else
        .abort demo_last_track [])
    ∧ (rtsp_client_play_onreply (demo_env false) demo_last_track
        (reply_header "Scale".toList "abc".toList) []).events[([] : List Event).length]? =
        (if range_asserted (demo_env false) (reply_header "Scale".toList "abc".toList) = true then
          some (onplay_event (demo_env false) demo_last_track.progress
            (reply_header "Scale".toList "abc".toList))
         else none)
    ∧ (onplay_event (demo_env false) demo_last_track.progress
        (reply_header "Scale".toList "abc".toList)).onplay_scale
        = some (((reply_header "Scale".toList "abc".toList).rtsp_get_header_by_name
            "Scale".toList).map c_double.mk) :=
  C17_scale_follows_header (demo_env false) demo_last_track
    (reply_header "Scale".toList "abc".toList) [] rfl (by decide) (by decide) rfl

/-! ## What `send` reports decides the result of a dispatch -/

theorem sent_track_decided (env : Env) (base : rtsp_client_t) (tr : List Event)
    (m : rtsp_media_t) (out : CStr × Int) (o : Outcome) (h : o = sent_track env base tr m out) :
    o.decided_by_send env tr := by
  subst h
  exact Or.inr ⟨[], m.uri, out.1, out.2, rfl, by simp [sent_track, Outcome.events],
    by simp [sent_track, Outcome.result]⟩

theorem sent_track_decided_after (env : Env) (base : rtsp_client_t) (tr : List Event)
    (cb : Event) (m : rtsp_media_t) (out : CStr × Int) (o : Outcome)
    (hcb : cb.is_send = false) (h : o = sent_track env base (tr ++ [cb]) m out) :
    o.decided_by_send env tr := by
  subst h
  exact Or.inr ⟨[cb], m.uri, out.1, out.2, by simp [hcb], by simp [sent_track, Outcome.events],
    by simp [sent_track, Outcome.result]⟩

theorem sent_aggregate_decided (env : Env) (base : rtsp_client_t) (tr : List Event)
    (out : CStr × Int) (o : Outcome) (h : o = sent_aggregate env base tr out) :
    o.decided_by_send env tr := by
  subst h
  exact Or.inr ⟨[], base.aggregate_uri, out.1, out.2, rfl,
    by simp [sent_aggregate, Outcome.events], by simp [sent_aggregate, Outcome.result]⟩

/-- Whatever the call, the session, the trace and the build: a call makes at most one
`send`, as its last action, and that `send` decides what the call returns. -/
theorem call_decided_by_send (env : Env) (c : Call) (s : rtsp_client_t) (tr : List Event) :
    (call env c s tr).decided_by_send env tr := by
  have hq : ∀ (o : Outcome) (cbs : List Event), o.events = tr ++ cbs →
      cbs.filter Event.is_send = [] → o.decided_by_send env tr :=
    fun o cbs h1 h2 => Or.inl ⟨cbs, h1, h2⟩
  cases c with
  | play npt speed =>
    show (rtsp_client_play env s npt speed tr).decided_by_send env tr
    rcases play_cases env s npt speed tr with ⟨s1, h⟩ | ⟨-, m0, -, h⟩ | ⟨-, m, -, h⟩
    · exact hq _ [] (by rw [h]; simp [Outcome.events]) rfl
    · exact sent_aggregate_decided _ _ _ _ _ h
    · exact sent_track_decided _ _ _ _ _ _ h
  | pause =>
    show (rtsp_client_pause env s tr).decided_by_send env tr
    rcases pause_cases env s tr with ⟨s1, h⟩ | ⟨-, m0, -, h⟩ | ⟨-, m, -, h⟩
    · exact hq _ [] (by rw [h]; simp [Outcome.events]) rfl
    · exact sent_aggregate_decided _ _ _ _ _ h
    · exact sent_track_decided _ _ _ _ _ _ h
  | play_onreply p =>
    show (rtsp_client_play_onreply env s p tr).decided_by_send env tr
    have hon : (onplay_event env s.progress p).is_send = false :=
      onplay_event_is_send env s.progress p
    rcases play_onreply_cases env s p tr with ⟨s1, h⟩ | ⟨-, s1, h⟩ | ⟨-, h⟩
      | ⟨-, -, m, -, h⟩ | ⟨-, -, h⟩ | ⟨-, m, -, h⟩
    · exact hq _ [] (by rw [h]; simp [Outcome.events]) rfl
    · exact hq _ [onplay_event env s.progress p] (by rw [h]; rfl) (by simp [hon])
    · exact hq _ [] (by rw [h]; simp [Outcome.events]) rfl
    · exact sent_track_decided _ _ _ _ _ _ h
    · exact hq _ [onplay_event env s.progress p] (by rw [h]; rfl) (by simp [hon])
    · exact sent_track_decided_after _ _ _ _ _ _ _ hon h
  | pause_onreply p =>
    show (rtsp_client_pause_onreply env s p tr).decided_by_send env tr
    rcases pause_onreply_cases env s p tr with ⟨s1, h⟩ | ⟨-, h⟩ | ⟨-, -, h⟩ | ⟨-, -, -, h⟩
      | ⟨-, -, m, -, h⟩ | ⟨-, -, m, -, h⟩
    · exact hq _ [] (by rw [h]; simp [Outcome.events]) rfl
    · exact hq _ [] (by rw [h]; simp [Outcome.events]) rfl
    · exact hq _ [Event.onpause] (by rw [h]; rfl) rfl
    · exact hq _ [Event.onpause] (by rw [h]; rfl) rfl
    · exact sent_track_decided _ _ _ _ _ _ h
    · exact sent_track_decided _ _ _ _ _ _ h

/-- C13: at every dispatch site, on every session that meets the assertions of that site,
`send` is called exactly once with the whole formatted request, and the call returns 0 if
and only if `send` reports exactly the full length of the request, and -1 for any other
value. The sites, each with its own hypotheses: `rtsp_client_play` and `rtsp_client_pause`
on a session with any number of tracks from one (target: the aggregate uri, or the first
track); the next-track dispatch of the PAUSE handler and of the PLAY handler for a 200
reply (the track after the cursor; in the PLAY handler after `onplay`). Moreover, whatever
the call, the session, the trace and the build, also where an assertion is not met but
compiled out: a call makes at most one `send`, as its last action, and returns 0 when
`send` reports the byte count it was given and -1 otherwise. -/
theorem C13_send_decides (env : Env) (trace : List Event) :
    (∀ (rtsp : rtsp_client_t) (media0 : rtsp_media_t) (npt : Option Nat)
        (speed : Option c_float),
      rtsp.media[0]? = some media0 →
      (rtsp.aggregate = false → media0.session ≠ []) →
      (rtsp.aggregate = true → rtsp.aggregate_uri ≠ []) →
      (wire_request "PLAY".toList (target_uri rtsp media0) (target_cseq rtsp media0)
        media0.session (play_range env npt ++ play_speed env speed) env.USER_AGENT).length
        < env.req_size →
      (rtsp_client_play env rtsp npt speed trace).dispatched env trace (target_uri rtsp media0)
        (wire_request "PLAY".toList (target_uri rtsp media0) (target_cseq rtsp media0)
          media0.session (play_range env npt ++ play_speed env speed) env.USER_AGENT))
    ∧ (∀ (rtsp : rtsp_client_t) (media0 : rtsp_media_t),
      (rtsp.state = .RTSP_SETUP ∨ rtsp.state = .RTSP_PLAY ∨ rtsp.state = .RTSP_PAUSE) →
      rtsp.media[0]? = some media0 →
      (rtsp.aggregate = false → media0.session ≠ []) →
      (rtsp.aggregate = true → rtsp.aggregate_uri ≠ []) →
      (wire_request "PAUSE".toList (target_uri rtsp media0) (target_cseq rtsp media0)
        media0.session [] env.USER_AGENT).length < env.req_size →
      (rtsp_client_pause env rtsp trace).dispatched env trace (target_uri rtsp media0)
        (wire_request "PAUSE".toList (target_uri rtsp media0) (target_cseq rtsp media0)
          media0.session [] env.USER_AGENT))
    ∧ (∀ (rtsp : rtsp_client_t) (parser : rtsp_reply_t) (m : rtsp_media_t),
      rtsp.state = .RTSP_PAUSE → rtsp.aggregate = false →
      rtsp.media[rtsp.progress + 1]? = some m → m.session ≠ [] →
      (pause_text env m).length < env.req_size →
      parser.rtsp_get_status_code = 200 →
      (rtsp_client_pause_onreply env rtsp parser trace).dispatched env trace m.uri
        (pause_text env m))
    ∧ (∀ (rtsp : rtsp_client_t) (parser : rtsp_reply_t) (m : rtsp_media_t),
      rtsp.state = .RTSP_PLAY → rtsp.aggregate = false →
      rtsp.media[rtsp.progress + 1]? = some m → m.session ≠ [] →
      (play_text env (rtsp.range ++ rtsp.speed) m).length < env.req_size →
      parser.rtsp_get_status_code = 200 → range_asserted env parser = true →
      (rtsp_client_play_onreply env rtsp parser trace).dispatched env
        (trace ++ [onplay_event env rtsp.progress parser]) m.uri
        (play_text env (rtsp.range ++ rtsp.speed) m))
    ∧ ∀ (c : Call) (s : rtsp_client_t) (tr : List Event),
        (call env c s tr).decided_by_send env tr := by
  refine ⟨?_, ?_, ?_, ?_, fun c s tr => call_decided_by_send env c s tr⟩
  · intro rtsp media0 npt speed h0 hs0 huri hfit
    rw [play_entry_exact env rtsp npt speed trace media0 h0 hs0 huri hfit]
    exact dispatched_of_ret _ _ _ _ _
  · intro rtsp media0 hstate h0 hs0 huri hfit
    rw [pause_entry_exact env rtsp trace media0 hstate h0 hs0 huri hfit]
    exact dispatched_of_ret _ _ _ _ _
  · intro rtsp parser m hst hagg hm hs hfit hcode
    rw [pause_onreply_next_exact env rtsp parser trace m hst hagg hm hs hfit hcode]
    exact dispatched_of_ret _ _ _ _ _
  · intro rtsp parser m hst hagg hm hs hfit hcode hrange
    rw [play_onreply_next_exact env rtsp parser trace m hst hagg hm hs hfit hcode hrange]
    exact dispatched_of_ret _ _ _ _ _

theorem C13_send_decides_witness :
    (rtsp_client_play (demo_env false) demo_single (some 10500) none []).dispatched
        (demo_env false) [] (target_uri demo_single
          { uri := "rtsp://h/t0".toList, cseq := 4, session := "S0".toList })
        (wire_request "PLAY".toList
          (target_uri demo_single
            { uri := "rtsp://h/t0".toList, cseq := 4, session := "S0".toList })
          (target_cseq demo_single
            { uri := "rtsp://h/t0".toList, cseq := 4, session := "S0".toList })
          "S0".toList
          (play_range (demo_env false) (some 10500) ++ play_speed (demo_env false) none)
          (demo_env false).USER_AGENT)
    ∧ (rtsp_client_pause (demo_env false) (demo_session true) []).dispatched
        (demo_env false) [] (target_uri (demo_session true)
          { uri := "rtsp://h/t0".toList, cseq := 3, session := "S0".toList })
        (wire_request "PAUSE".toList
          (target_uri (demo_session true)
            { uri := "rtsp://h/t0".toList, cseq := 3, session := "S0".toList })
          (target_cseq (demo_session true)
            { uri := "rtsp://h/t0".toList, cseq := 3, session := "S0".toList })
          "S0".toList [] (demo_env false).USER_AGENT)
    ∧ (rtsp_client_pause_onreply (demo_env false) demo_paused (reply_code 200) []).dispatched
        (demo_env false) [] "rtsp://h/t1".toList
        (pause_text (demo_env false)
          { uri := "rtsp://h/t1".toList, cseq := 5, session := "S1".toList })
    ∧ (rtsp_client_play_onreply (demo_env false) demo_playing (reply_code 200) []).dispatched
        (demo_env false)
        ([] ++ [onplay_event (demo_env false) demo_playing.progress (reply_code 200)])
        "rtsp://h/t1".toList
        (play_text (demo_env false) (demo_playing.range ++ demo_playing.speed)
          { uri := "rtsp://h/t1".toList, cseq := 5, session := "S1".toList }) :=
  ⟨(C13_send_decides (demo_env false) []).1 demo_single
      { uri := "rtsp://h/t0".toList, cseq := 4, session := "S0".toList } (some 10500) none
      rfl (by decide) (by decide) (by decide),
    (C13_send_decides (demo_env false) []).2.1 (demo_session true)
      { uri := "rtsp://h/t0".toList, cseq := 3, session := "S0".toList }
      (Or.inl rfl) rfl (by decide) (by decide) (by decide),
    (C13_send_decides (demo_env false) []).2.2.1 demo_paused (reply_code 200)
      { uri := "rtsp://h/t1".toList, cseq := 5, session := "S1".toList }
      rfl rfl rfl (by decide) (by decide) rfl,
    (C13_send_decides (demo_env false) []).2.2.2.1 demo_playing (reply_code 200)
      { uri := "rtsp://h/t1".toList, cseq := 5, session := "S1".toList }
      rfl rfl rfl (by decide) (by decide) rfl (by decide)⟩

/-- C20: when `send` does not accept the whole request, nothing is rolled back. At each
dispatch site, on every session that meets the assertions of that site, and whenever what
`send` reports for this request is not its full length (an error value, zero, a short
count or a larger one): `rtsp_client_play` (resp. `rtsp_client_pause`), on a session with
any number of tracks from one, returns -1 with the request handed to `send`, the state
already Play (resp. Pause), `progress = 0` and the counter of the target advanced by one
(modulo 2^32): the session cseq on an aggregate session, the cseq of the first track
otherwise. The next-track dispatch inside the PAUSE handler and the PLAY handler of a 200
reply returns -1 with `progress` already advanced and the cseq of that track consumed. -/
theorem C20_failed_send_not_rolled_back (env : Env) (trace : List Event) :
    (∀ (rtsp : rtsp_client_t) (media0 : rtsp_media_t) (npt : Option Nat)
        (speed : Option c_float),
      rtsp.media[0]? = some media0 →
      (rtsp.aggregate = false → media0.session ≠ []) →
      (rtsp.aggregate = true → rtsp.aggregate_uri ≠ []) →
      (wire_request "PLAY".toList (target_uri rtsp media0) (target_cseq rtsp media0)
        media0.session (play_range env npt ++ play_speed env speed) env.USER_AGENT).length
        < env.req_size →
      env.send trace (target_uri rtsp media0)
          (wire_request "PLAY".toList (target_uri rtsp media0) (target_cseq rtsp media0)
            media0.session (play_range env npt ++ play_speed env speed) env.USER_AGENT)
          ((wire_request "PLAY".toList (target_uri rtsp media0) (target_cseq rtsp media0)
            media0.session (play_range env npt ++ play_speed env speed)
            env.USER_AGENT).length : Int)
        ≠ ((wire_request "PLAY".toList (target_uri rtsp media0) (target_cseq rtsp media0)
            media0.session (play_range env npt ++ play_speed env speed)
            env.USER_AGENT).length : Int) →
      ∃ s1, rtsp_client_play env rtsp npt speed trace =
          .ret (-1) s1 (trace ++ [sent (target_uri rtsp media0)
            (wire_request "PLAY".toList (target_uri rtsp media0) (target_cseq rtsp media0)
              media0.session (play_range env npt ++ play_speed env speed) env.USER_AGENT)])
        ∧ s1.state = .RTSP_PLAY ∧ s1.progress = 0
        ∧ (if rtsp.aggregate then s1.cseq = (rtsp.cseq + 1) % UINT_MOD
            else s1.media[0]? = some { media0 with cseq := (media0.cseq + 1) % UINT_MOD }))
    ∧ (∀ (rtsp : rtsp_client_t) (media0 : rtsp_media_t),
      (rtsp.state = .RTSP_SETUP ∨ rtsp.state = .RTSP_PLAY ∨ rtsp.state = .RTSP_PAUSE) →
      rtsp.media[0]? = some media0 →
      (rtsp.aggregate = false → media0.session ≠ []) →
      (rtsp.aggregate = true → rtsp.aggregate_uri ≠ []) →
      (wire_request "PAUSE".toList (target_uri rtsp media0) (target_cseq rtsp media0)
        media0.session [] env.USER_AGENT).length < env.req_size →
      env.send trace (target_uri rtsp media0)
          (wire_request "PAUSE".toList (target_uri rtsp media0) (target_cseq rtsp media0)
            media0.session [] env.USER_AGENT)
          ((wire_request "PAUSE".toList (target_uri rtsp media0) (target_cseq rtsp media0)
            media0.session [] env.USER_AGENT).length : Int)
        ≠ ((wire_request "PAUSE".toList (target_uri rtsp media0) (target_cseq rtsp media0)
            media0.session [] env.USER_AGENT).length : Int) →
      ∃ s1, rtsp_client_pause env rtsp trace =
          .ret (-1) s1 (trace ++ [sent (target_uri rtsp media0)
            (wire_request "PAUSE".toList (target_uri rtsp media0) (target_cseq rtsp media0)
              media0.session [] env.USER_AGENT)])
        ∧ s1.state = .RTSP_PAUSE ∧ s1.progress = 0
        ∧ (if rtsp.aggregate then s1.cseq = (rtsp.cseq + 1) % UINT_MOD
            else s1.media[0]? = some { media0 with cseq := (media0.cseq + 1) % UINT_MOD }))
    ∧ (∀ (rtsp : rtsp_client_t) (parser : rtsp_reply_t) (m : rtsp_media_t),
      rtsp.state = .RTSP_PAUSE → rtsp.aggregate = false →
      rtsp.media[rtsp.progress + 1]? = some m → m.session ≠ [] →
      (pause_text env m).length < env.req_size →
      parser.rtsp_get_status_code = 200 →
      env.send trace m.uri (pause_text env m) ((pause_text env m).length : Int)
        ≠ ((pause_text env m).length : Int) →
      ∃ s1, rtsp_client_pause_onreply env rtsp parser trace =
          .ret (-1) s1 (trace ++ [sent m.uri (pause_text env m)])
        ∧ s1.progress = rtsp.progress + 1
        ∧ s1.media[rtsp.progress + 1]? = some { m with cseq := (m.cseq + 1) % UINT_MOD })
    ∧ (∀ (rtsp : rtsp_client_t) (parser : rtsp_reply_t) (m : rtsp_media_t),
      rtsp.state = .RTSP_PLAY → rtsp.aggregate = false →
      rtsp.media[rtsp.progress + 1]? = some m → m.session ≠ [] →
      (play_text env (rtsp.range ++ rtsp.speed) m).length < env.req_size →
      parser.rtsp_get_status_code = 200 → range_asserted env parser = true →
      env.send (trace ++ [onplay_event env rtsp.progress parser]) m.uri
          (play_text env (rtsp.range ++ rtsp.speed) m)
          ((play_text env (rtsp.range ++ rtsp.speed) m).length : Int)
        ≠ ((play_text env (rtsp.range ++ rtsp.speed) m).length : Int) →
      ∃ s1, rtsp_client_play_onreply env rtsp parser trace =
          .ret (-1) s1 (trace ++ [onplay_event env rtsp.progress parser]
            ++ [sent m.uri (play_text env (rtsp.range ++ rtsp.speed) m)])
        ∧ s1.progress = rtsp.progress + 1
        ∧ s1.media[rtsp.progress + 1]? = some { m with cseq := (m.cseq + 1) % UINT_MOD }) := by
  have hres : ∀ tr u q, env.send tr u q (q.length : Int) ≠ (q.length : Int) →
      send_result env tr u q = -1 := by
    intro tr u q h
    unfold send_result
    rw [if_neg (fun h2 => h h2.symm)]
  refine ⟨?_, ?_, ?_, ?_⟩
  · intro rtsp media0 npt speed h0 hs0 huri hfit hfail
    refine ⟨_, play_entry_exact env rtsp npt speed trace media0 h0 hs0 huri hfit
      |>.trans (by rw [hres _ _ _ hfail]), ?_, ?_, ?_⟩
    · cases hagg : rtsp.aggregate <;> simp [entry_session, play_prepared, hagg]
    · cases hagg : rtsp.aggregate <;> simp [entry_session, play_prepared, hagg]
    · cases hagg : rtsp.aggregate with
      | true => simp [entry_session, play_prepared, hagg]
      | false =>
        simp only [entry_session, play_prepared, hagg]
        exact get_set_self _ _ _ _ h0
  · intro rtsp media0 hstate h0 hs0 huri hfit hfail
    refine ⟨_, pause_entry_exact env rtsp trace media0 hstate h0 hs0 huri hfit
      |>.trans (by rw [hres _ _ _ hfail]), ?_, ?_, ?_⟩
    · cases hagg : rtsp.aggregate <;> simp [entry_session, hagg]
    · cases hagg : rtsp.aggregate <;> simp [entry_session, hagg]
    · cases hagg : rtsp.aggregate with
      | true => simp [entry_session, hagg]
      | false =>
        simp only [entry_session, hagg]
        exact get_set_self _ _ _ _ h0
  · intro rtsp parser m hst hagg hm hs hfit hcode hfail
    exact ⟨_, pause_onreply_next_exact env rtsp parser trace m hst hagg hm hs hfit hcode
      |>.trans (by rw [hres _ _ _ hfail]), rfl, get_set_self _ _ _ _ hm⟩
  · intro rtsp parser m hst hagg hm hs hfit hcode hrange hfail
    exact ⟨_, play_onreply_next_exact env rtsp parser trace m hst hagg hm hs hfit hcode hrange
      |>.trans (by rw [hres _ _ _ hfail]), rfl, get_set_self _ _ _ _ hm⟩

theorem C20_failed_send_not_rolled_back_witness :
    (∃ s1, rtsp_client_play (demo_env_refused false) demo_single (some 10500) none [] =
          .ret (-1) s1 ([] ++ [sent
            (target_uri demo_single
              { uri := "rtsp://h/t0".toList, cseq := 4, session := "S0".toList })
            (wire_request "PLAY".toList
              (target_uri demo_single
                { uri := "rtsp://h/t0".toList, cseq := 4, session := "S0".toList })
              (target_cseq demo_single
                { uri := "rtsp://h/t0".toList, cseq := 4, session := "S0".toList })
              "S0".toList
              (play_range (demo_env_refused false) (some 10500)
                ++ play_speed (demo_env_refused false) none)
              (demo_env_refused false).USER_AGENT)])
        ∧ s1.state = .RTSP_PLAY ∧ s1.progress = 0
        ∧ (if demo_single.aggregate then s1.cseq = (demo_single.cseq + 1) % UINT_MOD
            else s1.media[0]? = some
              { ({ uri := "rtsp://h/t0".toList, cseq := 4, session := "S0".toList } : rtsp_media_t)
                with cseq := (4 + 1) % UINT_MOD }))
    ∧ (∃ s1, rtsp_client_pause (demo_env_refused false) (demo_session true) [] =
          .ret (-1) s1 ([] ++ [sent
            (target_uri (demo_session true)
              { uri := "rtsp://h/t0".toList, cseq := 3, session := "S0".toList })
            (wire_request "PAUSE".toList
              (target_uri (demo_session true)
                { uri := "rtsp://h/t0".toList, cseq := 3, session := "S0".toList })
              (target_cseq (demo_session true)
                { uri := "rtsp://h/t0".toList, cseq := 3, session := "S0".toList })
              "S0".toList
              [] (demo_env_refused false).USER_AGENT)])
        ∧ s1.state = .RTSP_PAUSE ∧ s1.progress = 0
        ∧ (if (demo_session true).aggregate then
              s1.cseq = ((demo_session true).cseq + 1) % UINT_MOD
            else s1.media[0]? = some
              { ({ uri := "rtsp://h/t0".toList, cseq := 3, session := "S0".toList } : rtsp_media_t)
                with cseq := (3 + 1) % UINT_MOD }))
    ∧ (∃ s1, rtsp_client_pause_onreply (demo_env_refused false) demo_paused (reply_code 200) [] =
          .ret (-1) s1 ([] ++ [sent
            "rtsp://h/t1".toList
            (pause_text (demo_env_refused false)
              { uri := "rtsp://h/t1".toList, cseq := 5, session := "S1".toList })])
        ∧ s1.progress = demo_paused.progress + 1
        ∧ s1.media[demo_paused.progress + 1]? = some
            { ({ uri := "rtsp://h/t1".toList, cseq := 5, session := "S1".toList } : rtsp_media_t)
              with cseq := (5 + 1) % UINT_MOD })
    ∧ (∃ s1, rtsp_client_play_onreply (demo_env_refused false) demo_playing (reply_code 200) [] =
          .ret (-1) s1 ([] ++ [onplay_event (demo_env_refused false) demo_playing.progress
              (reply_code 200)]
            ++ [sent
              "rtsp://h/t1".toList
              (play_text (demo_env_refused false) (demo_playing.range ++ demo_playing.speed)
                { uri := "rtsp://h/t1".toList, cseq := 5, session := "S1".toList })])
        ∧ s1.progress = demo_playing.progress + 1
        ∧ s1.media[demo_playing.progress + 1]? = some
            { ({ uri := "rtsp://h/t1".toList, cseq := 5, session := "S1".toList } : rtsp_media_t)
              with cseq := (5 + 1) % UINT_MOD }) :=
  ⟨(C20_failed_send_not_rolled_back (demo_env_refused false) []).1 demo_single
      { uri := "rtsp://h/t0".toList, cseq := 4, session := "S0".toList } (some 10500) none
      rfl (by decide) (by decide) (by decide) (by decide),
    (C20_failed_send_not_rolled_back (demo_env_refused false) []).2.1 (demo_session true)
      { uri := "rtsp://h/t0".toList, cseq := 3, session := "S0".toList }
      (Or.inl rfl) rfl (by decide) (by decide) (by decide) (by decide),
    (C20_failed_send_not_rolled_back (demo_env_refused false) []).2.2.1 demo_paused
      (reply_code 200) { uri := "rtsp://h/t1".toList, cseq := 5, session := "S1".toList }
      rfl rfl rfl (by decide) (by decide) rfl (by decide),
    (C20_failed_send_not_rolled_back (demo_env_refused false) []).2.2.2 demo_playing
      (reply_code 200) { uri := "rtsp://h/t1".toList, cseq := 5, session := "S1".toList }
      rfl rfl rfl (by decide) (by decide) rfl (by decide) (by decide)⟩

/-! ## What each call adds to the trace -/

/-- With `NDEBUG`, `rtsp_client_media_play` on a session whose cursor is on a track always
reaches `send`. -/
theorem media_play_ndebug (env : Env) (s : rtsp_client_t) (tr : List Event) (m : rtsp_media_t)
    (hN : env.NDEBUG = true) (hm : s.media[s.progress]? = some m) :
    rtsp_client_media_play env s tr = sent_track env s tr m (play_out env s m) := by
  unfold rtsp_client_media_play
  simp only [rtsp_get_media, hm, assert, hN, Bool.true_or, Bool.not_true, Bool.false_eq_true,
    if_false]
  rfl

theorem media_pause_ndebug (env : Env) (s : rtsp_client_t) (tr : List Event) (m : rtsp_media_t)
    (hN : env.NDEBUG = true) (hm : s.media[s.progress]? = some m) :
    rtsp_client_media_pause env s tr = sent_track env s tr m (pause_out env m) := by
  unfold rtsp_client_media_pause
  simp only [rtsp_get_media, hm, assert, hN, Bool.true_or, Bool.not_true, Bool.false_eq_true,
    if_false]
  rfl

theorem play_entry_ndebug (env : Env) (s : rtsp_client_t) (npt : Option Nat)
    (speed : Option c_float) (tr : List Event) (m0 : rtsp_media_t)
    (hN : env.NDEBUG = true) (h0 : s.media[0]? = some m0) :
    ∃ e, e.is_send = true ∧ (rtsp_client_play env s npt speed tr).events = tr ++ [e]
      ∧ (rtsp_client_play env s npt speed tr).result ≠ none := by
  rw [rtsp_client_play_unfold]
  cases hagg : s.aggregate with
  | false =>
    simp only [Bool.false_eq_true, if_false]
    rw [media_play_ndebug env (play_prepared env s npt speed) tr m0 hN h0]
    exact ⟨Event.send _ _ _, rfl, rfl, by simp [sent_track, Outcome.result]⟩
  | true =>
    simp only [if_true]
    unfold play_aggregate_branch
    have h0' : (play_prepared env s npt speed).media[0]? = some m0 := h0
    simp only [h0', assert, hN, Bool.true_or, Bool.not_true, Bool.false_eq_true, if_false]
    exact ⟨Event.send _ _ _, rfl, rfl, by simp [Outcome.result]⟩

theorem pause_entry_ndebug (env : Env) (s : rtsp_client_t) (tr : List Event) (m0 : rtsp_media_t)
    (hN : env.NDEBUG = true) (h0 : s.media[0]? = some m0) :
    ∃ e, e.is_send = true ∧ (rtsp_client_pause env s tr).events = tr ++ [e]
      ∧ (rtsp_client_pause env s tr).result ≠ none := by
  rw [rtsp_client_pause_unfold]
  simp only [assert, hN, Bool.true_or, Bool.not_true, Bool.false_eq_true, if_false]
  cases hagg : s.aggregate with
  | false =>
    simp only [Bool.false_eq_true, if_false]
    rw [media_pause_ndebug env (pause_prepared s) tr m0 hN h0]
    exact ⟨Event.send _ _ _, rfl, rfl, by simp [sent_track, Outcome.result]⟩
  | true =>
    simp only [if_true]
    unfold pause_aggregate_branch
    have h0' : (pause_prepared s).media[0]? = some m0 := h0
    simp only [h0', assert, hN, Bool.true_or, Bool.not_true, Bool.false_eq_true, if_false]
    exact ⟨Event.send _ _ _, rfl, rfl, by simp [Outcome.result]⟩

/-- With assertions enabled, a 459 reply on an aggregate session stops the PLAY handler
before anything is called. -/
theorem play_onreply_459_debug (env : Env) (s : rtsp_client_t) (p : rtsp_reply_t)
    (tr : List Event) (hN : env.NDEBUG = false) (hagg : s.aggregate = true)
    (hcode : p.rtsp_get_status_code = 459) :
    ∃ s1, rtsp_client_play_onreply env s p tr = .abort s1 tr := by
  unfold rtsp_client_play_onreply
  split
  · exact ⟨_, rfl⟩
  · split
    · exact ⟨_, rfl⟩
    · unfold rtsp_client_aggregate_play_onreply
      split
      · exact ⟨_, rfl⟩
      · split
        · exact ⟨_, rfl⟩
        · split
          · exact ⟨_, rfl⟩
          · simp only [hcode, if_true]
            unfold rtsp_client_media_play
            simp [assert, hN, hagg]

/-- C19 (as stated, refuted): with `NDEBUG`, an aggregate session in state Play receives a
459 reply to its aggregate request. The PLAY handler sends the request of the first track
and invokes no `onplay` for the reply: a `send` that no `onplay` precedes. -/
theorem C19_send_without_onplay :
    (rtsp_client_play_onreply (demo_env true) { demo_session true with state := .RTSP_PLAY }
        (reply_code 459) []).events
      = [sent "rtsp://h/t0".toList
          (wire_request "PLAY".toList "rtsp://h/t0".toList 3 "S0".toList [] "agent".toList)] := by
  decide

/-- C19 (amended): what each call adds to the trace. An entry call on a session with a
first track that no assertion stops calls `send` exactly once and nothing else, and
returns: no assertion stops `rtsp_client_play` or `rtsp_client_pause` when `NDEBUG` is
defined, or when the asserted conditions hold (for PAUSE the state is Setup, Play or
Pause; the aggregate uri is set on an aggregate session, the session id of the first track
otherwise; the request fits the buffer). Whatever the call, the session and the build: an
entry call either is stopped by an assertion and has called nothing, or returns and has
called `send` exactly once and nothing else. A PLAY reply handler adds nothing, or the
`onplay` call for the current reply, or that `onplay` call followed by one `send`, or, for
a 459 reply on an aggregate session with `NDEBUG`, one `send` that no `onplay` precedes:
the PLAY request of the track under the cursor. A PAUSE reply handler adds nothing, or one
`onpause`, or one `send`, never both. So a reply handler calls `send` at most once. -/
theorem C19_calls_per_step (env : Env) :
    (∀ (rtsp : rtsp_client_t) (media0 : rtsp_media_t) (npt : Option Nat)
        (speed : Option c_float) (tr : List Event),
      rtsp.media[0]? = some media0 →
      (env.NDEBUG = true
        ∨ ((rtsp.aggregate = false → media0.session ≠ [])
          ∧ (rtsp.aggregate = true → rtsp.aggregate_uri ≠ [])
          ∧ (wire_request "PLAY".toList (target_uri rtsp media0) (target_cseq rtsp media0)
              media0.session (play_range env npt ++ play_speed env speed)
              env.USER_AGENT).length < env.req_size)) →
      ∃ e, e.is_send = true ∧ (rtsp_client_play env rtsp npt speed tr).events = tr ++ [e]
        ∧ (rtsp_client_play env rtsp npt speed tr).result ≠ none)
    ∧ (∀ (rtsp : rtsp_client_t) (media0 : rtsp_media_t) (tr : List Event),
      rtsp.media[0]? = some media0 →
      (env.NDEBUG = true
        ∨ ((rtsp.state = .RTSP_SETUP ∨ rtsp.state = .RTSP_PLAY ∨ rtsp.state = .RTSP_PAUSE)
          ∧ (rtsp.aggregate = false → media0.session ≠ [])
          ∧ (rtsp.aggregate = true → rtsp.aggregate_uri ≠ [])
          ∧ (wire_request "PAUSE".toList (target_uri rtsp media0) (target_cseq rtsp media0)
              media0.session [] env.USER_AGENT).length < env.req_size)) →
      ∃ e, e.is_send = true ∧ (rtsp_client_pause env rtsp tr).events = tr ++ [e]
        ∧ (rtsp_client_pause env rtsp tr).result ≠ none)
    ∧ ∀ (c : Call) (s : rtsp_client_t) (t : List Event),
      ∃ added, (call env c s t).events = t ++ added ∧
        match c with
        | .play _ _ =>
          ((call env c s t).result = none ∧ added = [])
            ∨ ((call env c s t).result ≠ none ∧ ∃ e, e.is_send = true ∧ added = [e])
        | .pause =>
          ((call env c s t).result = none ∧ added = [])
            ∨ ((call env c s t).result ≠ none ∧ ∃ e, e.is_send = true ∧ added = [e])
        | .play_onreply p =>
          added = [] ∨ added = [onplay_event env s.progress p]
            ∨ (∃ e, e.is_send = true ∧ added = [onplay_event env s.progress p, e])
            ∨ (p.rtsp_get_status_code = 459 ∧ s.aggregate = true ∧ env.NDEBUG = true
                ∧ ∃ m, s.media[s.progress]? = some m
                  ∧ added = [Event.send m.uri (play_out env s m).1 (play_out env s m).2])
        | .pause_onreply _ =>
          added = [] ∨ added = [Event.onpause] ∨ ∃ e, e.is_send = true ∧ added = [e] := by
  refine ⟨?_, ?_, ?_⟩
  · intro rplay m0play npt speed tr hplay_0 hplay_ok
    rcases hplay_ok with hN | ⟨hs, huri, hfit⟩
    · exact play_entry_ndebug env rplay npt speed tr m0play hN hplay_0
    · rw [play_entry_exact env rplay npt speed tr m0play hplay_0 hs huri hfit]
      exact ⟨sent _ _, rfl, rfl, by simp [Outcome.result]⟩
  · intro rpause m0pause tr hpause_0 hpause_ok
    rcases hpause_ok with hN | ⟨hst, hs, huri, hfit⟩
    · exact pause_entry_ndebug env rpause tr m0pause hN hpause_0
    · rw [pause_entry_exact env rpause tr m0pause hst hpause_0 hs huri hfit]
      exact ⟨sent _ _, rfl, rfl, by simp [Outcome.result]⟩
  · intro c s t
    cases c with
    | play npt2 speed2 =>
      show ∃ added, (rtsp_client_play env s npt2 speed2 t).events = t ++ added ∧
        (((rtsp_client_play env s npt2 speed2 t).result = none ∧ added = [])
          ∨ ((rtsp_client_play env s npt2 speed2 t).result ≠ none
              ∧ ∃ e, e.is_send = true ∧ added = [e]))
      rcases play_cases env s npt2 speed2 t with ⟨s1, h⟩ | ⟨-, m0, -, h⟩ | ⟨-, m, -, h⟩
      · exact ⟨[], by rw [h]; simp [Outcome.events], Or.inl ⟨by rw [h]; rfl, rfl⟩⟩
      · obtain ⟨e, he, hev⟩ := sent_aggregate_added _ _ _ _ _ h
        exact ⟨[e], hev, Or.inr ⟨by rw [h]; simp [sent_aggregate, Outcome.result], e, he, rfl⟩⟩
      · obtain ⟨e, he, hev⟩ := sent_track_added _ _ _ _ _ _ h
        exact ⟨[e], hev, Or.inr ⟨by rw [h]; simp [sent_track, Outcome.result], e, he, rfl⟩⟩
    | pause =>
      show ∃ added, (rtsp_client_pause env s t).events = t ++ added ∧
        (((rtsp_client_pause env s t).result = none ∧ added = [])
          ∨ ((rtsp_client_pause env s t).result ≠ none ∧ ∃ e, e.is_send = true ∧ added = [e]))
      rcases pause_cases env s t with ⟨s1, h⟩ | ⟨-, m0, -, h⟩ | ⟨-, m, -, h⟩
      · exact ⟨[], by rw [h]; simp [Outcome.events], Or.inl ⟨by rw [h]; rfl, rfl⟩⟩
      · obtain ⟨e, he, hev⟩ := sent_aggregate_added _ _ _ _ _ h
        exact ⟨[e], hev, Or.inr ⟨by rw [h]; simp [sent_aggregate, Outcome.result], e, he, rfl⟩⟩
      · obtain ⟨e, he, hev⟩ := sent_track_added _ _ _ _ _ _ h
        exact ⟨[e], hev, Or.inr ⟨by rw [h]; simp [sent_track, Outcome.result], e, he, rfl⟩⟩
    | play_onreply p =>
      show ∃ added, (rtsp_client_play_onreply env s p t).events = t ++ added ∧
        (added = [] ∨ added = [onplay_event env s.progress p]
          ∨ (∃ e, e.is_send = true ∧ added = [onplay_event env s.progress p, e])
          ∨ (p.rtsp_get_status_code = 459 ∧ s.aggregate = true ∧ env.NDEBUG = true
              ∧ ∃ m, s.media[s.progress]? = some m
                ∧ added = [Event.send m.uri (play_out env s m).1 (play_out env s m).2]))
      rcases play_onreply_cases env s p t with ⟨s1, h⟩ | ⟨-, s1, h⟩ | ⟨-, h⟩
        | ⟨h459, hagg, m, hm, h⟩ | ⟨-, -, h⟩ | ⟨-, m, -, h⟩
      · exact ⟨[], by rw [h]; simp [Outcome.events], Or.inl rfl⟩
      · exact ⟨[_], by rw [h]; rfl, Or.inr (Or.inl rfl)⟩
      · exact ⟨[], by rw [h]; simp [Outcome.events], Or.inl rfl⟩
      · have hN : env.NDEBUG = true := by
          cases hN : env.NDEBUG with
          | true => rfl
          | false =>
            obtain ⟨s1, h1⟩ := play_onreply_459_debug env s p t hN hagg h459
            rw [h1] at h
            cases h
        exact ⟨[_], by rw [h]; rfl, Or.inr (Or.inr (Or.inr ⟨h459, hagg, hN, m, hm, rfl⟩))⟩
      · exact ⟨[_], by rw [h]; rfl, Or.inr (Or.inl rfl)⟩
      · obtain ⟨e, he, hev⟩ := sent_track_added_after _ _ _ _ _ _ _ h
        exact ⟨[_, e], hev, Or.inr (Or.inr (Or.inl ⟨e, he, rfl⟩))⟩
    | pause_onreply p =>
      show ∃ added, (rtsp_client_pause_onreply env s p t).events = t ++ added ∧
        (added = [] ∨ added = [Event.onpause] ∨ ∃ e, e.is_send = true ∧ added = [e])
      rcases pause_onreply_cases env s p t with ⟨s1, h⟩ | ⟨-, h⟩ | ⟨-, -, h⟩ | ⟨-, -, -, h⟩
        | ⟨-, -, m, -, h⟩ | ⟨-, -, m, -, h⟩
      · exact ⟨[], by rw [h]; simp [Outcome.events], Or.inl rfl⟩
      · exact ⟨[], by rw [h]; simp [Outcome.events], Or.inl rfl⟩
      · exact ⟨[_], by rw [h]; rfl, Or.inr (Or.inl rfl)⟩
      · exact ⟨[_], by rw [h]; rfl, Or.inr (Or.inl rfl)⟩
      · obtain ⟨e, he, hev⟩ := sent_track_added _ _ _ _ _ _ h
        exact ⟨[e], hev, Or.inr (Or.inr ⟨e, he, rfl⟩)⟩
      · obtain ⟨e, he, hev⟩ := sent_track_added _ _ _ _ _ _ h
        exact ⟨[e], hev, Or.inr (Or.inr ⟨e, he, rfl⟩)⟩

theorem C19_calls_per_step_witness :
    (∃ e, e.is_send = true
        ∧ (rtsp_client_play (demo_env false) demo_single (some 10500) none []).events = [] ++ [e]
        ∧ (rtsp_client_play (demo_env false) demo_single (some 10500) none []).result ≠ none)
    ∧ (∃ e, e.is_send = true
        ∧ (rtsp_client_pause (demo_env false) (demo_session true) []).events = [] ++ [e]
        ∧ (rtsp_client_pause (demo_env false) (demo_session true) []).result ≠ none) :=
  ⟨(C19_calls_per_step (demo_env false)).1 demo_single
      { uri := "rtsp://h/t0".toList, cseq := 4, session := "S0".toList } (some 10500) none []
      rfl (Or.inr ⟨by decide, by decide, by decide⟩),
    (C19_calls_per_step (demo_env false)).2.1 (demo_session true)
      { uri := "rtsp://h/t0".toList, cseq := 3, session := "S0".toList } []
      rfl (Or.inr ⟨Or.inl rfl, by decide, by decide, by decide⟩)⟩

/-! ## A second PAUSE on a paused session -/

